import Mathlib

/-! Touch engine (`frontend/src/lib/touchEngine.js`): gesture recognizer and handlers

Shallow embedding of the gesture layer.

* JavaScript numbers are elements of a linearly ordered field `α` (instantiate with `ℚ` to
  evaluate, with `ℝ` for the geometric statements).  `x / 0` is `0` in a Lean field where
  JavaScript yields `Infinity` or `NaN`; no statement below depends on the value of such a
  quotient.
* The `Math` object is a parameter `M : JSMath α`; `realMath` is the instance over `ℝ`.
* `Date.now()` is read once per dispatched DOM event or timer callback: every handler takes
  the clock value `now` as an argument.
* `setTimeout` / `clearTimeout` act on an explicit queue of pending timers.  In the event
  loop (`GestureRecognizer.dispatch`) a pending timer fires at its due time, before any input
  that arrives at that time or later.
* `emit` and `hapticFeedback.*` append to an effect log; handler classes consume that log
  through their registered callbacks.
* Reading a field of `null` (a `TypeError`) is the result `none`.
-/

namespace TouchEngine

/-! ## Numeric environment -/

/-- The part of the JavaScript `Math` object the engine calls. -/
structure JSMath (α : Type) where
  sqrt : α → α
  atan2 : α → α → α
  cos : α → α
  sin : α → α
  pi : α

/-- `{x, y}` relative to the bound element (the `clientX/Y`, `pageX/Y` passthrough fields of
`getTouchPosition` are never read by the engine and are not carried). -/
structure Point (α : Type) where
  x : α
  y : α
deriving DecidableEq

/-- A DOM `Touch`, reduced to the coordinates `getTouchPosition` reads. -/
structure Touch (α : Type) where
  clientX : α
  clientY : α
deriving DecidableEq

/-- What `element.getBoundingClientRect()` returns. -/
structure Rect (α : Type) where
  left : α
  top : α
  width : α
  height : α
deriving DecidableEq

/-- A `touchstart` / `touchmove` event: `e.touches` is `first :: rest` (the DOM never
dispatches these with an empty touch list), together with the bounding rect of the element
at dispatch time. -/
structure TouchEvent (α : Type) where
  first : Touch α
  rest : List (Touch α)
  rect : Rect α
deriving DecidableEq

section Defs

variable {α : Type} [LinearOrderedField α]

/-- `Array.from(e.touches)`. -/
def TouchEvent.touches (e : TouchEvent α) : List (Touch α) := e.first :: e.rest

/-- `getTouchPosition(touch, element)`. -/
def getTouchPosition (touch : Touch α) (rect : Rect α) : Point α :=
  { x := touch.clientX - rect.left, y := touch.clientY - rect.top }

/-- `getDistance(p1, p2)`. -/
def getDistance (M : JSMath α) (p1 p2 : Point α) : α :=
  let dx := p2.x - p1.x
  let dy := p2.y - p1.y
  M.sqrt (dx * dx + dy * dy)

/-- `getAngle(p1, p2)`, in degrees. -/
def getAngle (M : JSMath α) (p1 p2 : Point α) : α :=
  let dx := p2.x - p1.x
  let dy := p2.y - p1.y
  (M.atan2 dy dx * 180) / M.pi

/-- `getVelocity(distance, time)`. -/
def getVelocity (distance time : α) : α :=
  if time > 0 then distance / time else 0

end Defs

/-! ## Haptics and recognizer events -/

/-- The named patterns of `hapticFeedback` that the engine triggers. -/
inductive Haptic where
  | light | medium | heavy | cast | reelClick | tensionWarning
deriving DecidableEq

/-- The four results of `getSwipeDirection`. -/
inductive Direction where
  | right | down | up | left
deriving DecidableEq

/-- The object `swipeData` built in `handleTouchEnd`. -/
structure SwipeData (α : Type) where
  direction : Direction
  distance : α
  velocity : α
  angle : α
  startPosition : Point α
  endPosition : Point α
  duration : α
deriving DecidableEq

/-- The payload `{ position, delta, totalDelta }` of `touchMove` / `panMove` / `pan`. -/
structure MoveData (α : Type) where
  position : Point α
  delta : Point α
  totalDelta : Point α
deriving DecidableEq

/-- One call `this.emit(name, data)` of the recognizer (the raw DOM `event` field is dropped).
`touchEnd` carries `duration` from `handleTouchEnd` and `cancelled: true` from
`handleTouchCancel`; its `position` is `state.lastPosition`, possibly `null`. -/
inductive GestureEvent (α : Type) where
  | tap (position : Point α)
  | doubleTap (position : Point α)
  | longPress (position : Point α) (duration : α)
  | swipe (data : SwipeData α)
  | swipeUp (data : SwipeData α)
  | swipeDown (data : SwipeData α)
  | swipeLeft (data : SwipeData α)
  | swipeRight (data : SwipeData α)
  | pinch (scale : α) (center : Point α)
  | rotate (rotation : α) (center : Point α)
  | pan (data : MoveData α)
  | panStart (position : Point α)
  | panMove (data : MoveData α)
  | panEnd (position : Point α) (duration : α)
  | touchStart (position : Point α) (touches : List (Point α))
  | touchMove (data : MoveData α) (touches : List (Point α))
  | touchEnd (position : Option (Point α)) (duration : Option α) (cancelled : Bool)
deriving DecidableEq

/-- Observable effects of one recognizer handler run, in program order. -/
inductive Effect (α : Type) where
  | emit (e : GestureEvent α)
  | haptic (h : Haptic)
  | preventDefault
deriving DecidableEq

/-! ## GestureRecognizer -/

/-- `this.options` of a `GestureRecognizer`. -/
structure Options (α : Type) where
  tapThreshold : α
  tapTimeout : α
  doubleTapTimeout : α
  longPressTimeout : α
  swipeThreshold : α
  swipeVelocityThreshold : α
  pinchThreshold : α
  rotateThreshold : α
deriving DecidableEq

/-- `this.state` of a `GestureRecognizer`. -/
structure State (α : Type) where
  isTracking : Bool
  startTime : α
  startPosition : Option (Point α)
  lastPosition : Option (Point α)
  lastTapTime : α
  longPressTimer : Option Nat
  initialPinchDistance : α
  initialRotation : α
  touches : List (Point α)
deriving DecidableEq

/-- A pending `setTimeout` callback: its handle and the clock value at which it is due. -/
structure Timer (α : Type) where
  id : Nat
  due : α
deriving DecidableEq

/-- A recognizer instance together with the long-press timers it has armed that are still
pending in the event loop, and the next fresh timer handle. -/
structure GestureRecognizer (α : Type) where
  options : Options α
  state : State α
  pending : List (Timer α)
  nextTimerId : Nat
deriving DecidableEq

namespace GestureRecognizer

section Defs

variable {α : Type} [LinearOrderedField α]

/-- The defaults of the constructor. -/
def defaultOptions : Options α :=
  { tapThreshold := 10
    tapTimeout := 300
    doubleTapTimeout := 300
    longPressTimeout := 500
    swipeThreshold := 50
    swipeVelocityThreshold := 3 / 10
    pinchThreshold := 10
    rotateThreshold := 10 }

/-- The state object the constructor creates. -/
def initialState : State α :=
  { isTracking := false
    startTime := 0
    startPosition := none
    lastPosition := none
    lastTapTime := 0
    longPressTimer := none
    initialPinchDistance := 0
    initialRotation := 0
    touches := [] }

/-- The recognizer `new GestureRecognizer(element, options)` builds. -/
def create (options : Options α) : GestureRecognizer α :=
  { options := options, state := initialState, pending := [], nextTimerId := 0 }

/-- `setTimeout(callback, delay)` at clock value `now`: queues a timer, returns its handle. -/
def setTimeout (r : GestureRecognizer α) (delay now : α) : GestureRecognizer α × Nat :=
  ({ r with pending := r.pending ++ [{ id := r.nextTimerId, due := now + delay }]
            nextTimerId := r.nextTimerId + 1 }, r.nextTimerId)

/-- `clearTimeout(handle)`: drops the pending timer with that handle, if any. -/
def clearTimeout (r : GestureRecognizer α) (handle : Option Nat) : GestureRecognizer α :=
  match handle with
  | none => r
  | some h => { r with pending := r.pending.filter (fun t => t.id ≠ h) }

/-- `getSwipeDirection(angle)`. -/
def getSwipeDirection (angle : α) : Direction :=
  if angle ≥ -45 ∧ angle < 45 then Direction.right
  else if angle ≥ 45 ∧ angle < 135 then Direction.down
  else if angle ≥ -135 ∧ angle < -45 then Direction.up
  else Direction.left

/-- The event name computed by the template string in `handleTouchEnd`: `swipe` followed by
the capitalised direction. -/
def directionalSwipe (d : Direction) (data : SwipeData α) : GestureEvent α :=
  match d with
  | Direction.right => GestureEvent.swipeRight data
  | Direction.down => GestureEvent.swipeDown data
  | Direction.up => GestureEvent.swipeUp data
  | Direction.left => GestureEvent.swipeLeft data

/-- `handleTouchStart(e)`. -/
def handleTouchStart (M : JSMath α) (r : GestureRecognizer α) (e : TouchEvent α) (now : α) :
    GestureRecognizer α × List (Effect α) :=
  let touches := e.touches
  let position := getTouchPosition e.first e.rect
  let st : State α :=
    { r.state with
      isTracking := true
      startTime := now
      startPosition := some position
      lastPosition := some position
      touches := touches.map (fun t => getTouchPosition t e.rect) }
  let (r1, handle) := setTimeout r r.options.longPressTimeout now
  let st : State α := { st with longPressTimer := some handle }
  let st : State α :=
    match touches with
    | [t0, t1] =>
      let p1 := getTouchPosition t0 e.rect
      let p2 := getTouchPosition t1 e.rect
      { st with initialPinchDistance := getDistance M p1 p2, initialRotation := getAngle M p1 p2 }
    | _ => st
  ({ r1 with state := st },
    [Effect.emit (GestureEvent.touchStart position st.touches),
     Effect.emit (GestureEvent.panStart position)])

/-- The callback `handleTouchStart` passes to `setTimeout`, run at clock value `now`.  It reads
`this.state` as it is when the timer fires. -/
def longPressCallback (M : JSMath α) (r : GestureRecognizer α) (now : α) :
    Option (GestureRecognizer α × List (Effect α)) :=
  if r.state.isTracking then
    match r.state.startPosition, r.state.lastPosition with
    | some sp, some lp =>
      if getDistance M sp lp < r.options.tapThreshold then
        some (r, [Effect.emit (GestureEvent.longPress sp (now - r.state.startTime)),
                  Effect.haptic Haptic.medium])
      else some (r, [])
    | _, _ => none
  else some (r, [])

/-- The multi-touch block of `handleTouchMove`, for exactly two touches. -/
def multiTouchEffects (M : JSMath α) (r : GestureRecognizer α) (p1 p2 : Point α) :
    List (Effect α) :=
  let currentDistance := getDistance M p1 p2
  let scale := currentDistance / r.state.initialPinchDistance
  let center : Point α := { x := (p1.x + p2.x) / 2, y := (p1.y + p2.y) / 2 }
  let pinch :=
    if |scale - 1| * 100 > r.options.pinchThreshold then
      [Effect.emit (GestureEvent.pinch scale center)]
    else []
  let currentRotation := getAngle M p1 p2
  let rotation := currentRotation - r.state.initialRotation
  let rotate :=
    if |rotation| > r.options.rotateThreshold then
      [Effect.emit (GestureEvent.rotate rotation center)]
    else []
  pinch ++ rotate

/-- `handleTouchMove(e)`. -/
def handleTouchMove (M : JSMath α) (r : GestureRecognizer α) (e : TouchEvent α) :
    Option (GestureRecognizer α × List (Effect α)) :=
  if !r.state.isTracking then some (r, [])
  else
    match r.state.lastPosition, r.state.startPosition with
    | some last, some start =>
      let touches := e.touches
      let position := getTouchPosition e.first e.rect
      let delta : Point α := { x := position.x - last.x, y := position.y - last.y }
      let totalDelta : Point α := { x := position.x - start.x, y := position.y - start.y }
      let st : State α :=
        { r.state with
          lastPosition := some position
          touches := touches.map (fun t => getTouchPosition t e.rect) }
      let r1 : GestureRecognizer α := { r with state := st }
      let distance := getDistance M start position
      let r2 := if distance > r.options.tapThreshold then clearTimeout r1 st.longPressTimer else r1
      let multi :=
        match touches with
        | [t0, t1] => multiTouchEffects M r2 (getTouchPosition t0 e.rect) (getTouchPosition t1 e.rect)
        | _ => []
      let data : MoveData α := { position := position, delta := delta, totalDelta := totalDelta }
      some (r2, multi ++
        [Effect.emit (GestureEvent.touchMove data st.touches),
         Effect.emit (GestureEvent.panMove data),
         Effect.emit (GestureEvent.pan data),
         Effect.preventDefault])
    | _, _ => none

/-- The block of `handleTouchEnd` under the comment "Determine gesture type": the new
`this.state` (only `lastTapTime` can change) and what is emitted, for a session from `start`
to `last` released at clock value `now`. -/
def classifyRelease (M : JSMath α) (r : GestureRecognizer α) (now : α) (start last : Point α) :
    State α × List (Effect α) :=
  let duration := now - r.state.startTime
  let distance := getDistance M start last
  let velocity := getVelocity distance duration
  let angle := getAngle M start last
  if distance < r.options.tapThreshold ∧ duration < r.options.tapTimeout then
    if now - r.state.lastTapTime < r.options.doubleTapTimeout then
      ({ r.state with lastTapTime := 0 },
        [Effect.emit (GestureEvent.doubleTap start), Effect.haptic Haptic.light])
    else
      ({ r.state with lastTapTime := now },
        [Effect.emit (GestureEvent.tap start), Effect.haptic Haptic.light])
  else if distance ≥ r.options.swipeThreshold ∨
      velocity ≥ r.options.swipeVelocityThreshold then
    let direction := getSwipeDirection angle
    let swipeData : SwipeData α :=
      { direction := direction
        distance := distance
        velocity := velocity
        angle := angle
        startPosition := start
        endPosition := last
        duration := duration }
    (r.state,
      [Effect.emit (GestureEvent.swipe swipeData),
       Effect.emit (directionalSwipe direction swipeData),
       Effect.haptic Haptic.medium])
  else (r.state, [])

/-- `handleTouchEnd(e)`. -/
def handleTouchEnd (M : JSMath α) (r : GestureRecognizer α) (now : α) :
    Option (GestureRecognizer α × List (Effect α)) :=
  if !r.state.isTracking then some (r, [])
  else
    let r1 := clearTimeout r r.state.longPressTimer
    let duration := now - r.state.startTime
    match r.state.startPosition, r.state.lastPosition with
    | some start, some last =>
      let g := classifyRelease M r now start last
      some ({ r1 with state := { g.1 with isTracking := false } },
        g.2 ++
          [Effect.emit (GestureEvent.touchEnd (some last) (some duration) false),
           Effect.emit (GestureEvent.panEnd last duration)])
    | _, _ => none

/-- `handleTouchCancel(e)`. -/
def handleTouchCancel (r : GestureRecognizer α) : GestureRecognizer α × List (Effect α) :=
  let r1 := clearTimeout r r.state.longPressTimer
  ({ r1 with state := { r1.state with isTracking := false } },
    [Effect.emit (GestureEvent.touchEnd r.state.lastPosition none true)])

end Defs

end GestureRecognizer

/-! ## Event loop: touch input and due timers -/

/-- What the browser delivers to a bound recognizer. -/
inductive Input (α : Type) where
  | touchstart (e : TouchEvent α)
  | touchmove (e : TouchEvent α)
  | touchend
  | touchcancel
deriving DecidableEq

namespace GestureRecognizer

section Defs

variable {α : Type} [LinearOrderedField α]

/-- The event loop runs the callback of pending timer `t` (at its due time) and removes it
from the queue; a timer that is no longer pending does nothing. -/
def fireTimer (M : JSMath α) (r : GestureRecognizer α) (t : Timer α) :
    Option (GestureRecognizer α × List (Effect α)) :=
  if t ∈ r.pending then
    longPressCallback M { r with pending := r.pending.filter (fun u => u.id ≠ t.id) } t.due
  else some (r, [])

/-- Fires the listed timers in order. -/
def fireAll (M : JSMath α) :
    List (Timer α) → GestureRecognizer α → Option (GestureRecognizer α × List (Effect α))
  | [], r => some (r, [])
  | t :: ts, r =>
    match fireTimer M r t with
    | none => none
    | some (r1, o1) =>
      match fireAll M ts r1 with
      | none => none
      | some (r2, o2) => some (r2, o1 ++ o2)

/-- Lets the clock reach `now`: every pending timer due by then fires, oldest first. -/
def advance (M : JSMath α) (r : GestureRecognizer α) (now : α) :
    Option (GestureRecognizer α × List (Effect α)) :=
  fireAll M (r.pending.filter (fun t => t.due ≤ now)) r

/-- The listener `bindEvents` registered for the given input. -/
def handle (M : JSMath α) (r : GestureRecognizer α) (now : α) :
    Input α → Option (GestureRecognizer α × List (Effect α))
  | Input.touchstart e => some (handleTouchStart M r e now)
  | Input.touchmove e => handleTouchMove M r e
  | Input.touchend => handleTouchEnd M r now
  | Input.touchcancel => some (handleTouchCancel r)

/-- One input arriving at clock value `now`: due timers first, then the listener. -/
def dispatch (M : JSMath α) (r : GestureRecognizer α) (now : α) (i : Input α) :
    Option (GestureRecognizer α × List (Effect α)) :=
  match advance M r now with
  | none => none
  | some (r1, o1) =>
    match handle M r1 now i with
    | none => none
    | some (r2, o2) => some (r2, o1 ++ o2)

/-- A timed input sequence, effects concatenated in program order. -/
def run (M : JSMath α) :
    GestureRecognizer α → List (α × Input α) → Option (GestureRecognizer α × List (Effect α))
  | r, [] => some (r, [])
  | r, (now, i) :: rest =>
    match dispatch M r now i with
    | none => none
    | some (r1, o1) =>
      match run M r1 rest with
      | none => none
      | some (r2, o2) => some (r2, o1 ++ o2)

end Defs

end GestureRecognizer

/-! ## CastGestureHandler -/

/-- The argument `data` of `performCast`: the recognizer's `swipeData` (from `swipeUp`) or the
object literal built in the `touchEnd` callback, which has no `angle`. -/
structure CastInput (α : Type) where
  distance : α
  velocity : α
  angle : Option α
deriving DecidableEq

/-- The object `castData` built by `performCast`. -/
structure CastData (α : Type) where
  power : α
  distance : α
  velocity : α
  chargeTime : α
  angle : Option α
deriving DecidableEq

/-- Observable effects of the cast handler: its own `emit` calls, the `onCast` constructor
callback and haptics. -/
inductive CastEffect (α : Type) where
  | chargeStart (position : Point α)
  | chargeUpdate (percent distance angle : α) (isValidDirection : Bool) (position : Point α)
  | chargeEnd (cancelled : Bool) (castData : Option (CastData α))
  | cast (castData : CastData α)
  | onCast (castData : CastData α)
  | haptic (h : Haptic)
deriving DecidableEq

/-- The mutable fields of a `CastGestureHandler` (`hasOnCast`: an `onCast` callback was passed
to the constructor).  `maxChargeTime`, `minSwipeDistance` and `maxChargeDistance` are assigned
once in the constructor and are the constants below. -/
structure CastGestureHandler (α : Type) where
  isCharging : Bool
  chargeStartTime : α
  chargeStartPosition : Option (Point α)
  hasOnCast : Bool
  gestureRecognizer : GestureRecognizer α
deriving DecidableEq

namespace CastGestureHandler

section Defs

variable {α : Type} [LinearOrderedField α]

/-- `this.maxChargeTime`, in ms. -/
def maxChargeTime : α := 1500

/-- `this.minSwipeDistance`. -/
def minSwipeDistance : α := 100

/-- `this.maxChargeDistance`. -/
def maxChargeDistance : α := 300

/-- The handler `new CastGestureHandler(element, onCast)` builds. -/
def create (hasOnCast : Bool) : CastGestureHandler α :=
  { isCharging := false
    chargeStartTime := 0
    chargeStartPosition := none
    hasOnCast := hasOnCast
    gestureRecognizer := GestureRecognizer.create GestureRecognizer.defaultOptions }

/-- The expression assigned to `power` in `performCast`. -/
def castPower (distance chargeTime velocity : α) : α :=
  min 1 (max 0.2
    (distance / maxChargeDistance * 0.5 + chargeTime / maxChargeTime * 0.3 + velocity / 2 * 0.2))

/-- `performCast(data)`. -/
def performCast (h : CastGestureHandler α) (data : CastInput α) (now : α) :
    CastGestureHandler α × List (CastEffect α) :=
  let chargeTime := now - h.chargeStartTime
  let power := castPower data.distance chargeTime data.velocity
  let castData : CastData α :=
    { power := power
      distance := data.distance
      velocity := data.velocity
      chargeTime := chargeTime
      angle := data.angle }
  ({ h with isCharging := false },
    [CastEffect.haptic Haptic.cast, CastEffect.cast castData] ++
      (if h.hasOnCast then [CastEffect.onCast castData] else []) ++
      [CastEffect.chargeEnd false (some castData)])

/-- The `touchStart` callback. -/
def onTouchStart (h : CastGestureHandler α) (position : Point α) (now : α) :
    CastGestureHandler α × List (CastEffect α) :=
  ({ h with isCharging := true, chargeStartTime := now, chargeStartPosition := some position },
    [CastEffect.haptic Haptic.light, CastEffect.chargeStart position])

/-- The expression assigned to `chargePercent` in the `panMove` callback. -/
def chargePercent (chargeTime pullDistance : α) : α :=
  min 1 (max (chargeTime / maxChargeTime) (pullDistance / maxChargeDistance))

/-- The milestone haptics of the `panMove` callback. -/
def milestoneHaptics (percent : α) : List (CastEffect α) :=
  if percent ≥ 0.5 ∧ percent < 0.55 then [CastEffect.haptic Haptic.light]
  else if percent ≥ 0.75 ∧ percent < 0.8 then [CastEffect.haptic Haptic.medium]
  else if percent ≥ 1 then [CastEffect.haptic Haptic.heavy]
  else []

/-- The `panMove` callback. -/
def onPanMove (M : JSMath α) (h : CastGestureHandler α) (data : MoveData α) (now : α) :
    Option (CastGestureHandler α × List (CastEffect α)) :=
  if !h.isCharging then some (h, [])
  else
    match h.chargeStartPosition with
    | none => none
    | some c =>
      let chargeTime := now - h.chargeStartTime
      let pullDistance := getDistance M c data.position
      let angle := getAngle M c data.position
      let isUpwardPull : Bool := decide (angle < -30 ∧ angle > -150)
      let percent := chargePercent chargeTime pullDistance
      some (h, CastEffect.chargeUpdate percent pullDistance angle isUpwardPull data.position ::
        milestoneHaptics percent)

/-- The `swipeUp` callback. -/
def onSwipeUp (h : CastGestureHandler α) (data : SwipeData α) (now : α) :
    CastGestureHandler α × List (CastEffect α) :=
  if !h.isCharging then (h, [])
  else performCast h
    { distance := data.distance, velocity := data.velocity, angle := some data.angle } now

/-- The `touchEnd` callback; `position` is `data.position`. -/
def onTouchEnd (M : JSMath α) (h : CastGestureHandler α) (position : Option (Point α))
    (now : α) : Option (CastGestureHandler α × List (CastEffect α)) :=
  if !h.isCharging then some (h, [])
  else
    match h.chargeStartPosition, position with
    | some c, some p =>
      let chargeTime := now - h.chargeStartTime
      let pullDistance := getDistance M c p
      let res :=
        if pullDistance > minSwipeDistance * 0.5 ∨ chargeTime > maxChargeTime * 0.3 then
          performCast h
            { distance := pullDistance
              velocity := pullDistance / chargeTime * 1000
              angle := none } now
        else (h, [CastEffect.chargeEnd true none])
      some ({ res.1 with isCharging := false }, res.2)
    | _, _ => none

/-- The callbacks `setupGestures` registered, by event name; other events have no listener. -/
def onEvent (M : JSMath α) (h : CastGestureHandler α) (now : α) :
    GestureEvent α → Option (CastGestureHandler α × List (CastEffect α))
  | GestureEvent.touchStart position _ => some (onTouchStart h position now)
  | GestureEvent.panMove data => onPanMove M h data now
  | GestureEvent.swipeUp data => some (onSwipeUp h data now)
  | GestureEvent.touchEnd position _ _ => onTouchEnd M h position now
  | _ => some (h, [])

/-- Runs the registered callbacks for each `emit` of a recognizer effect log, in order. -/
def deliver (M : JSMath α) (now : α) :
    CastGestureHandler α → List (Effect α) → Option (CastGestureHandler α × List (CastEffect α))
  | h, [] => some (h, [])
  | h, Effect.emit e :: rest =>
    match onEvent M h now e with
    | none => none
    | some (h1, o1) =>
      match deliver M now h1 rest with
      | none => none
      | some (h2, o2) => some (h2, o1 ++ o2)
  | h, _ :: rest => deliver M now h rest

/-- A DOM touch input on the element of the handler: the recognizer listener runs and each of
its emits reaches the callbacks of the handler. -/
def dispatch (M : JSMath α) (h : CastGestureHandler α) (now : α) (i : Input α) :
    Option (CastGestureHandler α × List (CastEffect α)) :=
  match GestureRecognizer.handle M h.gestureRecognizer now i with
  | none => none
  | some (r1, out) => deliver M now { h with gestureRecognizer := r1 } out

end Defs

end CastGestureHandler

/-! ## ReelGestureHandler -/

/-- The `direction` field of `reelData`. -/
inductive ReelDirection where
  | clockwise | counterclockwise
deriving DecidableEq

/-- The object `reelData` built in the `panMove` callback. -/
structure ReelData (α : Type) where
  rotation : α
  delta : α
  speed : α
  direction : ReelDirection
deriving DecidableEq

/-- Observable effects of the reel handler. -/
inductive ReelEffect (α : Type) where
  | reelStart
  | reelTurn (data : ReelData α)
  | onReel (data : ReelData α)
  | reelEnd (totalRotation averageSpeed : α)
  | haptic (h : Haptic)
deriving DecidableEq

/-- The mutable fields of a `ReelGestureHandler` (`hasOnReel`: an `onReel` callback was
passed to the constructor). -/
structure ReelGestureHandler (α : Type) where
  isReeling : Bool
  lastAngle : α
  totalRotation : α
  reelSpeed : α
  lastReelTime : α
  centerPoint : Option (Point α)
  hasOnReel : Bool
  gestureRecognizer : GestureRecognizer α
deriving DecidableEq

namespace ReelGestureHandler

section Defs

variable {α : Type} [LinearOrderedField α] [FloorRing α]

/-- The JavaScript `%` operator on numbers: the remainder of the division truncated toward
zero, so the result has the sign of `x`. -/
def jsRem (x m : α) : α :=
  let q := x / m
  x - m * (if 0 ≤ q then (Int.floor q : α) else (Int.ceil q : α))

/-- The handler `new ReelGestureHandler(element, onReel)` builds. -/
def create (hasOnReel : Bool) : ReelGestureHandler α :=
  { isReeling := false
    lastAngle := 0
    totalRotation := 0
    reelSpeed := 0
    lastReelTime := 0
    centerPoint := none
    hasOnReel := hasOnReel
    gestureRecognizer := GestureRecognizer.create GestureRecognizer.defaultOptions }

/-- The `touchStart` callback; `rect` is what `this.element.getBoundingClientRect()` returns
when it runs. -/
def onTouchStart (M : JSMath α) (h : ReelGestureHandler α) (position : Point α)
    (rect : Rect α) : ReelGestureHandler α × List (ReelEffect α) :=
  let center : Point α := { x := rect.width / 2, y := rect.height / 2 }
  ({ h with
      isReeling := true
      centerPoint := some center
      lastAngle := getAngle M center position
      totalRotation := 0 },
    [ReelEffect.reelStart])

/-- The value of `angleDelta` after the two wrap-around statements of the `panMove`
callback, from the raw difference `currentAngle - this.lastAngle`. -/
def wrapAngleDelta (raw : α) : α :=
  let d1 := if raw > 180 then raw - 360 else raw
  if d1 < -180 then d1 + 360 else d1

/-- The `panMove` callback. -/
def onPanMove (M : JSMath α) (h : ReelGestureHandler α) (data : MoveData α) (now : α) :
    Option (ReelGestureHandler α × List (ReelEffect α)) :=
  if !h.isReeling then some (h, [])
  else
    match h.centerPoint with
    | none => none
    | some center =>
      let currentAngle := getAngle M center data.position
      let angleDelta := wrapAngleDelta (currentAngle - h.lastAngle)
      let totalRotation := h.totalRotation + angleDelta
      let timeDelta := now - h.lastReelTime
      let reelSpeed := |angleDelta| / max timeDelta 1 * 100
      let click :=
        if jsRem |totalRotation| 30 < |angleDelta| then [ReelEffect.haptic Haptic.reelClick]
        else []
      let reelData : ReelData α :=
        { rotation := totalRotation
          delta := angleDelta
          speed := reelSpeed
          direction :=
            if angleDelta > 0 then ReelDirection.clockwise else ReelDirection.counterclockwise }
      some ({ h with
              totalRotation := totalRotation
              lastAngle := currentAngle
              reelSpeed := reelSpeed
              lastReelTime := now },
        click ++ [ReelEffect.reelTurn reelData] ++
          (if h.hasOnReel then [ReelEffect.onReel reelData] else []))

/-- The `touchEnd` callback. -/
def onTouchEnd (h : ReelGestureHandler α) : ReelGestureHandler α × List (ReelEffect α) :=
  ({ h with isReeling := false }, [ReelEffect.reelEnd h.totalRotation h.reelSpeed])

end Defs

end ReelGestureHandler

/-! ## TensionSliderHandler -/

/-- `this.options` of a `TensionSliderHandler`. -/
structure TensionOptions (α : Type) where
  minValue : α
  maxValue : α
  initialValue : α
  sensitivity : α
deriving DecidableEq

/-- Observable effects of the tension slider. -/
inductive TensionEffect (α : Type) where
  | change (value percent delta : α)
  | release (value percent : α)
  | haptic (h : Haptic)
deriving DecidableEq

/-- The fields of a `TensionSliderHandler`. -/
structure TensionSliderHandler (α : Type) where
  options : TensionOptions α
  currentValue : α
  gestureRecognizer : GestureRecognizer α
deriving DecidableEq

namespace TensionSliderHandler

section Defs

variable {α : Type} [LinearOrderedField α]

/-- The defaults of the constructor. -/
def defaultOptions : TensionOptions α :=
  { minValue := 0, maxValue := 100, initialValue := 50, sensitivity := 1 }

/-- The handler `new TensionSliderHandler(element, options)` builds. -/
def create (options : TensionOptions α) : TensionSliderHandler α :=
  { options := options
    currentValue := options.initialValue
    gestureRecognizer := GestureRecognizer.create GestureRecognizer.defaultOptions }

/-- The `panMove` callback. -/
def onPanMove (h : TensionSliderHandler α) (data : MoveData α) :
    TensionSliderHandler α × List (TensionEffect α) :=
  let deltaY := -data.delta.y * h.options.sensitivity
  let value := max h.options.minValue (min h.options.maxValue (h.currentValue + deltaY * 0.5))
  let warning :=
    if value ≥ h.options.maxValue * 0.9 then [TensionEffect.haptic Haptic.tensionWarning]
    else []
  ({ h with currentValue := value },
    warning ++ [TensionEffect.change value (value / h.options.maxValue) deltaY])

/-- The `touchEnd` callback. -/
def onTouchEnd (h : TensionSliderHandler α) : TensionSliderHandler α × List (TensionEffect α) :=
  (h, [TensionEffect.release h.currentValue (h.currentValue / h.options.maxValue)])

/-- `setValue(value)`. -/
def setValue (h : TensionSliderHandler α) (value : α) : TensionSliderHandler α :=
  { h with currentValue := max h.options.minValue (min h.options.maxValue value) }

/-- `getValue()`. -/
def getValue (h : TensionSliderHandler α) : α := h.currentValue

/-- What changes the value of a slider: the two recognizer callbacks and `setValue`. -/
inductive Call (α : Type) where
  | panMove (data : MoveData α)
  | touchEnd
  | setValue (value : α)

/-- The handler after one call. -/
def call (h : TensionSliderHandler α) : Call α → TensionSliderHandler α
  | Call.panMove data => (onPanMove h data).1
  | Call.touchEnd => (onTouchEnd h).1
  | Call.setValue value => setValue h value

/-- The handler after a sequence of calls. -/
def calls (h : TensionSliderHandler α) (l : List (Call α)) : TensionSliderHandler α :=
  l.foldl call h

end Defs

end TensionSliderHandler

/-! ## JoystickHandler -/

/-- `this.options` of a `JoystickHandler`. -/
structure JoystickOptions (α : Type) where
  maxDistance : α
  deadzone : α
deriving DecidableEq

/-- Observable effects of the joystick (`finish` is the event named `end`). -/
inductive JoystickEffect (α : Type) where
  | start
  | move (position normalized : Point α) (distance angle : α)
  | finish
deriving DecidableEq

/-- The fields of a `JoystickHandler`. -/
structure JoystickHandler (α : Type) where
  options : JoystickOptions α
  position : Point α
  normalizedPosition : Point α
  isActive : Bool
  gestureRecognizer : GestureRecognizer α
deriving DecidableEq

namespace JoystickHandler

section Defs

variable {α : Type} [LinearOrderedField α]

/-- The defaults of the constructor. -/
def defaultOptions : JoystickOptions α := { maxDistance := 50, deadzone := 5 }

/-- The handler `new JoystickHandler(element, options)` builds. -/
def create (options : JoystickOptions α) : JoystickHandler α :=
  { options := options
    position := { x := 0, y := 0 }
    normalizedPosition := { x := 0, y := 0 }
    isActive := false
    gestureRecognizer := GestureRecognizer.create GestureRecognizer.defaultOptions }

/-- The `touchStart` callback. -/
def onTouchStart (h : JoystickHandler α) : JoystickHandler α × List (JoystickEffect α) :=
  ({ h with isActive := true }, [JoystickEffect.start])

/-- The `panMove` callback. -/
def onPanMove (M : JSMath α) (h : JoystickHandler α) (data : MoveData α) :
    JoystickHandler α × List (JoystickEffect α) :=
  if !h.isActive then (h, [])
  else
    let deltaX := data.totalDelta.x
    let deltaY := data.totalDelta.y
    let distance := M.sqrt (deltaX * deltaX + deltaY * deltaY)
    let clampedDistance := min distance h.options.maxDistance
    let angle := M.atan2 deltaY deltaX
    let position : Point α := { x := M.cos angle * clampedDistance, y := M.sin angle * clampedDistance }
    let normalized : Point α :=
      if clampedDistance < h.options.deadzone then { x := 0, y := 0 }
      else { x := position.x / h.options.maxDistance, y := position.y / h.options.maxDistance }
    ({ h with position := position, normalizedPosition := normalized },
      [JoystickEffect.move position normalized clampedDistance (angle * 180 / M.pi)])

/-- The `touchEnd` callback. -/
def onTouchEnd (h : JoystickHandler α) : JoystickHandler α × List (JoystickEffect α) :=
  ({ h with
      isActive := false
      position := { x := 0, y := 0 }
      normalizedPosition := { x := 0, y := 0 } },
    [JoystickEffect.finish])

end Defs

end JoystickHandler

/-! ## TapReelHandler -/

/-- The object `tapData` built in the `tap` callback. -/
structure TapData (α : Type) where
  position : Point α
  tapCount : Int
  tapsPerSecond : Int
deriving DecidableEq

/-- Observable effects of the tap-reel handler. -/
inductive TapReelEffect (α : Type) where
  | tap (data : TapData α)
  | onTap (data : TapData α)
  | rhythm (tapsPerSecond totalTaps : Int)
  | haptic (h : Haptic)
deriving DecidableEq

/-- The mutable fields of a `TapReelHandler`, together with `previousCount`, the variable of
`startTPSCounter` that its interval callback closes over (`hasOnTap`: an `onTap` callback was
passed to the constructor).  The one-second interval runs from construction to `destroy`. -/
structure TapReelHandler (α : Type) where
  tapCount : Int
  tapsPerSecond : Int
  lastTapTime : α
  previousCount : Int
  hasOnTap : Bool
  gestureRecognizer : GestureRecognizer α
deriving DecidableEq

namespace TapReelHandler

section Defs

variable {α : Type} [LinearOrderedField α]

/-- The handler `new TapReelHandler(element, onTap)` builds, `startTPSCounter` included. -/
def create (hasOnTap : Bool) : TapReelHandler α :=
  { tapCount := 0
    tapsPerSecond := 0
    lastTapTime := 0
    previousCount := 0
    hasOnTap := hasOnTap
    gestureRecognizer := GestureRecognizer.create GestureRecognizer.defaultOptions }

/-- The `tap` callback registered by `setupGestures`. -/
def onTap (h : TapReelHandler α) (position : Point α) (now : α) :
    TapReelHandler α × List (TapReelEffect α) :=
  let tapCount := h.tapCount + 1
  let tapData : TapData α :=
    { position := position, tapCount := tapCount, tapsPerSecond := h.tapsPerSecond }
  ({ h with tapCount := tapCount, lastTapTime := now },
    [TapReelEffect.haptic Haptic.light, TapReelEffect.tap tapData] ++
      (if h.hasOnTap then [TapReelEffect.onTap tapData] else []))

/-- The interval callback of `startTPSCounter`, run once per second. -/
def tick (h : TapReelHandler α) : TapReelHandler α × List (TapReelEffect α) :=
  let tapsPerSecond := h.tapCount - h.previousCount
  ({ h with tapsPerSecond := tapsPerSecond, previousCount := h.tapCount },
    if tapsPerSecond > 0 then [TapReelEffect.rhythm tapsPerSecond h.tapCount] else [])

/-- `reset()`. -/
def reset (h : TapReelHandler α) : TapReelHandler α :=
  { h with tapCount := 0, tapsPerSecond := 0 }

/-- The callbacks `setupGestures` registered, by event name: only `tap` has a listener. -/
def onEvent (h : TapReelHandler α) (now : α) :
    GestureEvent α → TapReelHandler α × List (TapReelEffect α)
  | GestureEvent.tap position => onTap h position now
  | GestureEvent.doubleTap _ => (h, [])
  | GestureEvent.longPress _ _ => (h, [])
  | GestureEvent.swipe _ => (h, [])
  | GestureEvent.swipeUp _ => (h, [])
  | GestureEvent.swipeDown _ => (h, [])
  | GestureEvent.swipeLeft _ => (h, [])
  | GestureEvent.swipeRight _ => (h, [])
  | GestureEvent.pinch _ _ => (h, [])
  | GestureEvent.rotate _ _ => (h, [])
  | GestureEvent.pan _ => (h, [])
  | GestureEvent.panStart _ => (h, [])
  | GestureEvent.panMove _ => (h, [])
  | GestureEvent.panEnd _ _ => (h, [])
  | GestureEvent.touchStart _ _ => (h, [])
  | GestureEvent.touchMove _ _ => (h, [])
  | GestureEvent.touchEnd _ _ _ => (h, [])

/-- What happens to a tap-reel handler: the recognizer reports a tap at clock value `now`,
the one-second interval fires, or `reset()` is called. -/
inductive Step (α : Type) where
  | tap (position : Point α) (now : α)
  | tick
  | reset

/-- The handler and its effects after one step. -/
def step (h : TapReelHandler α) : Step α → TapReelHandler α × List (TapReelEffect α)
  | Step.tap position now => onTap h position now
  | Step.tick => tick h
  | Step.reset => (reset h, [])

/-- The handler after a sequence of steps. -/
def steps (h : TapReelHandler α) (l : List (Step α)) : TapReelHandler α :=
  l.foldl (fun acc s => (step acc s).1) h

end Defs

end TapReelHandler

/-! ## DOM listeners of a recognizer -/

/-- The four event types `bindEvents` listens to. -/
inductive TouchEventType where
  | touchstart | touchmove | touchend | touchcancel
deriving DecidableEq

/-- The four listener methods of `GestureRecognizer`. -/
inductive Method where
  | handleTouchStart | handleTouchMove | handleTouchEnd | handleTouchCancel
deriving DecidableEq

/-- A function object returned by `this.method.bind(this)`.  Every call of `bind` returns a
new object; `identity` tells the objects apart, as `removeEventListener` does. -/
structure BoundFunction where
  method : Method
  identity : Nat
deriving DecidableEq

/-- The element a recognizer is bound to: its registered touch listeners in registration
order, and the identity the next created function object gets. -/
structure Element where
  listeners : List (TouchEventType × BoundFunction)
  nextIdentity : Nat
deriving DecidableEq

namespace Element

/-- An element with no listener. -/
def empty : Element := { listeners := [], nextIdentity := 0 }

/-- `this.method.bind(this)`: a new function object. -/
def bind (el : Element) (method : Method) : BoundFunction × Element :=
  ({ method := method, identity := el.nextIdentity },
    { el with nextIdentity := el.nextIdentity + 1 })

/-- `element.addEventListener(type, f, { passive: false })`: a listener that is already
registered for the type is not added again. -/
def addEventListener (el : Element) (type : TouchEventType) (f : BoundFunction) : Element :=
  if (type, f) ∈ el.listeners then el
  else { el with listeners := el.listeners ++ [(type, f)] }

/-- `element.removeEventListener(type, f)`: removes the listener that is this very function
object for this type, if there is one. -/
def removeEventListener (el : Element) (type : TouchEventType) (f : BoundFunction) : Element :=
  { el with listeners := el.listeners.filter (fun l => decide (l ≠ (type, f))) }

/-- The listeners a dispatched event of the given type invokes. -/
def handlersFor (el : Element) (type : TouchEventType) : List BoundFunction :=
  (el.listeners.filter (fun l => decide (l.1 = type))).map (fun l => l.2)

end Element

namespace GestureRecognizer

/-- `bindEvents()`. -/
def bindEvents (el : Element) : Element :=
  let (f1, el) := el.bind Method.handleTouchStart
  let el := el.addEventListener TouchEventType.touchstart f1
  let (f2, el) := el.bind Method.handleTouchMove
  let el := el.addEventListener TouchEventType.touchmove f2
  let (f3, el) := el.bind Method.handleTouchEnd
  let el := el.addEventListener TouchEventType.touchend f3
  let (f4, el) := el.bind Method.handleTouchCancel
  el.addEventListener TouchEventType.touchcancel f4

/-- `unbindEvents()`. -/
def unbindEvents (el : Element) : Element :=
  let (f1, el) := el.bind Method.handleTouchStart
  let el := el.removeEventListener TouchEventType.touchstart f1
  let (f2, el) := el.bind Method.handleTouchMove
  let el := el.removeEventListener TouchEventType.touchmove f2
  let (f3, el) := el.bind Method.handleTouchEnd
  let el := el.removeEventListener TouchEventType.touchend f3
  let (f4, el) := el.bind Method.handleTouchCancel
  el.removeEventListener TouchEventType.touchcancel f4

/-- `destroy()`, for a recognizer bound to `el`. -/
def destroy {α : Type} [LinearOrderedField α] (r : GestureRecognizer α) (el : Element) :
    GestureRecognizer α × Element :=
  (clearTimeout r r.state.longPressTimer, unbindEvents el)

end GestureRecognizer

/-! ## Sample inputs for concrete runs -/

section Defs

variable {α : Type} [LinearOrderedField α]

/-- A touch event with one finger at client `(3, 4)` on an element whose bounding rect is the
100 by 100 square at the origin. -/
def oneFinger : TouchEvent α :=
  { first := { clientX := 3, clientY := 4 }
    rest := []
    rect := { left := 0, top := 0, width := 100, height := 100 } }

/-- A touch event with the finger of `oneFinger` and a second finger 50px to its right. -/
def twoFingers : TouchEvent α :=
  { first := { clientX := 3, clientY := 4 }
    rest := [{ clientX := 53, clientY := 4 }]
    rect := { left := 0, top := 0, width := 100, height := 100 } }

/-- The `panMove` payload for a finger now at `(x, y)` that moved by `(dx, dy)` since the
previous event, in a session that started at the origin. -/
def movedTo (x y dx dy : α) : MoveData α :=
  { position := { x := x, y := y }
    delta := { x := dx, y := dy }
    totalDelta := { x := x, y := y } }

/-- A cast handler after the `touchStart` callback ran at clock value `since` with the finger
at the origin. -/
def chargingCast (since : α) : CastGestureHandler α :=
  (CastGestureHandler.onTouchStart (CastGestureHandler.create false : CastGestureHandler α)
    { x := 0, y := 0 } since).1

end Defs

/-! ## The real-number instance of `Math` -/

/-- `Math` over `ℝ`: `atan2 y x` is the argument of `x + y i`, in `(-π, π]`, with
`atan2 0 0 = 0` as in JavaScript. -/
noncomputable def realMath : JSMath ℝ :=
  { sqrt := Real.sqrt
    atan2 := fun y x => Complex.arg ⟨x, y⟩
    cos := Real.cos
    sin := Real.sin
    pi := Real.pi }

/-! ## Reading the effect log -/

/-- The keys of `this.callbacks` of a recognizer: the event names it can emit. -/
inductive EventName where
  | tap | doubleTap | longPress | swipe | swipeUp | swipeDown | swipeLeft | swipeRight
  | pinch | rotate | pan | panStart | panMove | panEnd | touchStart | touchMove | touchEnd
deriving DecidableEq

section Defs

variable {α : Type}

/-- The first argument of the `emit` call. -/
def GestureEvent.name : GestureEvent α → EventName
  | GestureEvent.tap _ => EventName.tap
  | GestureEvent.doubleTap _ => EventName.doubleTap
  | GestureEvent.longPress _ _ => EventName.longPress
  | GestureEvent.swipe _ => EventName.swipe
  | GestureEvent.swipeUp _ => EventName.swipeUp
  | GestureEvent.swipeDown _ => EventName.swipeDown
  | GestureEvent.swipeLeft _ => EventName.swipeLeft
  | GestureEvent.swipeRight _ => EventName.swipeRight
  | GestureEvent.pinch _ _ => EventName.pinch
  | GestureEvent.rotate _ _ => EventName.rotate
  | GestureEvent.pan _ => EventName.pan
  | GestureEvent.panStart _ => EventName.panStart
  | GestureEvent.panMove _ => EventName.panMove
  | GestureEvent.panEnd _ _ => EventName.panEnd
  | GestureEvent.touchStart _ _ => EventName.touchStart
  | GestureEvent.touchMove _ _ => EventName.touchMove
  | GestureEvent.touchEnd _ _ _ => EventName.touchEnd

/-- The log entry is an `emit` of the event named `n`. -/
def Effect.emits (n : EventName) : Effect α → Bool
  | Effect.emit e => decide (e.name = n)
  | Effect.haptic _ => false
  | Effect.preventDefault => false

/-- The directional event name for a swipe direction. -/
def swipeEventName : Direction → EventName
  | Direction.right => EventName.swipeRight
  | Direction.down => EventName.swipeDown
  | Direction.up => EventName.swipeUp
  | Direction.left => EventName.swipeLeft

/-- The log entry is an emitted `cast`. -/
def CastEffect.isCast : CastEffect α → Bool
  | CastEffect.cast _ => true
  | CastEffect.chargeStart _ => false
  | CastEffect.chargeUpdate _ _ _ _ _ => false
  | CastEffect.chargeEnd _ _ => false
  | CastEffect.onCast _ => false
  | CastEffect.haptic _ => false

/-- The `percent` field of a `chargeUpdate` entry. -/
def CastEffect.percent : CastEffect α → Option α
  | CastEffect.chargeUpdate percent _ _ _ _ => some percent
  | CastEffect.cast _ => none
  | CastEffect.chargeStart _ => none
  | CastEffect.chargeEnd _ _ => none
  | CastEffect.onCast _ => none
  | CastEffect.haptic _ => none

end Defs

/-! ## TapReelHandler on the event loop -/

namespace TapReelHandler

section Defs

variable {α : Type} [LinearOrderedField α]

/-- Runs the registered callbacks for each `emit` of a recognizer effect log, in order, at
clock value `now`. -/
def deliver (now : α) :
    TapReelHandler α → List (Effect α) → TapReelHandler α × List (TapReelEffect α)
  | h, [] => (h, [])
  | h, Effect.emit e :: rest =>
    let (h1, o1) := onEvent h now e
    let (h2, o2) := deliver now h1 rest
    (h2, o1 ++ o2)
  | h, _ :: rest => deliver now h rest

/-- A DOM touch input on the element of the handler at clock value `now`: due timers and the
listener of the recognizer run, and each of their emits reaches the callbacks of the handler
(only `tap`, emitted by the `touchend` listener, has one). -/
def dispatch (M : JSMath α) (h : TapReelHandler α) (now : α) (i : Input α) :
    Option (TapReelHandler α × List (TapReelEffect α)) :=
  match GestureRecognizer.dispatch M h.gestureRecognizer now i with
  | none => none
  | some (r1, out) => some (deliver now { h with gestureRecognizer := r1 } out)

/-- A timed input sequence on the element of the handler. -/
def run (M : JSMath α) :
    TapReelHandler α → List (α × Input α) →
      Option (TapReelHandler α × List (TapReelEffect α))
  | h, [] => some (h, [])
  | h, (now, i) :: rest =>
    match dispatch M h now i with
    | none => none
    | some (h1, o1) =>
      match run M h1 rest with
      | none => none
      | some (h2, o2) => some (h2, o1 ++ o2)

end Defs

end TapReelHandler

/-- A motionless gesture: a `touchstart` at clock value `start` and the `touchend` at
`finish`, with no `touchmove` between them. -/
structure TapGesture (α : Type) where
  event : TouchEvent α
  start : α
  finish : α

section Defs

variable {α : Type} [LinearOrderedField α]

/-- The inputs of a sequence of motionless gestures. -/
def burstInputs : List (TapGesture α) → List (α × Input α)
  | [] => []
  | g :: rest =>
    (g.start, Input.touchstart g.event) :: (g.finish, Input.touchend) :: burstInputs rest

/-- The gestures continue a burst whose previous gesture ended at `prev`: each lasts less than
`tapTimeout`, ends at a clock value of at least `doubleTapTimeout`, and ends less than
`doubleTapTimeout` after the one before it. -/
def IsBurst (o : Options α) : α → List (TapGesture α) → Prop
  | _, [] => True
  | prev, g :: rest =>
    g.finish - g.start < o.tapTimeout ∧ o.doubleTapTimeout ≤ g.finish ∧
      g.finish - prev < o.doubleTapTimeout ∧ IsBurst o g.finish rest

end Defs

end TouchEngine

namespace MusicEngine

/-! # Music engine (`src/frontend/src/lib/musicEngine.js`)

Numbers are rationals.  Note identifiers, song keys and drum symbols are the strings of the
source.  The module-level audio graph, the active `setInterval` timers and the controller
singleton are the fields of `System`.  An `async` method is run to completion before the next
call starts; resuming a suspended `AudioContext` is not modelled. -/

/-! ## Tables -/

/-- The table `NOTES`: identifier and frequency in Hz. -/
def NOTES : List (String × ℚ) :=
  [("C3", 130.81), ("D3", 146.83), ("E3", 164.81), ("F3", 174.61), ("G3", 196.00),
   ("A3", 220.00), ("B3", 246.94),
   ("C4", 261.63), ("D4", 293.66), ("E4", 329.63), ("F4", 349.23), ("G4", 392.00),
   ("A4", 440.00), ("B4", 493.88),
   ("C5", 523.25), ("D5", 587.33), ("E5", 659.25), ("F5", 698.46), ("G5", 783.99),
   ("A5", 880.00), ("B5", 987.77),
   ("C6", 1046.50), ("D6", 1174.66), ("E6", 1318.51)]

/-- The entry `SCALES.C_MAJOR_PENTA`. -/
def C_MAJOR_PENTA : List String := ["C4", "D4", "E4", "G4", "A4", "C5", "D5", "E5"]

/-- The table `SCALES`. -/
def SCALES : List (String × List String) :=
  [("C_MAJOR_PENTA", C_MAJOR_PENTA),
   ("G_MAJOR_PENTA", ["G3", "A3", "B3", "D4", "E4", "G4", "A4", "B4"]),
   ("D_MAJOR_PENTA", ["D4", "E4", "F4", "A4", "B4", "D5", "E5", "F5"]),
   ("F_MAJOR_PENTA", ["F3", "G3", "A3", "C4", "D4", "F4", "G4", "A4"]),
   ("A_MAJOR_PENTA", ["A3", "B3", "C4", "E4", "F4", "A4", "B4", "C5"])]

/-- The table `CHORD_PROGRESSIONS`. -/
def CHORD_PROGRESSIONS : List (String × List (List String)) :=
  [("HAPPY_MAIN",
      [["C4", "E4", "G4"], ["G3", "B3", "D4"], ["A3", "C4", "E4"], ["F3", "A3", "C4"]]),
   ("UPBEAT_FISHING",
      [["D4", "F4", "A4"], ["G3", "B3", "D4"], ["C4", "E4", "G4"], ["A3", "C4", "E4"]]),
   ("VICTORY",
      [["C4", "E4", "G4"], ["D4", "F4", "A4"], ["E4", "G4", "B4"], ["G4", "B4", "D5"]]),
   ("MENU_CHILL",
      [["F3", "A3", "C4"], ["C4", "E4", "G4"], ["G3", "B3", "D4"], ["A3", "C4", "E4"]]),
   ("NIGHT_CALM",
      [["A3", "C4", "E4"], ["F3", "A3", "C4"], ["G3", "B3", "D4"], ["E3", "G3", "B3"]]),
   ("STORM_INTENSE",
      [["E3", "G3", "B3"], ["A3", "C4", "E4"], ["D3", "F3", "A3"], ["G3", "B3", "D4"]])]

/-- An entry of `SONGS`. -/
structure Song where
  name : String
  bpm : ℚ
  scale : String
  chordProgression : String
  melody : List String
  bass : List String
  drums : List String
deriving DecidableEq

/-- The table `SONGS`. -/
def SONGS : List (String × Song) :=
  [("MENU_THEME",
     { name := "Sunny Day Fishing", bpm := 110, scale := "C_MAJOR_PENTA",
       chordProgression := "MENU_CHILL",
       melody := ["C4", "E4", "G4", "E4", "C5", "G4", "E4", "D4",
                  "F4", "A4", "C5", "A4", "G4", "E4", "D4", "C4"],
       bass := ["C3", "-", "G3", "-", "F3", "-", "G3", "-",
                "A3", "-", "E3", "-", "F3", "-", "G3", "-"],
       drums := ["k", "h", "s", "h", "k", "h", "s", "H",
                 "k", "h", "s", "h", "k", "k", "s", "h"] }),
   ("FISHING_CALM",
     { name := "Peaceful Waters", bpm := 95, scale := "F_MAJOR_PENTA",
       chordProgression := "HAPPY_MAIN",
       melody := ["F4", "A4", "C5", "A4", "G4", "F4", "E4", "F4",
                  "G4", "A4", "G4", "F4", "E4", "D4", "E4", "F4"],
       bass := ["F3", "-", "C3", "-", "G3", "-", "A3", "-",
                "F3", "-", "C3", "-", "G3", "-", "C3", "-"],
       drums := ["k", "-", "h", "-", "s", "-", "h", "-",
                 "k", "-", "h", "-", "s", "-", "-", "h"] }),
   ("FISHING_UPBEAT",
     { name := "Big Catch Energy", bpm := 130, scale := "G_MAJOR_PENTA",
       chordProgression := "UPBEAT_FISHING",
       melody := ["G4", "A4", "B4", "D5", "B4", "A4", "G4", "A4",
                  "G4", "B4", "D5", "G5", "D5", "B4", "A4", "G4"],
       bass := ["G3", "G3", "D3", "D3", "C3", "C3", "D3", "D3",
                "G3", "G3", "E3", "E3", "C3", "C3", "D3", "G3"],
       drums := ["k", "h", "s", "h", "k", "h", "s", "h",
                 "k", "h", "s", "h", "k", "k", "s", "s"] }),
   ("VICTORY",
     { name := "Trophy Catch!", bpm := 140, scale := "C_MAJOR_PENTA",
       chordProgression := "VICTORY",
       melody := ["C5", "E5", "G5", "C6", "G5", "E5", "G5", "C6",
                  "D5", "G5", "B5", "D6", "B5", "G5", "A5", "G5"],
       bass := ["C3", "C3", "E3", "E3", "G3", "G3", "C4", "C4",
                "D3", "D3", "G3", "G3", "B3", "B3", "C4", "C4"],
       drums := ["k", "s", "k", "s", "k", "s", "k", "s",
                 "k", "k", "s", "s", "k", "k", "s", "s"] }),
   ("NIGHT_FISHING",
     { name := "Moonlit Waters", bpm := 85, scale := "A_MAJOR_PENTA",
       chordProgression := "NIGHT_CALM",
       melody := ["A4", "C5", "E5", "C5", "A4", "G4", "A4", "B4",
                  "C5", "A4", "G4", "E4", "F4", "E4", "D4", "C4"],
       bass := ["A2", "-", "-", "-", "F2", "-", "-", "-",
                "G2", "-", "-", "-", "E2", "-", "-", "-"],
       drums := ["k", "-", "-", "h", "s", "-", "-", "h",
                 "k", "-", "-", "h", "s", "-", "h", "-"] }),
   ("STORM_FISHING",
     { name := "Storm Chaser", bpm := 150, scale := "D_MAJOR_PENTA",
       chordProgression := "STORM_INTENSE",
       melody := ["D5", "E5", "F5", "A5", "F5", "E5", "D5", "E5",
                  "D5", "F5", "A5", "D6", "A5", "F5", "E5", "D5"],
       bass := ["D3", "D3", "D3", "D3", "A2", "A2", "A2", "A2",
                "G2", "G2", "G2", "G2", "A2", "A2", "D3", "D3"],
       drums := ["k", "k", "s", "h", "k", "k", "s", "h",
                 "k", "k", "s", "h", "k", "k", "s", "s"] }),
   ("BREEDING_LAB",
     { name := "Lab Discovery", bpm := 105, scale := "C_MAJOR_PENTA",
       chordProgression := "HAPPY_MAIN",
       melody := ["C4", "E4", "G4", "C5", "D5", "C5", "G4", "E4",
                  "F4", "A4", "C5", "F5", "E5", "D5", "C5", "G4"],
       bass := ["C3", "-", "G2", "-", "F2", "-", "G2", "-",
                "A2", "-", "E2", "-", "F2", "-", "G2", "-"],
       drums := ["k", "h", "s", "h", "k", "h", "s", "h",
                 "k", "h", "s", "h", "k", "h", "s", "H"] }),
   ("AQUARIUM",
     { name := "Aquarium Dreams", bpm := 80, scale := "F_MAJOR_PENTA",
       chordProgression := "MENU_CHILL",
       melody := ["F4", "-", "A4", "-", "C5", "-", "A4", "-",
                  "G4", "-", "F4", "-", "E4", "-", "F4", "-"],
       bass := ["F2", "-", "-", "-", "C2", "-", "-", "-",
                "G2", "-", "-", "-", "A2", "-", "-", "-"],
       drums := ["-", "-", "h", "-", "-", "-", "h", "-",
                 "-", "-", "h", "-", "-", "-", "h", "-"] }),
   ("MINIGAME",
     { name := "Game Time!", bpm := 135, scale := "G_MAJOR_PENTA",
       chordProgression := "UPBEAT_FISHING",
       melody := ["G4", "A4", "B4", "G4", "D5", "B4", "A4", "G4",
                  "A4", "B4", "D5", "E5", "D5", "B4", "A4", "G4"],
       bass := ["G3", "G3", "D3", "D3", "C3", "C3", "D3", "D3",
                "G3", "G3", "E3", "E3", "C3", "D3", "G3", "G3"],
       drums := ["k", "h", "s", "h", "k", "h", "s", "h",
                 "k", "h", "s", "h", "k", "k", "s", "H"] }),
   ("SHOP",
     { name := "Shopping Spree", bpm := 115, scale := "C_MAJOR_PENTA",
       chordProgression := "HAPPY_MAIN",
       melody := ["C5", "D5", "E5", "G5", "E5", "D5", "C5", "D5",
                  "E5", "G5", "A5", "G5", "E5", "D5", "C5", "C5"],
       bass := ["C3", "-", "E3", "-", "G3", "-", "E3", "-",
                "F3", "-", "A3", "-", "G3", "-", "C3", "-"],
       drums := ["k", "h", "s", "h", "k", "h", "s", "h",
                 "k", "h", "s", "h", "k", "h", "s", "h"] })]

/-! ## Voices and timers -/

/-- A call of one of the synthesizer or drum functions, with its arguments after `ctx`. -/
inductive Voice where
  | square (frequency duration volume : ℚ)
  | triangle (frequency duration volume : ℚ)
  | sine (frequency duration volume : ℚ)
  | saw (frequency duration volume : ℚ)
  | pulse (frequency duration pulseWidth volume : ℚ)
  | noise (duration volume : ℚ) (pink : Bool)
  | kick
  | snare
  | hiHat (isOpen : Bool)
deriving DecidableEq

/-- The function passed to `setInterval`: the beat callback of `MusicSequencer.start` or the
note callback of `Arpeggiator.start`. -/
inductive Callback where
  | sequencerBeat
  | arpeggiatorNote
deriving DecidableEq

/-- An active `setInterval` timer: its handle, its callback and its period in ms. -/
structure Interval where
  handle : Nat
  callback : Callback
  period : ℚ
deriving DecidableEq

/-- The timers of the page: the active intervals, newest first, and the handle the next
`setInterval` returns.  Handles start at 1. -/
structure Timers where
  active : List Interval
  nextHandle : Nat
deriving DecidableEq

namespace Timers

/-- No timer has been created yet. -/
def empty : Timers := { active := [], nextHandle := 1 }

/-- `setInterval(callback, period)`: the new timers and the handle returned. -/
def setInterval (t : Timers) (callback : Callback) (period : ℚ) : Timers × Nat :=
  ({ active := { handle := t.nextHandle, callback := callback, period := period } :: t.active
     nextHandle := t.nextHandle + 1 },
   t.nextHandle)

/-- `clearInterval(handle)`. -/
def clearInterval (t : Timers) (handle : Nat) : Timers :=
  { t with active := t.active.filter (fun i => decide (i.handle ≠ handle)) }

/-- The active intervals whose callback is the sequencer beat. -/
def sequencerIntervals (t : Timers) : List Interval :=
  t.active.filter (fun i => decide (i.callback = Callback.sequencerBeat))

end Timers

/-! ## MusicSequencer -/

/-- The object `this.tracks` of a sequencer.  A harmony step is a chord or `null`. -/
structure Tracks where
  melody : List String
  harmony : List (Option (List String))
  bass : List String
  drums : List String
deriving DecidableEq

/-- The fields of a `MusicSequencer` (`ctx` is the shared audio context). -/
structure MusicSequencer where
  bpm : ℚ
  isPlaying : Bool
  currentBeat : Nat
  currentBar : Nat
  tracks : Tracks
  loopLength : Nat
  intervalId : Option Nat
deriving DecidableEq

namespace MusicSequencer

/-- The sequencer `new MusicSequencer(ctx, bpm)` builds. -/
def create (bpm : ℚ) : MusicSequencer :=
  { bpm := bpm
    isPlaying := false
    currentBeat := 0
    currentBar := 0
    tracks := { melody := [], harmony := [], bass := [], drums := [] }
    loopLength := 16
    intervalId := none }

/-- `setBPM(bpm)`. -/
def setBPM (s : MusicSequencer) (bpm : ℚ) : MusicSequencer := { s with bpm := bpm }

/-- `setTrack('melody', pattern)`. -/
def setMelody (s : MusicSequencer) (pattern : List String) : MusicSequencer :=
  { s with tracks := { s.tracks with melody := pattern } }

/-- `setTrack('harmony', pattern)`. -/
def setHarmony (s : MusicSequencer) (pattern : List (Option (List String))) : MusicSequencer :=
  { s with tracks := { s.tracks with harmony := pattern } }

/-- `setTrack('bass', pattern)`. -/
def setBass (s : MusicSequencer) (pattern : List String) : MusicSequencer :=
  { s with tracks := { s.tracks with bass := pattern } }

/-- `setTrack('drums', pattern)`. -/
def setDrums (s : MusicSequencer) (pattern : List String) : MusicSequencer :=
  { s with tracks := { s.tracks with drums := pattern } }

/-- `start()`. -/
def start (s : MusicSequencer) (t : Timers) : MusicSequencer × Timers :=
  if s.isPlaying then (s, t)
  else
    let beatDuration := 60 / s.bpm
    let (t1, handle) := t.setInterval Callback.sequencerBeat (beatDuration * 1000)
    ({ s with isPlaying := true, intervalId := some handle }, t1)

/-- `stop()`.  The test `if (this.intervalId)` fails for `null` and for the number 0. -/
def stop (s : MusicSequencer) (t : Timers) : MusicSequencer × Timers :=
  let s1 := { s with isPlaying := false }
  let (s2, t2) :=
    match s1.intervalId with
    | some handle =>
      if handle ≠ 0 then ({ s1 with intervalId := none }, t.clearInterval handle) else (s1, t)
    | none => (s1, t)
  ({ s2 with currentBeat := 0, currentBar := 0 }, t2)

/-- The melody block of `playBeat`, for the track entry at the current beat (`none`: the track
has no such index). -/
def melodyVoices : Option String → List Voice
  | some note =>
    if note ≠ "" ∧ note ≠ "-" then
      match NOTES.lookup note with
      | some freq => if freq ≠ 0 then [Voice.triangle freq 0.3 0.3] else []
      | none => []
    else []
  | none => []

/-- The harmony block of `playBeat`. -/
def harmonyVoices : Option (Option (List String)) → List Voice
  | some (some chord) =>
    chord.filterMap (fun note =>
      match NOTES.lookup note with
      | some freq => if freq ≠ 0 then some (Voice.sine freq 0.4 0.15) else none
      | none => none)
  | _ => []

/-- The bass block of `playBeat`. -/
def bassVoices : Option String → List Voice
  | some note =>
    if note ≠ "" ∧ note ≠ "-" then
      match NOTES.lookup note with
      | some freq => if freq ≠ 0 then [Voice.saw (freq / 2) 0.3 0.25] else []
      | none => []
    else []
  | none => []

/-- The drums block of `playBeat`. -/
def drumVoices : Option String → List Voice
  | some drum =>
    (if drum = "k" then [Voice.kick] else []) ++
    (if drum = "s" then [Voice.snare] else []) ++
    (if drum = "h" then [Voice.hiHat false] else []) ++
    (if drum = "H" then [Voice.hiHat true] else [])
  | none => []

/-- `playBeat()`: the voices it triggers, in order. -/
def playBeat (s : MusicSequencer) : List Voice :=
  melodyVoices (s.tracks.melody.get? s.currentBeat) ++
  harmonyVoices (s.tracks.harmony.get? s.currentBeat) ++
  bassVoices (s.tracks.bass.get? s.currentBeat) ++
  drumVoices (s.tracks.drums.get? s.currentBeat)

/-- The interval callback of `start()`: one timer tick. -/
def tick (s : MusicSequencer) : MusicSequencer × List Voice :=
  let voices := playBeat s
  let s1 := { s with currentBeat := (s.currentBeat + 1) % s.loopLength }
  let s2 := if s1.currentBeat = 0 then { s1 with currentBar := s1.currentBar + 1 } else s1
  (s2, voices)

/-- The sequencer after `n` timer ticks, and what each tick played, oldest first. -/
def ticks (s : MusicSequencer) : Nat → MusicSequencer × List (List Voice)
  | 0 => (s, [])
  | n + 1 =>
    let (s1, played) := ticks s n
    let (s2, voices) := tick s1
    (s2, played ++ [voices])

/-- What can happen to a sequencer: a method call, or a tick of its interval timer. -/
inductive Op where
  | setBPM (bpm : ℚ)
  | setMelody (pattern : List String)
  | setHarmony (pattern : List (Option (List String)))
  | setBass (pattern : List String)
  | setDrums (pattern : List String)
  | start
  | stop
  | tick

/-- The sequencer and the timers after one `Op`. -/
def step (st : MusicSequencer × Timers) : Op → MusicSequencer × Timers
  | Op.setBPM bpm => (st.1.setBPM bpm, st.2)
  | Op.setMelody pattern => (st.1.setMelody pattern, st.2)
  | Op.setHarmony pattern => (st.1.setHarmony pattern, st.2)
  | Op.setBass pattern => (st.1.setBass pattern, st.2)
  | Op.setDrums pattern => (st.1.setDrums pattern, st.2)
  | Op.start => st.1.start st.2
  | Op.stop => st.1.stop st.2
  | Op.tick => ((tick st.1).1, st.2)

/-- The sequencer and the timers after a sequence of `Op`s. -/
def steps (st : MusicSequencer × Timers) (l : List Op) : MusicSequencer × Timers :=
  l.foldl step st

/-- The sequencer and the timers agree: the sequencer is playing iff it holds a handle, the
handle is not 0, and the active intervals are exactly the one it holds, a sequencer-beat
interval (none when it holds no handle). -/
def Synced (s : MusicSequencer) (t : Timers) : Prop :=
  (s.isPlaying = true ↔ s.intervalId ≠ none) ∧
  s.intervalId ≠ some 0 ∧
  t.active.map (fun i => (i.handle, i.callback)) =
    s.intervalId.toList.map (fun h => (h, Callback.sequencerBeat)) ∧
  1 ≤ t.nextHandle

end MusicSequencer

/-! ## Arpeggiator and MelodyGenerator -/

/-- The fields of an `Arpeggiator`. -/
structure Arpeggiator where
  notes : List String
  bpm : ℚ
  pattern : String
  isPlaying : Bool
  currentIndex : Nat
  intervalId : Option Nat
deriving DecidableEq

namespace Arpeggiator

/-- The arpeggiator `new Arpeggiator(ctx, notes, bpm, pattern)` builds. -/
def create (notes : List String) (bpm : ℚ) (pattern : String) : Arpeggiator :=
  { notes := notes, bpm := bpm, pattern := pattern, isPlaying := false, currentIndex := 0
    intervalId := none }

/-- `start()`. -/
def start (a : Arpeggiator) (t : Timers) : Arpeggiator × Timers :=
  if a.isPlaying then (a, t)
  else
    let interval := 60 / a.bpm * 1000 / 2
    let (t1, handle) := t.setInterval Callback.arpeggiatorNote interval
    ({ a with isPlaying := true, intervalId := some handle }, t1)

/-- `stop()`. -/
def stop (a : Arpeggiator) (t : Timers) : Arpeggiator × Timers :=
  let a1 := { a with isPlaying := false }
  match a1.intervalId with
  | some handle =>
    if handle ≠ 0 then ({ a1 with intervalId := none }, t.clearInterval handle) else (a1, t)
  | none => (a1, t)

end Arpeggiator

/-- The fields of a `MelodyGenerator`. -/
structure MelodyGenerator where
  scale : List String
  currentNote : Int
  direction : Int
deriving DecidableEq

namespace MelodyGenerator

/-- The generator `new MelodyGenerator(scale)` builds. -/
def create (scale : String) : MelodyGenerator :=
  { scale := (SCALES.lookup scale).getD C_MAJOR_PENTA, currentNote := 0, direction := 1 }

end MelodyGenerator

/-! ## MusicController -/

/-- The module-level gain nodes, once `initAudioContext` has built them: the `gain.value` of
`masterGain`, `musicGain` and `sfxGain`. -/
structure AudioGraph where
  masterGain : ℚ
  musicGain : ℚ
  sfxGain : ℚ
deriving DecidableEq

/-- The fields of a `MusicController` (`ctx` is the shared audio context, kept in
`System.graph`). -/
structure MusicController where
  sequencer : Option MusicSequencer
  arpeggiator : Option Arpeggiator
  melodyGen : Option MelodyGenerator
  currentSong : Option String
  isInitialized : Bool
  volume : ℚ
  isMuted : Bool
deriving DecidableEq

/-- The module state and its environment: whether the page has `window.AudioContext` or
`window.webkitAudioContext`, the audio graph (`none` while `audioContext` is `null`), the
timers, and the singleton `musicController`. -/
structure System where
  webAudio : Bool
  graph : Option AudioGraph
  timers : Timers
  controller : MusicController
deriving DecidableEq

/-- How a call ends: it returns (an `async` method: its promise is fulfilled), or it throws
(its promise is rejected).  Either way `sys` is the state it leaves. -/
inductive Outcome where
  | ok (sys : System)
  | throws (sys : System)
deriving DecidableEq

/-- The state a call leaves. -/
def Outcome.sys : Outcome → System
  | Outcome.ok sys => sys
  | Outcome.throws sys => sys

/-- The call returned. -/
def Outcome.isOk : Outcome → Bool
  | Outcome.ok _ => true
  | Outcome.throws _ => false

/-- `initAudioContext()`.  With no constructor to call, `new (undefined)()` is a TypeError,
raised before anything is assigned. -/
def initAudioContext (sys : System) : Outcome :=
  match sys.graph with
  | some _ => Outcome.ok sys
  | none =>
    if sys.webAudio then
      Outcome.ok { sys with graph := some { masterGain := 0.7, musicGain := 0.5, sfxGain := 0.8 } }
    else Outcome.throws sys

/-- `resumeAudio()`. -/
def resumeAudio (sys : System) : Outcome := initAudioContext sys

namespace MusicController

/-- The controller `new MusicController()` builds. -/
def create : MusicController :=
  { sequencer := none, arpeggiator := none, melodyGen := none, currentSong := none
    isInitialized := false, volume := 0.5, isMuted := false }

/-- `init()`. -/
def init (sys : System) : Outcome :=
  if sys.controller.isInitialized then Outcome.ok sys
  else
    match resumeAudio sys with
    | Outcome.throws sys1 => Outcome.throws sys1
    | Outcome.ok sys1 =>
      Outcome.ok { sys1 with controller :=
        { sys1.controller with
          sequencer := some (MusicSequencer.create 100)
          arpeggiator := some (Arpeggiator.create C_MAJOR_PENTA 120 "up")
          melodyGen := some (MelodyGenerator.create "C_MAJOR_PENTA")
          isInitialized := true } }

/-- `stop()`. -/
def stop (sys : System) : System :=
  let (sequencer, t1) :=
    match sys.controller.sequencer with
    | some s => let (s1, t) := s.stop sys.timers; (some s1, t)
    | none => (none, sys.timers)
  let (arpeggiator, t2) :=
    match sys.controller.arpeggiator with
    | some a => let (a1, t) := a.stop t1; (some a1, t)
    | none => (none, t1)
  { sys with
    timers := t2
    controller :=
      { sys.controller with
        sequencer := sequencer, arpeggiator := arpeggiator, currentSong := none } }

/-- The harmony track `playSong` builds from a chord progression: 16 steps. -/
def harmonyTrack (chords : List (List String)) : List (Option (List String)) :=
  (List.range 16).map (fun i => if i % 4 = 0 then chords.get? (i / 4 % chords.length) else none)

/-- The part of `playSong` after `this.currentSong = songKey`, on the sequencer. -/
def loadSong (s : MusicSequencer) (song : Song) : MusicSequencer :=
  let s := s.setBPM song.bpm
  let s := s.setMelody song.melody
  let s := s.setBass song.bass
  let s := s.setDrums song.drums
  match CHORD_PROGRESSIONS.lookup song.chordProgression with
  | some chords => s.setHarmony (harmonyTrack chords)
  | none => s

/-- `playSong(songKey)`. -/
def playSong (sys : System) (songKey : String) : Outcome :=
  match init sys with
  | Outcome.throws sys1 => Outcome.throws sys1
  | Outcome.ok sys1 =>
    match SONGS.lookup songKey with
    | none => Outcome.ok sys1
    | some song =>
      let sys2 := stop sys1
      let sys3 := { sys2 with controller := { sys2.controller with currentSong := some songKey } }
      match sys3.controller.sequencer with
      | none => Outcome.throws sys3
      | some s =>
        let (s1, t) := (loadSong s song).start sys3.timers
        Outcome.ok { sys3 with timers := t, controller := { sys3.controller with sequencer := some s1 } }

/-- `pause()`. -/
def pause (sys : System) : System :=
  match sys.controller.sequencer with
  | some s =>
    let (s1, t) := s.stop sys.timers
    { sys with timers := t, controller := { sys.controller with sequencer := some s1 } }
  | none => sys

/-- `resume()`.  The promise of `playSong` is dropped, so `resume` itself returns. -/
def resume (sys : System) : System :=
  match sys.controller.currentSong with
  | some songKey => if songKey ≠ "" then (playSong sys songKey).sys else sys
  | none => sys

/-- The write `musicGain.gain.value = value`, guarded by `if (musicGain)`. -/
def setMusicGain (sys : System) (value : ℚ) : System :=
  match sys.graph with
  | some g => { sys with graph := some { g with musicGain := value } }
  | none => sys

/-- `setVolume(value)`. -/
def setVolume (sys : System) (value : ℚ) : System :=
  let volume := max 0 (min 1 value)
  let sys1 := { sys with controller := { sys.controller with volume := volume } }
  setMusicGain sys1 (if sys1.controller.isMuted then 0 else sys1.controller.volume)

/-- `toggleMute()`: the state it leaves; it returns the new `isMuted`. -/
def toggleMute (sys : System) : System :=
  let sys1 := { sys with controller := { sys.controller with isMuted := !sys.controller.isMuted } }
  setMusicGain sys1 (if sys1.controller.isMuted then 0 else sys1.controller.volume)

end MusicController

/-! ## Call sequences -/

/-- A call on the module: a method of the singleton `musicController`, or `start()` or
`stop()` on its sequencer. -/
inductive Call where
  | init
  | playSong (songKey : String)
  | stop
  | pause
  | resume
  | setVolume (value : ℚ)
  | toggleMute
  | sequencerStart
  | sequencerStop

namespace System

/-- The state when the module has been loaded. -/
def create (webAudio : Bool) : System :=
  { webAudio := webAudio, graph := none, timers := Timers.empty
    controller := MusicController.create }

/-- One call.  A method call on `musicController.sequencer` while it is `null` throws. -/
def call (sys : System) : Call → Outcome
  | Call.init => MusicController.init sys
  | Call.playSong songKey => MusicController.playSong sys songKey
  | Call.stop => Outcome.ok (MusicController.stop sys)
  | Call.pause => Outcome.ok (MusicController.pause sys)
  | Call.resume => Outcome.ok (MusicController.resume sys)
  | Call.setVolume value => Outcome.ok (MusicController.setVolume sys value)
  | Call.toggleMute => Outcome.ok (MusicController.toggleMute sys)
  | Call.sequencerStart =>
    match sys.controller.sequencer with
    | some s =>
      let (s1, t) := s.start sys.timers
      Outcome.ok { sys with timers := t, controller := { sys.controller with sequencer := some s1 } }
    | none => Outcome.throws sys
  | Call.sequencerStop =>
    match sys.controller.sequencer with
    | some s =>
      let (s1, t) := s.stop sys.timers
      Outcome.ok { sys with timers := t, controller := { sys.controller with sequencer := some s1 } }
    | none => Outcome.throws sys

/-- The state after a sequence of calls, each run to completion whether it returns or throws. -/
def calls (sys : System) (l : List Call) : System :=
  l.foldl (fun acc c => (acc.call c).sys) sys

/-- The controller and the timers agree: there is a sequencer iff `init()` has completed, the
arpeggiator holds no handle, and the sequencer, if there is one, is `Synced` with the timers
(no interval is active when there is none). -/
def Consistent (sys : System) : Prop :=
  (sys.controller.isInitialized = false ↔ sys.controller.sequencer = none) ∧
  (∀ a, sys.controller.arpeggiator = some a → a.intervalId = none) ∧
  (sys.controller.sequencer = none → sys.timers.active = [] ∧ 1 ≤ sys.timers.nextHandle) ∧
  (∀ s, sys.controller.sequencer = some s → s.Synced sys.timers)

end System

/-! ## Melody patterns, arpeggios and sound effects -/

/-- The table `MELODY_PATTERNS`. -/
def MELODY_PATTERNS : List (String × List Int) :=
  [("BOUNCE", [0, 2, 4, 2, 0, -2, 0, 2]),
   ("RISE", [0, 1, 2, 3, 4, 5, 4, 3]),
   ("FALL", [4, 3, 2, 1, 0, 1, 2, 1]),
   ("WAVE", [0, 2, 4, 2, 0, 2, 4, 6]),
   ("SKIP", [0, 2, 0, 3, 0, 4, 0, 5]),
   ("DANCE", [0, 4, 2, 4, 0, 4, 3, 4]),
   ("HOOK", [0, 0, 2, 4, 4, 2, 0, 2]),
   ("CATCH", [0, 2, 4, 7, 4, 2, 0, 0])]

/-- The entry `MELODY_PATTERNS.BOUNCE`. -/
def BOUNCE : List Int := [0, 2, 4, 2, 0, -2, 0, 2]

/-- The element `array[index]` of a JavaScript array for a number `index`: `undefined`
(`none`) when the index is negative or past the end. -/
def elementAt {β : Type} (array : List β) (index : Int) : Option β :=
  if 0 ≤ index then array.get? index.toNat else none

namespace Arpeggiator

/-- `getNextNote()`: the arpeggiator afterwards and the value returned (`none`: `undefined`).
`random` is the value `Math.random()` returns if it is called.  `currentIndex` is never
negative, so `%` on it is the JavaScript remainder; `x % 0` is `NaN` there and `notes[NaN]`
is `undefined`. -/
def getNextNote (a : Arpeggiator) (random : ℚ) : Arpeggiator × Option String :=
  let length : Int := a.notes.length
  let current : Int := a.currentIndex
  let next := { a with currentIndex := a.currentIndex + 1 }
  if a.pattern = "up" then
    (next, if length = 0 then none else elementAt a.notes (current % length))
  else if a.pattern = "down" then
    (next, if length = 0 then none else elementAt a.notes ((length - 1) - current % length))
  else if a.pattern = "updown" then
    let cycle := length * 2 - 2
    if cycle = 0 then (next, none)
    else
      let pos := current % cycle
      (next, elementAt a.notes (if pos < length then pos else cycle - pos))
  else if a.pattern = "random" then
    (a, elementAt a.notes (Int.floor (random * length)))
  else
    (next, if length = 0 then none else elementAt a.notes (current % length))

/-- The values returned by `n` successive calls of `getNextNote()`, oldest first, and the
arpeggiator afterwards; call `k` draws `random k`. -/
def nextNotes (random : Nat → ℚ) : Arpeggiator → Nat → Arpeggiator × List (Option String)
  | a, 0 => (a, [])
  | a, n + 1 =>
    let (a1, notes) := nextNotes random a n
    let (a2, note) := a1.getNextNote (random n)
    (a2, notes ++ [note])

end Arpeggiator

namespace MelodyGenerator

/-- `Math.max(0, Math.min(this.scale.length - 1, index))`. -/
def clampIndex (g : MelodyGenerator) (index : Int) : Int :=
  max 0 (min ((g.scale.length : Int) - 1) index)

/-- `setScale(scaleName)`. -/
def setScale (g : MelodyGenerator) (scaleName : String) : MelodyGenerator :=
  { g with scale := (SCALES.lookup scaleName).getD C_MAJOR_PENTA }

/-- `generateMelody(length, pattern)`: the array returned; an entry is `none` where the code
pushes `undefined`. -/
def generateMelody (g : MelodyGenerator) (length : Nat) (pattern : String) :
    List (Option String) :=
  let melodyPattern := (MELODY_PATTERNS.lookup pattern).getD BOUNCE
  (List.range length).map (fun i =>
    match melodyPattern.get? (i % melodyPattern.length) with
    | some offset => elementAt g.scale (g.clampIndex (g.currentNote + offset))
    | none => none)

/-- The loop of `generateRandomMelody` from step `i` on, `lastIndex` being the index reached
so far; step `k` draws `random k`. -/
def randomSteps (g : MelodyGenerator) (random : Nat → ℚ) :
    Nat → Nat → Int → List (Option String)
  | 0, _, _ => []
  | n + 1, i, lastIndex =>
    let jump := Int.floor (random i * 5) - 2
    let lastIndex := g.clampIndex (lastIndex + jump)
    elementAt g.scale lastIndex :: randomSteps g random n (i + 1) lastIndex

/-- `generateRandomMelody(length)`. -/
def generateRandomMelody (g : MelodyGenerator) (length : Nat) (random : Nat → ℚ) :
    List (Option String) :=
  randomSteps g random length 0 ((g.scale.length : Int) / 2)

/-- The array `hookPattern` of `generateHookMelody`. -/
def hookPattern : List Int := [0, 0, 2, 4, 4, 2, 0, -2]

/-- `generateHookMelody(length)`. -/
def generateHookMelody (g : MelodyGenerator) (length : Nat) : List (Option String) :=
  let baseNote : Int := (g.scale.length : Int) / 2
  (List.range length).map (fun i =>
    match hookPattern.get? (i % hookPattern.length) with
    | some offset => elementAt g.scale (g.clampIndex (baseNote + offset))
    | none => none)

end MelodyGenerator

/-- A voice call of `playSFX`: made `delay` ms after the call (0: at once). -/
structure Scheduled where
  delay : ℚ
  voice : Voice
deriving DecidableEq

/-- `NOTES[note]` for a note that `playSFX` names; each is a key of `NOTES`. -/
def noteFrequency (note : String) : ℚ := (NOTES.lookup note).getD 0

namespace MusicController

/-- The notes of an arpeggio of `playSFX`, each with its position in the array. -/
def indexed (notes : List String) : List (Nat × String) :=
  (List.range notes.length).zip notes

/-- The `switch` of `playSFX(type)`: the voice calls of the case for `type`, immediate ones
and those in `setTimeout` callbacks, in the order they are made; `none` when no case matches. -/
def sfxVoices (type : String) : Option (List Scheduled) :=
  if type = "catch" then
    some ((indexed ["C5", "E5", "G5", "C6"]).map (fun p =>
      { delay := p.1 * 80, voice := Voice.triangle (noteFrequency p.2) 0.2 0.4 }))
  else if type = "perfect" then
    some ((indexed ["C5", "E5", "G5", "C6", "E6"]).flatMap (fun p =>
      [{ delay := p.1 * 60, voice := Voice.sine (noteFrequency p.2) 0.3 0.3 },
       { delay := p.1 * 60, voice := Voice.sine (noteFrequency p.2 * 2) 0.2 0.15 }]))
  else if type = "cast" then
    some [{ delay := 0, voice := Voice.noise 0.15 0.2 false },
          { delay := 0, voice := Voice.sine 400 0.1 0.2 },
          { delay := 50, voice := Voice.sine 200 0.1 0.15 }]
  else if type = "bite" then
    some [{ delay := 0, voice := Voice.square (noteFrequency "A4") 0.1 0.3 },
          { delay := 100, voice := Voice.square (noteFrequency "C5") 0.1 0.3 }]
  else if type = "reel" then
    some [{ delay := 0, voice := Voice.noise 0.02 0.1 false }]
  else if type = "splash" then
    some [{ delay := 0, voice := Voice.noise 0.2 0.15 true }]
  else if type = "levelup" then
    some ((indexed ["C4", "E4", "G4", "C5", "E5", "G5", "C6"]).map (fun p =>
      { delay := p.1 * 70, voice := Voice.triangle (noteFrequency p.2) 0.15 0.4 }))
  else if type = "coin" then
    some [{ delay := 0, voice := Voice.sine (noteFrequency "E5") 0.08 0.25 },
          { delay := 80, voice := Voice.sine (noteFrequency "B5") 0.12 0.25 }]
  else if type = "menu_select" then
    some [{ delay := 0, voice := Voice.square (noteFrequency "C4") 0.05 0.2 }]
  else if type = "menu_hover" then
    some [{ delay := 0, voice := Voice.sine (noteFrequency "G4") 0.03 0.1 }]
  else if type = "error" then
    some [{ delay := 0, voice := Voice.square (noteFrequency "E3") 0.15 0.3 },
          { delay := 150, voice := Voice.square (noteFrequency "C3") 0.2 0.3 }]
  else if type = "achievement" then
    some ((indexed ["G4", "C5", "E5", "G5", "C6"]).flatMap (fun p =>
      [{ delay := p.1 * 100, voice := Voice.triangle (noteFrequency p.2) 0.25 0.35 },
       { delay := p.1 * 100, voice := Voice.sine (noteFrequency p.2 * 1.5) 0.15 0.2 }]))
  else if type = "rare_catch" then
    some ((indexed ["E4", "G4", "B4", "E5", "G5", "B5", "E6"]).map (fun p =>
      { delay := p.1 * 80, voice := Voice.pulse (noteFrequency p.2) 0.2 0.25 0.35 }))
  else if type = "breeding_complete" then
    some ((indexed ["C4", "E4", "G4", "B4", "C5"]).map (fun p =>
      { delay := p.1 * 120, voice := Voice.triangle (noteFrequency p.2) 0.3 0.3 }))
  else none

/-- The values of `type` that have a case in the `switch` of `playSFX`. -/
def sfxTypes : List String :=
  ["catch", "perfect", "cast", "bite", "reel", "splash", "levelup", "coin", "menu_select",
   "menu_hover", "error", "achievement", "rare_catch", "breeding_complete"]

/-- `playSFX(type)`: how the call ends and the voice calls it makes. -/
def playSFX (sys : System) (type : String) : Outcome × List Scheduled :=
  match init sys with
  | Outcome.throws sys1 => (Outcome.throws sys1, [])
  | Outcome.ok sys1 => (Outcome.ok sys1, (sfxVoices type).getD [])

/-- `getCurrentSongInfo()`: `none` stands for `null` and for `undefined`. -/
def getCurrentSongInfo (sys : System) : Option Song :=
  match sys.controller.currentSong with
  | some songKey => if songKey ≠ "" then SONGS.lookup songKey else none
  | none => none

end MusicController

end MusicEngine

namespace TouchEngine

open GestureRecognizer

/-! ## Lemmas on the effect log -/

@[simp] theorem name_tap {α : Type} (p : Point α) :
    (GestureEvent.tap p).name = EventName.tap := rfl

@[simp] theorem name_doubleTap {α : Type} (p : Point α) :
    (GestureEvent.doubleTap p).name = EventName.doubleTap := rfl

@[simp] theorem name_longPress {α : Type} (p : Point α) (d : α) :
    (GestureEvent.longPress p d).name = EventName.longPress := rfl

@[simp] theorem name_swipe {α : Type} (d : SwipeData α) :
    (GestureEvent.swipe d).name = EventName.swipe := rfl

@[simp] theorem name_swipeUp {α : Type} (d : SwipeData α) :
    (GestureEvent.swipeUp d).name = EventName.swipeUp := rfl

@[simp] theorem name_swipeDown {α : Type} (d : SwipeData α) :
    (GestureEvent.swipeDown d).name = EventName.swipeDown := rfl

@[simp] theorem name_swipeLeft {α : Type} (d : SwipeData α) :
    (GestureEvent.swipeLeft d).name = EventName.swipeLeft := rfl

@[simp] theorem name_swipeRight {α : Type} (d : SwipeData α) :
    (GestureEvent.swipeRight d).name = EventName.swipeRight := rfl

@[simp] theorem name_pinch {α : Type} (s : α) (c : Point α) :
    (GestureEvent.pinch s c).name = EventName.pinch := rfl

@[simp] theorem name_rotate {α : Type} (s : α) (c : Point α) :
    (GestureEvent.rotate s c).name = EventName.rotate := rfl

@[simp] theorem name_pan {α : Type} (d : MoveData α) :
    (GestureEvent.pan d).name = EventName.pan := rfl

@[simp] theorem name_panStart {α : Type} (p : Point α) :
    (GestureEvent.panStart p).name = EventName.panStart := rfl

@[simp] theorem name_panMove {α : Type} (d : MoveData α) :
    (GestureEvent.panMove d).name = EventName.panMove := rfl

@[simp] theorem name_panEnd {α : Type} (p : Point α) (d : α) :
    (GestureEvent.panEnd p d).name = EventName.panEnd := rfl

@[simp] theorem name_touchStart {α : Type} (p : Point α) (t : List (Point α)) :
    (GestureEvent.touchStart p t).name = EventName.touchStart := rfl

@[simp] theorem name_touchMove {α : Type} (d : MoveData α) (t : List (Point α)) :
    (GestureEvent.touchMove d t).name = EventName.touchMove := rfl

@[simp] theorem name_touchEnd {α : Type} (p : Option (Point α)) (d : Option α) (c : Bool) :
    (GestureEvent.touchEnd p d c).name = EventName.touchEnd := rfl

@[simp] theorem name_directionalSwipe {α : Type} (d : Direction) (data : SwipeData α) :
    (directionalSwipe d data).name = swipeEventName d := by
  cases d <;> rfl

@[simp] theorem emits_emit {α : Type} (n : EventName) (e : GestureEvent α) :
    (Effect.emit e).emits n = decide (e.name = n) := rfl

@[simp] theorem emits_haptic {α : Type} (n : EventName) (h : Haptic) :
    (Effect.haptic h : Effect α).emits n = false := rfl

@[simp] theorem emits_preventDefault {α : Type} (n : EventName) :
    (Effect.preventDefault : Effect α).emits n = false := rfl

theorem swipeEventName_injective : ∀ d1 d2 : Direction,
    swipeEventName d1 = swipeEventName d2 → d1 = d2 := by
  intro d1 d2
  cases d1 <;> cases d2 <;> simp [swipeEventName]

theorem swipeEventName_ne (d : Direction) :
    swipeEventName d ≠ EventName.tap ∧ swipeEventName d ≠ EventName.doubleTap ∧
    swipeEventName d ≠ EventName.swipe ∧ swipeEventName d ≠ EventName.longPress ∧
    swipeEventName d ≠ EventName.touchEnd ∧ swipeEventName d ≠ EventName.panEnd := by
  cases d <;> decide

/-! ## Lemmas on `handleTouchEnd` -/

theorem handleTouchEnd_of_tracking {α : Type} [LinearOrderedField α] (M : JSMath α)
    (r : GestureRecognizer α) (now : α) (start last : Point α)
    (htrack : r.state.isTracking = true) (hstart : r.state.startPosition = some start)
    (hlast : r.state.lastPosition = some last) :
    handleTouchEnd M r now =
      some ({ clearTimeout r r.state.longPressTimer with
              state := { (classifyRelease M r now start last).1 with isTracking := false } },
        (classifyRelease M r now start last).2 ++
          [Effect.emit (GestureEvent.touchEnd (some last) (some (now - r.state.startTime)) false),
           Effect.emit (GestureEvent.panEnd last (now - r.state.startTime))]) := by
  unfold handleTouchEnd
  simp only [htrack, hstart, hlast, Bool.not_true, Bool.false_eq_true, if_false]

theorem classifyRelease_cases {α : Type} [LinearOrderedField α] (M : JSMath α)
    (r : GestureRecognizer α) (now : α) (start last : Point α) :
    ((getDistance M start last < r.options.tapThreshold ∧
        now - r.state.startTime < r.options.tapTimeout) ∧
      now - r.state.lastTapTime < r.options.doubleTapTimeout ∧
      classifyRelease M r now start last =
        ({ r.state with lastTapTime := 0 },
          [Effect.emit (GestureEvent.doubleTap start), Effect.haptic Haptic.light])) ∨
    ((getDistance M start last < r.options.tapThreshold ∧
        now - r.state.startTime < r.options.tapTimeout) ∧
      ¬ now - r.state.lastTapTime < r.options.doubleTapTimeout ∧
      classifyRelease M r now start last =
        ({ r.state with lastTapTime := now },
          [Effect.emit (GestureEvent.tap start), Effect.haptic Haptic.light])) ∨
    (¬(getDistance M start last < r.options.tapThreshold ∧
        now - r.state.startTime < r.options.tapTimeout) ∧
      (getDistance M start last ≥ r.options.swipeThreshold ∨
        getVelocity (getDistance M start last) (now - r.state.startTime) ≥
          r.options.swipeVelocityThreshold) ∧
      ∃ data : SwipeData α,
        data.direction = getSwipeDirection (getAngle M start last) ∧
        data.distance = getDistance M start last ∧
        data.velocity = getVelocity (getDistance M start last) (now - r.state.startTime) ∧
        data.angle = getAngle M start last ∧
        classifyRelease M r now start last =
          (r.state,
            [Effect.emit (GestureEvent.swipe data),
             Effect.emit (directionalSwipe data.direction data),
             Effect.haptic Haptic.medium])) ∨
    (¬(getDistance M start last < r.options.tapThreshold ∧
        now - r.state.startTime < r.options.tapTimeout) ∧
      ¬(getDistance M start last ≥ r.options.swipeThreshold ∨
        getVelocity (getDistance M start last) (now - r.state.startTime) ≥
          r.options.swipeVelocityThreshold) ∧
      classifyRelease M r now start last = (r.state, [])) := by
  by_cases htap : getDistance M start last < r.options.tapThreshold ∧
      now - r.state.startTime < r.options.tapTimeout
  · by_cases hdt : now - r.state.lastTapTime < r.options.doubleTapTimeout
    · exact Or.inl ⟨htap, hdt, by simp only [classifyRelease, htap, hdt, and_self, if_true]⟩
    · exact Or.inr (Or.inl ⟨htap, hdt, by
        simp only [classifyRelease, htap, hdt, and_self, if_true, if_false]⟩)
  · by_cases hsw : getDistance M start last ≥ r.options.swipeThreshold ∨
        getVelocity (getDistance M start last) (now - r.state.startTime) ≥
          r.options.swipeVelocityThreshold
    · exact Or.inr (Or.inr (Or.inl ⟨htap, hsw,
        { direction := getSwipeDirection (getAngle M start last)
          distance := getDistance M start last
          velocity := getVelocity (getDistance M start last) (now - r.state.startTime)
          angle := getAngle M start last
          startPosition := start
          endPosition := last
          duration := now - r.state.startTime }, rfl, rfl, rfl, rfl, by
        simp only [classifyRelease, htap, hsw, if_true, if_false]⟩))
    · exact Or.inr (Or.inr (Or.inr ⟨htap, hsw, by
        simp only [classifyRelease, htap, hsw, if_false]⟩))

theorem handleTouchEnd_eq_some {α : Type} [LinearOrderedField α] (M : JSMath α)
    (r r1 : GestureRecognizer α) (now : α) (out : List (Effect α))
    (h : handleTouchEnd M r now = some (r1, out)) :
    (r.state.isTracking = false ∧ r1 = r ∧ out = []) ∨
    (r.state.isTracking = true ∧ ∃ start last,
      r.state.startPosition = some start ∧ r.state.lastPosition = some last ∧
      r1 = { clearTimeout r r.state.longPressTimer with
              state := { (classifyRelease M r now start last).1 with isTracking := false } } ∧
      out = (classifyRelease M r now start last).2 ++
          [Effect.emit (GestureEvent.touchEnd (some last) (some (now - r.state.startTime)) false),
           Effect.emit (GestureEvent.panEnd last (now - r.state.startTime))]) := by
  by_cases htr : r.state.isTracking = true
  · right
    refine ⟨htr, ?_⟩
    cases hs : r.state.startPosition with
    | none => simp [handleTouchEnd, htr, hs] at h
    | some start =>
      cases hl : r.state.lastPosition with
      | none => simp [handleTouchEnd, htr, hs, hl] at h
      | some last =>
        rw [handleTouchEnd_of_tracking M r now start last htr hs hl] at h
        simp only [Option.some.injEq, Prod.mk.injEq] at h
        exact ⟨start, last, rfl, rfl, h.1.symm, h.2.symm⟩
  · left
    simp only [Bool.not_eq_true] at htr
    simp only [handleTouchEnd, htr, Bool.not_false, if_true, Option.some.injEq,
      Prod.mk.injEq] at h
    exact ⟨htr, h.1.symm, h.2.symm⟩

/-! ## Swipe direction and release classification -/

/-- C1: `getSwipeDirection` puts every angle in exactly one of four half-open sectors:
`right` iff `-45 ≤ a < 45`, `down` iff `45 ≤ a < 135`, `up` iff `-135 ≤ a < -45`, `left` for
every other angle; `-45` is `right` and `135` is `left`. -/
theorem getSwipeDirection_sectors {α : Type} [LinearOrderedField α] (a : α) :
    (getSwipeDirection a = Direction.right ↔ -45 ≤ a ∧ a < 45) ∧
    (getSwipeDirection a = Direction.down ↔ 45 ≤ a ∧ a < 135) ∧
    (getSwipeDirection a = Direction.up ↔ -135 ≤ a ∧ a < -45) ∧
    (getSwipeDirection a = Direction.left ↔
      ¬(-45 ≤ a ∧ a < 45) ∧ ¬(45 ≤ a ∧ a < 135) ∧ ¬(-135 ≤ a ∧ a < -45)) ∧
    getSwipeDirection (-45 : α) = Direction.right ∧
    getSwipeDirection (135 : α) = Direction.left := by
  refine ⟨?_, ?_, ?_, ?_, ?_, ?_⟩
  · unfold getSwipeDirection
    split_ifs with h1 h2 h3 <;> simp_all
  · unfold getSwipeDirection
    split_ifs with h1 h2 h3
    · simp only [reduceCtorEq, false_iff, not_and, not_lt]
      intro h; linarith [h1.2]
    · simp only [true_iff]; exact h2
    · simp only [reduceCtorEq, false_iff]; exact h2
    · simp only [reduceCtorEq, false_iff]; exact h2
  · unfold getSwipeDirection
    split_ifs with h1 h2 h3
    · simp only [reduceCtorEq, false_iff, not_and, not_lt]
      intro h; linarith [h1.1]
    · simp only [reduceCtorEq, false_iff, not_and, not_lt]
      intro h; linarith [h2.1]
    · simp only [true_iff]; exact h3
    · simp only [reduceCtorEq, false_iff]; exact h3
  · unfold getSwipeDirection
    split_ifs with h1 h2 h3 <;> simp_all
  · unfold getSwipeDirection
    norm_num
  · unfold getSwipeDirection
    norm_num

/-- C2: a tracked session released at `now`, with net distance `d` from start to last position
and duration `t`, emits `tap` or `doubleTap` iff `d < tapThreshold` and `t < tapTimeout`;
it emits `swipe` iff that fails and `d ≥ swipeThreshold` or `getVelocity d t ≥
swipeVelocityThreshold`; with `swipe` goes exactly the directional event of
`getSwipeDirection` of the release angle, and no directional event is emitted without
`swipe`; the velocity is `d / t` if `t > 0` and `0` otherwise.  With default options, 5px
over 100ms is tap-class and 80px over 150ms is a swipe. -/
theorem handleTouchEnd_classifies {α : Type} [LinearOrderedField α] (M : JSMath α)
    (r : GestureRecognizer α) (now : α)
    (start last : Point α) (htrack : r.state.isTracking = true)
    (hstart : r.state.startPosition = some start) (hlast : r.state.lastPosition = some last) :
    ∃ r1 out, handleTouchEnd M r now = some (r1, out) ∧
      ((∃ e ∈ out, e.emits EventName.tap = true ∨ e.emits EventName.doubleTap = true) ↔
        (getDistance M start last < r.options.tapThreshold ∧
          now - r.state.startTime < r.options.tapTimeout)) ∧
      ((∃ e ∈ out, e.emits EventName.swipe = true) ↔
        (¬(getDistance M start last < r.options.tapThreshold ∧
            now - r.state.startTime < r.options.tapTimeout) ∧
          (getDistance M start last ≥ r.options.swipeThreshold ∨
            getVelocity (getDistance M start last) (now - r.state.startTime) ≥
              r.options.swipeVelocityThreshold))) ∧
      ((∃ e ∈ out, e.emits EventName.swipe = true) →
        ∃ data : SwipeData α,
          data.direction = getSwipeDirection (getAngle M start last) ∧
          data.distance = getDistance M start last ∧
          data.velocity = getVelocity (getDistance M start last) (now - r.state.startTime) ∧
          Effect.emit (GestureEvent.swipe data) ∈ out ∧
          Effect.emit (directionalSwipe data.direction data) ∈ out ∧
          ∀ d : Direction, d ≠ data.direction →
            ∀ e ∈ out, e.emits (swipeEventName d) = false) ∧
      ((∀ e ∈ out, e.emits EventName.swipe = false) →
        ∀ d : Direction, ∀ e ∈ out, e.emits (swipeEventName d) = false) ∧
      (r.options = defaultOptions → getDistance M start last = 5 →
        now - r.state.startTime = 100 →
        ∃ e ∈ out, e.emits EventName.tap = true ∨ e.emits EventName.doubleTap = true) ∧
      (r.options = defaultOptions → getDistance M start last = 80 →
        now - r.state.startTime = 150 → ∃ e ∈ out, e.emits EventName.swipe = true) ∧
      getVelocity (getDistance M start last) (now - r.state.startTime) =
        (if now - r.state.startTime > 0 then
          getDistance M start last / (now - r.state.startTime) else 0) := by
  refine ⟨_, _, handleTouchEnd_of_tracking M r now start last htrack hstart hlast, ?_⟩
  have h5 : r.options = defaultOptions → getDistance M start last = 5 →
      now - r.state.startTime = 100 →
      (getDistance M start last < r.options.tapThreshold ∧
        now - r.state.startTime < r.options.tapTimeout) := by
    intro ho hd ht
    rw [ho, hd, ht]
    constructor <;> norm_num [defaultOptions]
  have h80 : r.options = defaultOptions → getDistance M start last = 80 →
      now - r.state.startTime = 150 →
      (¬(getDistance M start last < r.options.tapThreshold ∧
          now - r.state.startTime < r.options.tapTimeout) ∧
        (getDistance M start last ≥ r.options.swipeThreshold ∨
          getVelocity (getDistance M start last) (now - r.state.startTime) ≥
            r.options.swipeVelocityThreshold)) := by
    intro ho hd ht
    rw [ho, hd, ht]
    constructor
    · norm_num [defaultOptions]
    · left; norm_num [defaultOptions]
  rcases classifyRelease_cases M r now start last with
    ⟨c1, -, hc⟩ | ⟨c1, -, hc⟩ | ⟨c1, c2, data, hdir, hdist, hvel, -, hc⟩ | ⟨c1, c2, hc⟩
  · rw [hc]
    refine ⟨?_, ?_, ?_, ?_, ?_, ?_, rfl⟩
    · simp [c1]
    · simp [c1]
    · simp
    · intro _ d; cases d <;> simp [swipeEventName]
    · intro _ _ _; simp
    · intro ho hd ht; exact absurd c1 (h80 ho hd ht).1
  · rw [hc]
    refine ⟨?_, ?_, ?_, ?_, ?_, ?_, rfl⟩
    · simp [c1]
    · simp [c1]
    · simp
    · intro _ d; cases d <;> simp [swipeEventName]
    · intro _ _ _; simp
    · intro ho hd ht; exact absurd c1 (h80 ho hd ht).1
  · rw [hc]
    have hne := swipeEventName_ne data.direction
    refine ⟨?_, ?_, ?_, ?_, ?_, ?_, rfl⟩
    · simp [c1, hne.1, hne.2.1]
    · simp [c1, c2]
    · intro _
      refine ⟨data, hdir, hdist, hvel, by simp, by simp, ?_⟩
      intro d hd e he
      have hd1 := swipeEventName_ne d
      simp only [List.cons_append, List.nil_append, List.mem_cons, List.mem_singleton,
        List.not_mem_nil, or_false] at he
      rcases he with rfl | rfl | rfl | rfl | rfl
      · simpa using hd1.2.2.1.symm
      · simp only [emits_emit, name_directionalSwipe, decide_eq_false_iff_not]
        exact fun h => hd (swipeEventName_injective _ _ h).symm
      · simp
      · simpa using hd1.2.2.2.2.1.symm
      · simpa using hd1.2.2.2.2.2.symm
    · intro h
      have := h (Effect.emit (GestureEvent.swipe data)) (by simp)
      simp at this
    · intro ho hd ht; exact absurd (h5 ho hd ht) c1
    · intro _ _ _; exact ⟨Effect.emit (GestureEvent.swipe data), by simp, by simp⟩
  · rw [hc]
    refine ⟨?_, ?_, ?_, ?_, ?_, ?_, rfl⟩
    · simp [c1]
    · simp [c1, c2]
    · simp
    · intro _ d; cases d <;> simp [swipeEventName]
    · intro ho hd ht; exact absurd (h5 ho hd ht) c1
    · intro ho hd ht; exact absurd (h80 ho hd ht).2 c2

/-! ## Lemmas on the event loop -/

theorem getDistance_self {α : Type} [LinearOrderedField α] (M : JSMath α) (p : Point α) :
    getDistance M p p = M.sqrt 0 := by
  simp [getDistance]

theorem handleTouchStart_spec {α : Type} [LinearOrderedField α] (M : JSMath α)
    (r : GestureRecognizer α) (e : TouchEvent α) (now : α) :
    (handleTouchStart M r e now).1.options = r.options ∧
    (handleTouchStart M r e now).1.pending =
      r.pending ++ [{ id := r.nextTimerId, due := now + r.options.longPressTimeout }] ∧
    (handleTouchStart M r e now).1.nextTimerId = r.nextTimerId + 1 ∧
    (handleTouchStart M r e now).1.state.isTracking = true ∧
    (handleTouchStart M r e now).1.state.startTime = now ∧
    (handleTouchStart M r e now).1.state.startPosition =
      some (getTouchPosition e.first e.rect) ∧
    (handleTouchStart M r e now).1.state.lastPosition =
      some (getTouchPosition e.first e.rect) ∧
    (handleTouchStart M r e now).1.state.lastTapTime = r.state.lastTapTime ∧
    (handleTouchStart M r e now).1.state.longPressTimer = some r.nextTimerId ∧
    (∀ n, n ≠ EventName.touchStart → n ≠ EventName.panStart →
      ∀ x ∈ (handleTouchStart M r e now).2, x.emits n = false) := by
  unfold handleTouchStart setTimeout
  refine ⟨rfl, rfl, rfl, ?_, ?_, ?_, ?_, ?_, ?_, ?_⟩
  · dsimp only; split <;> rfl
  · dsimp only; split <;> rfl
  · dsimp only; split <;> rfl
  · dsimp only; split <;> rfl
  · dsimp only; split <;> rfl
  · dsimp only; split <;> rfl
  · intro n h1 h2 x hx
    simp only [List.mem_cons, List.mem_singleton, List.not_mem_nil, or_false] at hx
    rcases hx with rfl | rfl
    · simpa using fun h => h1 h.symm
    · simpa using fun h => h2 h.symm

theorem advance_of_pending_nil {α : Type} [LinearOrderedField α] (M : JSMath α)
    (r : GestureRecognizer α) (now : α) (h : r.pending = []) :
    advance M r now = some (r, []) := by
  simp [advance, h, fireAll]

theorem advance_of_not_due {α : Type} [LinearOrderedField α] (M : JSMath α)
    (r : GestureRecognizer α) (now : α) (h : ∀ t ∈ r.pending, now < t.due) :
    advance M r now = some (r, []) := by
  have : r.pending.filter (fun t => decide (t.due ≤ now)) = [] := by
    rw [List.filter_eq_nil_iff]
    intro t ht
    simpa using h t ht
  simp [advance, this, fireAll]

theorem run_cons {α : Type} [LinearOrderedField α] (M : JSMath α)
    (r r1 r2 : GestureRecognizer α) (now : α) (i : Input α) (rest : List (α × Input α))
    (o1 o2 : List (Effect α))
    (h1 : dispatch M r now i = some (r1, o1)) (h2 : run M r1 rest = some (r2, o2)) :
    run M r ((now, i) :: rest) = some (r2, o1 ++ o2) := by
  simp [run, h1, h2]

/-- One finger put down at `a` and lifted at `b` without moving, on a recognizer with no
pending timer, when the long-press timer is not yet due at `b`. -/
theorem run_still_session {α : Type} [LinearOrderedField α] (M : JSMath α)
    (r : GestureRecognizer α) (e : TouchEvent α) (a b : α)
    (hp : r.pending = []) (hdue : b < a + r.options.longPressTimeout) :
    run M r [(a, Input.touchstart e), (b, Input.touchend)] =
      some ({ clearTimeout (handleTouchStart M r e a).1 (some r.nextTimerId) with
              state := { (classifyRelease M (handleTouchStart M r e a).1 b
                          (getTouchPosition e.first e.rect)
                          (getTouchPosition e.first e.rect)).1 with isTracking := false } },
        (handleTouchStart M r e a).2 ++
          ((classifyRelease M (handleTouchStart M r e a).1 b
              (getTouchPosition e.first e.rect) (getTouchPosition e.first e.rect)).2 ++
            [Effect.emit (GestureEvent.touchEnd (some (getTouchPosition e.first e.rect))
                (some (b - a)) false),
             Effect.emit (GestureEvent.panEnd (getTouchPosition e.first e.rect) (b - a))])) := by
  obtain ⟨ho, hpend, -, htr, hst, hsp, hlp, -, htimer, -⟩ := handleTouchStart_spec M r e a
  have hadv : advance M (handleTouchStart M r e a).1 b =
      some ((handleTouchStart M r e a).1, []) := by
    apply advance_of_not_due
    intro t ht
    rw [hpend, hp] at ht
    simp only [List.nil_append, List.mem_singleton] at ht
    rw [ht]
    exact hdue
  have hend := handleTouchEnd_of_tracking M (handleTouchStart M r e a).1 b _ _ htr hsp hlp
  rw [htimer, hst] at hend
  simp only [run, dispatch, advance_of_pending_nil M r a hp, handle, hadv, hend,
    List.nil_append, List.append_nil]

theorem run_append {α : Type} [LinearOrderedField α] (M : JSMath α)
    (l1 l2 : List (α × Input α)) (r r1 r2 : GestureRecognizer α) (o1 o2 : List (Effect α))
    (h1 : run M r l1 = some (r1, o1)) (h2 : run M r1 l2 = some (r2, o2)) :
    run M r (l1 ++ l2) = some (r2, o1 ++ o2) := by
  induction l1 generalizing r o1 with
  | nil =>
    simp only [run, Option.some.injEq, Prod.mk.injEq] at h1
    obtain ⟨rfl, rfl⟩ := h1
    simpa using h2
  | cons x rest ih =>
    obtain ⟨now, i⟩ := x
    simp only [run] at h1
    cases hd : dispatch M r now i with
    | none => simp [hd] at h1
    | some res =>
      obtain ⟨ra, oa⟩ := res
      simp only [hd] at h1
      cases hr : run M ra rest with
      | none => simp [hr] at h1
      | some res2 =>
        obtain ⟨rb, ob⟩ := res2
        simp only [hr, Option.some.injEq, Prod.mk.injEq] at h1
        obtain ⟨rfl, rfl⟩ := h1
        have := ih ra ob hr
        simp [run, hd, this]

/-- The tap-class entries of the log of a motionless session that qualifies as a tap. -/
theorem still_tap_session {α : Type} [LinearOrderedField α] (M : JSMath α)
    (r : GestureRecognizer α) (e : TouchEvent α) (a b : α)
    (hp : r.pending = []) (hdue : b < a + r.options.longPressTimeout)
    (hd : M.sqrt 0 < r.options.tapThreshold) (ht : b - a < r.options.tapTimeout) :
    ∃ r2 out, run M r [(a, Input.touchstart e), (b, Input.touchend)] = some (r2, out) ∧
      r2.pending = [] ∧ r2.options = r.options ∧
      (b - r.state.lastTapTime < r.options.doubleTapTimeout →
        r2.state.lastTapTime = 0 ∧
        out.filter (fun x => x.emits EventName.tap || x.emits EventName.doubleTap) =
          [Effect.emit (GestureEvent.doubleTap (getTouchPosition e.first e.rect))]) ∧
      (¬ b - r.state.lastTapTime < r.options.doubleTapTimeout →
        r2.state.lastTapTime = b ∧
        out.filter (fun x => x.emits EventName.tap || x.emits EventName.doubleTap) =
          [Effect.emit (GestureEvent.tap (getTouchPosition e.first e.rect))]) := by
  refine ⟨_, _, run_still_session M r e a b hp hdue, ?_⟩
  obtain ⟨ho, hpend, -, htr, hst, hsp, hlp, hltt, htimer, hquiet⟩ :=
    handleTouchStart_spec M r e a
  have hstart : (handleTouchStart M r e a).2.filter
      (fun x => x.emits EventName.tap || x.emits EventName.doubleTap) = [] := by
    rw [List.filter_eq_nil_iff]
    intro x hx
    simp [hquiet EventName.tap (by decide) (by decide) x hx,
      hquiet EventName.doubleTap (by decide) (by decide) x hx]
  have hd1 : getDistance M (getTouchPosition e.first e.rect) (getTouchPosition e.first e.rect) <
      (handleTouchStart M r e a).1.options.tapThreshold := by
    rw [getDistance_self, ho]; exact hd
  have ht1 : b - (handleTouchStart M r e a).1.state.startTime <
      (handleTouchStart M r e a).1.options.tapTimeout := by
    rw [hst, ho]; exact ht
  refine ⟨?_, ho, ?_, ?_⟩
  · simp [clearTimeout, hpend, hp]
  · intro hdt
    rcases classifyRelease_cases M (handleTouchStart M r e a).1 b
        (getTouchPosition e.first e.rect) (getTouchPosition e.first e.rect) with
      ⟨-, -, hc⟩ | ⟨-, c, -⟩ | ⟨c, -⟩ | ⟨c, -⟩
    · rw [hc, List.filter_append, hstart]
      simp
    · rw [hltt, ho] at c; exact absurd hdt c
    · exact absurd ⟨hd1, ht1⟩ c
    · exact absurd ⟨hd1, ht1⟩ c
  · intro hdt
    rcases classifyRelease_cases M (handleTouchStart M r e a).1 b
        (getTouchPosition e.first e.rect) (getTouchPosition e.first e.rect) with
      ⟨-, c, -⟩ | ⟨-, -, hc⟩ | ⟨c, -⟩ | ⟨c, -⟩
    · rw [hltt, ho] at c; exact absurd c hdt
    · rw [hc, List.filter_append, hstart]
      simp
    · exact absurd ⟨hd1, ht1⟩ c
    · exact absurd ⟨hd1, ht1⟩ c

/-! ## Double tap -/

/-- C3: a `tap` emitted by a release at `t1` leaves `lastTapTime = t1`; a tap-qualified
release at `t2` with `t2 - lastTapTime < doubleTapTimeout` emits `doubleTap` and not `tap`
and resets `lastTapTime` to `0`; a tap-qualified release at `t3 ≥ doubleTapTimeout` with
`lastTapTime = 0` emits `tap` and not `doubleTap`.  Hence three motionless taps on a fresh
recognizer, released at `b1 ≥ doubleTapTimeout`, `b2` with `b2 - b1 < doubleTapTimeout` and
any `b3 ≥ doubleTapTimeout`, produce `tap`, `doubleTap`, `tap` in this order. -/
theorem doubleTap_resets_lastTapTime {α : Type} [LinearOrderedField α] (M : JSMath α) :
    (∀ (r r1 : GestureRecognizer α) (t1 : α) (out : List (Effect α)),
      handleTouchEnd M r t1 = some (r1, out) → (∃ e ∈ out, e.emits EventName.tap = true) →
        r1.state.lastTapTime = t1) ∧
    (∀ (r : GestureRecognizer α) (t2 : α) (start last : Point α),
      r.state.isTracking = true → r.state.startPosition = some start →
      r.state.lastPosition = some last →
      getDistance M start last < r.options.tapThreshold →
      t2 - r.state.startTime < r.options.tapTimeout →
      t2 - r.state.lastTapTime < r.options.doubleTapTimeout →
        ∃ r2 out, handleTouchEnd M r t2 = some (r2, out) ∧
          (∃ e ∈ out, e.emits EventName.doubleTap = true) ∧
          (∀ e ∈ out, e.emits EventName.tap = false) ∧
          r2.state.lastTapTime = 0) ∧
    (∀ (r : GestureRecognizer α) (t3 : α) (start last : Point α),
      r.state.isTracking = true → r.state.startPosition = some start →
      r.state.lastPosition = some last →
      getDistance M start last < r.options.tapThreshold →
      t3 - r.state.startTime < r.options.tapTimeout →
      r.state.lastTapTime = 0 → r.options.doubleTapTimeout ≤ t3 →
        ∃ r3 out, handleTouchEnd M r t3 = some (r3, out) ∧
          (∃ e ∈ out, e.emits EventName.tap = true) ∧
          (∀ e ∈ out, e.emits EventName.doubleTap = false) ∧
          r3.state.lastTapTime = t3) ∧
    (∀ (o : Options α) (e1 e2 e3 : TouchEvent α) (a1 b1 a2 b2 a3 b3 : α),
      M.sqrt 0 < o.tapThreshold → o.tapTimeout ≤ o.longPressTimeout →
      b1 - a1 < o.tapTimeout → b2 - a2 < o.tapTimeout → b3 - a3 < o.tapTimeout →
      o.doubleTapTimeout ≤ b1 → b2 - b1 < o.doubleTapTimeout → o.doubleTapTimeout ≤ b3 →
        ∃ r out,
          run M (create o)
            [(a1, Input.touchstart e1), (b1, Input.touchend),
             (a2, Input.touchstart e2), (b2, Input.touchend),
             (a3, Input.touchstart e3), (b3, Input.touchend)] = some (r, out) ∧
          out.filter (fun x => x.emits EventName.tap || x.emits EventName.doubleTap) =
            [Effect.emit (GestureEvent.tap (getTouchPosition e1.first e1.rect)),
             Effect.emit (GestureEvent.doubleTap (getTouchPosition e2.first e2.rect)),
             Effect.emit (GestureEvent.tap (getTouchPosition e3.first e3.rect))]) := by
  refine ⟨?_, ?_, ?_, ?_⟩
  · intro r r1 t1 out h htap
    rcases handleTouchEnd_eq_some M r r1 t1 out h with
      ⟨-, -, rfl⟩ | ⟨-, start, last, -, -, rfl, rfl⟩
    · simp at htap
    · rcases classifyRelease_cases M r t1 start last with
        ⟨-, -, hc⟩ | ⟨-, -, hc⟩ | ⟨-, -, data, -, -, -, -, hc⟩ | ⟨-, -, hc⟩
      · rw [hc] at htap; simp at htap
      · rw [hc]
      · rw [hc] at htap
        simp [(swipeEventName_ne data.direction).1] at htap
      · rw [hc] at htap; simp at htap
  · intro r t2 start last htr hs hl hd ht hdt
    refine ⟨_, _, handleTouchEnd_of_tracking M r t2 start last htr hs hl, ?_⟩
    rcases classifyRelease_cases M r t2 start last with
      ⟨-, -, hc⟩ | ⟨-, c, -⟩ | ⟨c, -⟩ | ⟨c, -⟩
    · rw [hc]; simp
    · exact absurd hdt c
    · exact absurd ⟨hd, ht⟩ c
    · exact absurd ⟨hd, ht⟩ c
  · intro r t3 start last htr hs hl hd ht h0 hclock
    refine ⟨_, _, handleTouchEnd_of_tracking M r t3 start last htr hs hl, ?_⟩
    have hnd : ¬ (t3 - r.state.lastTapTime < r.options.doubleTapTimeout) := by
      rw [h0]; simpa using hclock
    rcases classifyRelease_cases M r t3 start last with
      ⟨-, c, -⟩ | ⟨-, -, hc⟩ | ⟨c, -⟩ | ⟨c, -⟩
    · exact absurd c hnd
    · rw [hc]; simp
    · exact absurd ⟨hd, ht⟩ c
    · exact absurd ⟨hd, ht⟩ c
  · intro o e1 e2 e3 a1 b1 a2 b2 a3 b3 hd hlp h1 h2 h3 hc1 hc2 hc3
    obtain ⟨r1, o1, hrun1, hp1, ho1, -, htapA⟩ :=
      still_tap_session M (create o) e1 a1 b1 rfl
        (by show b1 < a1 + o.longPressTimeout; linarith) hd h1
    obtain ⟨hl1, hf1⟩ := htapA (by
      show ¬ b1 - 0 < o.doubleTapTimeout
      simpa using hc1)
    obtain ⟨r2, o2, hrun2, hp2, ho2, hdblB, -⟩ :=
      still_tap_session M r1 e2 a2 b2 hp1
        (by rw [ho1]; show b2 < a2 + o.longPressTimeout; linarith)
        (by rw [ho1]; exact hd) (by rw [ho1]; exact h2)
    obtain ⟨hl2, hf2⟩ := hdblB (by rw [hl1, ho1]; exact hc2)
    obtain ⟨r3, o3, hrun3, -, -, -, htapC⟩ :=
      still_tap_session M r2 e3 a3 b3 hp2
        (by rw [ho2, ho1]; show b3 < a3 + o.longPressTimeout; linarith)
        (by rw [ho2, ho1]; exact hd) (by rw [ho2, ho1]; exact h3)
    obtain ⟨-, hf3⟩ := htapC (by
      rw [hl2, ho2, ho1]
      show ¬ b3 - 0 < o.doubleTapTimeout
      simpa using hc3)
    have h23 := run_append M _ _ r1 r2 r3 o2 o3 hrun2 hrun3
    have h123 := run_append M _ _ (create o) r1 r3 o1 (o2 ++ o3) hrun1 h23
    refine ⟨r3, o1 ++ (o2 ++ o3), h123, ?_⟩
    rw [List.filter_append, List.filter_append, hf1, hf2, hf3]
    rfl

/-! ## Long press -/

theorem longPressCallback_of_tracking {α : Type} [LinearOrderedField α] (M : JSMath α)
    (r : GestureRecognizer α) (now : α) (start last : Point α)
    (htrack : r.state.isTracking = true) (hstart : r.state.startPosition = some start)
    (hlast : r.state.lastPosition = some last) :
    longPressCallback M r now =
      some (r, if getDistance M start last < r.options.tapThreshold then
        [Effect.emit (GestureEvent.longPress start (now - r.state.startTime)),
         Effect.haptic Haptic.medium] else []) := by
  unfold longPressCallback
  simp only [htrack, hstart, hlast, if_true]
  split_ifs <;> rfl

theorem advance_single_due {α : Type} [LinearOrderedField α] (M : JSMath α)
    (r r1 : GestureRecognizer α) (now : α) (tm : Timer α) (o1 : List (Effect α))
    (hp : r.pending = [tm]) (hdue : tm.due ≤ now)
    (hcb : longPressCallback M { r with pending := [] } tm.due = some (r1, o1)) :
    advance M r now = some (r1, o1) := by
  simp [advance, hp, hdue, fireAll, fireTimer, hcb]

/-- Releasing at `now` a motionless session whose long-press timer `tm` is due, when the
session is too long for a tap and too slow for a swipe. -/
theorem dispatch_touchend_after_hold {α : Type} [LinearOrderedField α] (M : JSMath α)
    (r : GestureRecognizer α) (now : α) (tm : Timer α) (p : Point α)
    (hp : r.pending = [tm]) (hdue : tm.due ≤ now)
    (htrack : r.state.isTracking = true) (hstart : r.state.startPosition = some p)
    (hlast : r.state.lastPosition = some p) (hsqrt : M.sqrt 0 = 0)
    (hthr : 0 < r.options.tapThreshold) (hlong : r.options.tapTimeout ≤ now - r.state.startTime)
    (hsw : 0 < r.options.swipeThreshold) (hvel : 0 < r.options.swipeVelocityThreshold) :
    ∃ r2, dispatch M r now Input.touchend =
      some (r2,
        [Effect.emit (GestureEvent.longPress p (tm.due - r.state.startTime)),
         Effect.haptic Haptic.medium,
         Effect.emit (GestureEvent.touchEnd (some p) (some (now - r.state.startTime)) false),
         Effect.emit (GestureEvent.panEnd p (now - r.state.startTime))]) ∧
      r2.state.isTracking = false ∧ r2.pending = [] := by
  have hdist : getDistance M p p < r.options.tapThreshold := by
    rw [getDistance_self, hsqrt]; exact hthr
  have hcb := longPressCallback_of_tracking M { r with pending := [] } tm.due p p
    htrack hstart hlast
  rw [if_pos hdist] at hcb
  have hadv := advance_single_due M r _ now tm _ hp hdue hcb
  have hend := handleTouchEnd_of_tracking M { r with pending := [] } now p p
    htrack hstart hlast
  have hcls : classifyRelease M { r with pending := [] } now p p = (r.state, []) := by
    rcases classifyRelease_cases M { r with pending := [] } now p p with
      ⟨c, -⟩ | ⟨c, -⟩ | ⟨-, c, -⟩ | ⟨-, -, hc⟩
    · exact absurd c.2 (not_lt.mpr hlong)
    · exact absurd c.2 (not_lt.mpr hlong)
    · exfalso
      simp only [getDistance_self, hsqrt, getVelocity, zero_div, ite_self] at c
      rcases c with c | c
      · exact absurd hsw (not_lt.mpr c)
      · exact absurd hvel (not_lt.mpr c)
    · exact hc
  rw [hcls] at hend
  refine ⟨{ clearTimeout { r with pending := [] } r.state.longPressTimer with
      state := { r.state with isTracking := false } }, ?_, ?_, ?_⟩
  · simp only [dispatch, hadv, handle, hend]
    rfl
  · rfl
  · cases h : r.state.longPressTimer <;> simp [clearTimeout, h]

/-- C10: on a fresh recognizer with default options, one finger put down at `s`, not moved and
lifted at `s + t` with `t ≥ longPressTimeout` and `t ≥ tapTimeout` emits `longPress` exactly
once, from the timer due at `s + longPressTimeout`, and no `tap`, `doubleTap` or `swipe`. -/
theorem hold_emits_longPress_only {α : Type} [LinearOrderedField α] (M : JSMath α)
    (e : TouchEvent α) (s t : α) (hsqrt : M.sqrt 0 = 0)
    (hlong : (defaultOptions : Options α).longPressTimeout ≤ t)
    (htap : (defaultOptions : Options α).tapTimeout ≤ t) :
    ∃ r out,
      run M (create defaultOptions) [(s, Input.touchstart e), (s + t, Input.touchend)] =
        some (r, out) ∧
      out.countP (fun x => x.emits EventName.longPress) = 1 ∧
      Effect.emit (GestureEvent.longPress (getTouchPosition e.first e.rect)
        ((s + (defaultOptions : Options α).longPressTimeout) - s)) ∈ out ∧
      (∀ x ∈ out, x.emits EventName.tap = false ∧ x.emits EventName.doubleTap = false ∧
        x.emits EventName.swipe = false) ∧
      r.state.isTracking = false ∧ r.pending = [] := by
  obtain ⟨ho, hpend, -, htr, hst, hsp, hlp, -, -, hquiet⟩ :=
    handleTouchStart_spec M (create defaultOptions) e s
  have hpend1 : (handleTouchStart M (create defaultOptions) e s).1.pending =
      [{ id := 0, due := s + (defaultOptions : Options α).longPressTimeout }] := by
    rw [hpend]; rfl
  obtain ⟨r2, hd2, htr2, hp2⟩ :=
    dispatch_touchend_after_hold M (handleTouchStart M (create defaultOptions) e s).1 (s + t)
      _ _ hpend1 (by simpa using hlong) htr hsp hlp hsqrt
      (by rw [ho]; norm_num [create, defaultOptions])
      (by rw [ho, hst]; simpa [create] using htap)
      (by rw [ho]; norm_num [create, defaultOptions])
      (by rw [ho]; norm_num [create, defaultOptions])
  have hd1 : dispatch M (create defaultOptions) s (Input.touchstart e) =
      some (handleTouchStart M (create defaultOptions) e s) := by
    simp [dispatch, advance_of_pending_nil M (create defaultOptions) s rfl, handle]
  have hrun := run_cons M _ _ _ s (Input.touchstart e) [(s + t, Input.touchend)] _ _ hd1
    (run_cons M _ _ _ (s + t) Input.touchend [] _ _ hd2 rfl)
  rw [hst] at hrun
  refine ⟨_, _, hrun, ?_, ?_, ?_, htr2, hp2⟩
  · rw [List.countP_append, List.countP_eq_zero.mpr]
    · simp [List.countP_cons]
    · intro x hx
      simp [hquiet EventName.longPress (by decide) (by decide) x hx]
  · simp
  · intro x hx
    rw [List.mem_append] at hx
    rcases hx with hx | hx
    · exact ⟨hquiet _ (by decide) (by decide) x hx, hquiet _ (by decide) (by decide) x hx,
        hquiet _ (by decide) (by decide) x hx⟩
    · simp only [List.append_nil, List.mem_cons, List.mem_singleton, List.not_mem_nil,
        or_false] at hx
      rcases hx with rfl | rfl | rfl | rfl <;> simp

/-! ## Cast power and charge percent -/

/-- C4: `performCast` emits `cast` with `power = min(1, max(0.2, 0.5·(distance/300) +
0.3·(chargeTime/1500) + 0.2·(velocity/2)))`, where `chargeTime = now - chargeStartTime`; for
every distance, charge time and velocity, all zero included, `0.2 ≤ power ≤ 1`, and the same
`castData` goes to `onCast` and `chargeEnd`. -/
theorem performCast_power_bounds {α : Type} [LinearOrderedField α] (h : CastGestureHandler α)
    (data : CastInput α) (now : α) :
    (∃ castData : CastData α,
      CastEffect.cast castData ∈ (CastGestureHandler.performCast h data now).2 ∧
      castData.power =
        min 1 (max 0.2 (data.distance / 300 * 0.5 + (now - h.chargeStartTime) / 1500 * 0.3 +
          data.velocity / 2 * 0.2)) ∧
      (∀ c, CastEffect.cast c ∈ (CastGestureHandler.performCast h data now).2 ∨
          CastEffect.onCast c ∈ (CastGestureHandler.performCast h data now).2 ∨
          CastEffect.chargeEnd false (some c) ∈ (CastGestureHandler.performCast h data now).2 →
        c = castData) ∧
      0.2 ≤ castData.power ∧ castData.power ≤ 1) ∧
    (∀ distance chargeTime velocity : α,
      0.2 ≤ CastGestureHandler.castPower distance chargeTime velocity ∧
      CastGestureHandler.castPower distance chargeTime velocity ≤ 1) ∧
    CastGestureHandler.castPower (0 : α) 0 0 = 0.2 := by
  have hb : ∀ distance chargeTime velocity : α,
      0.2 ≤ CastGestureHandler.castPower distance chargeTime velocity ∧
      CastGestureHandler.castPower distance chargeTime velocity ≤ 1 := by
    intro d c v
    unfold CastGestureHandler.castPower
    constructor
    · exact le_min (by norm_num) (le_max_left _ _)
    · exact min_le_left _ _
  refine ⟨⟨⟨CastGestureHandler.castPower data.distance (now - h.chargeStartTime) data.velocity,
      data.distance, data.velocity, now - h.chargeStartTime, data.angle⟩, ?_, ?_, ?_, hb _ _ _⟩,
    hb, ?_⟩
  · simp [CastGestureHandler.performCast]
  · rfl
  · intro c hc
    unfold CastGestureHandler.performCast at hc
    cases hcb : h.hasOnCast <;> simp [hcb] at hc <;> exact hc
  · unfold CastGestureHandler.castPower
    norm_num

/-- The charge percent is monotone in the elapsed time and in the pull distance. -/
theorem chargePercent_mono {α : Type} [LinearOrderedField α] (t1 t2 d1 d2 : α)
    (ht : t1 ≤ t2) (hd : d1 ≤ d2) :
    CastGestureHandler.chargePercent t1 d1 ≤ CastGestureHandler.chargePercent t2 d2 := by
  unfold CastGestureHandler.chargePercent CastGestureHandler.maxChargeTime
    CastGestureHandler.maxChargeDistance
  apply min_le_min le_rfl
  apply max_le_max
  · exact div_le_div_of_nonneg_right ht (by norm_num)
  · exact div_le_div_of_nonneg_right hd (by norm_num)

theorem CastGestureHandler.onPanMove_of_charging {α : Type} [LinearOrderedField α]
    (M : JSMath α) (h : CastGestureHandler α) (data : MoveData α) (now : α) (c : Point α)
    (hch : h.isCharging = true) (hc : h.chargeStartPosition = some c) :
    CastGestureHandler.onPanMove M h data now =
      some (h, CastEffect.chargeUpdate
          (CastGestureHandler.chargePercent (now - h.chargeStartTime)
            (getDistance M c data.position))
          (getDistance M c data.position) (getAngle M c data.position)
          (decide (getAngle M c data.position < -30 ∧ getAngle M c data.position > -150))
          data.position ::
        CastGestureHandler.milestoneHaptics
          (CastGestureHandler.chargePercent (now - h.chargeStartTime)
            (getDistance M c data.position))) := by
  simp [CastGestureHandler.onPanMove, hch, hc]

theorem percent_milestoneHaptics {α : Type} [LinearOrderedField α] (p : α) :
    (CastGestureHandler.milestoneHaptics p).filterMap CastEffect.percent = [] := by
  unfold CastGestureHandler.milestoneHaptics
  split_ifs <;> rfl

/-- C5 (amended): while the handler keeps charging, two consecutive `panMove` events at times
`t1 ≤ t2` report `chargeUpdate` percents `min(1, max(elapsed/1500, pull/300))` with
`percent1 ≤ percent2` whenever the pull distance of the second is not smaller than that of
the first; the handler state is the same before and after each of them. -/
theorem chargeUpdate_percent_mono {α : Type} [LinearOrderedField α] (M : JSMath α)
    (h : CastGestureHandler α) (c : Point α) (m1 m2 : MoveData α) (t1 t2 : α)
    (hch : h.isCharging = true) (hc : h.chargeStartPosition = some c) (ht : t1 ≤ t2)
    (hpull : getDistance M c m1.position ≤ getDistance M c m2.position) :
    ∃ out1 out2 p1 p2,
      CastGestureHandler.onPanMove M h m1 t1 = some (h, out1) ∧
      CastGestureHandler.onPanMove M h m2 t2 = some (h, out2) ∧
      out1.filterMap CastEffect.percent = [p1] ∧
      out2.filterMap CastEffect.percent = [p2] ∧
      p1 = min 1 (max ((t1 - h.chargeStartTime) / 1500) (getDistance M c m1.position / 300)) ∧
      p2 = min 1 (max ((t2 - h.chargeStartTime) / 1500) (getDistance M c m2.position / 300)) ∧
      p1 ≤ p2 := by
  refine ⟨_, _, _, _, CastGestureHandler.onPanMove_of_charging M h m1 t1 c hch hc,
    CastGestureHandler.onPanMove_of_charging M h m2 t2 c hch hc, ?_, ?_, rfl, rfl, ?_⟩
  · simp [List.filterMap_cons, CastEffect.percent, percent_milestoneHaptics]
    rfl
  · simp [List.filterMap_cons, CastEffect.percent, percent_milestoneHaptics]
    rfl
  · exact chargePercent_mono _ _ _ _ (by linarith) hpull

/-! ## Cast on release -/

theorem CastGestureHandler.countP_isCast_performCast {α : Type} [LinearOrderedField α]
    (h : CastGestureHandler α) (data : CastInput α) (now : α) :
    (CastGestureHandler.performCast h data now).2.countP CastEffect.isCast = 1 ∧
    (CastGestureHandler.performCast h data now).1.isCharging = false ∧
    (CastGestureHandler.performCast h data now).1.chargeStartPosition = h.chargeStartPosition ∧
    (CastGestureHandler.performCast h data now).1.chargeStartTime = h.chargeStartTime := by
  unfold CastGestureHandler.performCast
  cases h.hasOnCast <;> simp [List.countP_cons, CastEffect.isCast]

theorem CastGestureHandler.onTouchEnd_of_charging {α : Type} [LinearOrderedField α]
    (M : JSMath α) (h : CastGestureHandler α) (c p : Point α) (now : α)
    (hch : h.isCharging = true) (hc : h.chargeStartPosition = some c) :
    ∃ h1 out, CastGestureHandler.onTouchEnd M h (some p) now = some (h1, out) ∧
      h1.isCharging = false ∧
      (out.countP CastEffect.isCast = 1 ↔
        (getDistance M c p > 50 ∨ now - h.chargeStartTime > 450)) ∧
      (¬(getDistance M c p > 50 ∨ now - h.chargeStartTime > 450) →
        out = [CastEffect.chargeEnd true none]) := by
  have h50 : (CastGestureHandler.minSwipeDistance : α) * 0.5 = 50 := by
    norm_num [CastGestureHandler.minSwipeDistance]
  have h450 : (CastGestureHandler.maxChargeTime : α) * 0.3 = 450 := by
    norm_num [CastGestureHandler.maxChargeTime]
  unfold CastGestureHandler.onTouchEnd
  simp only [hch, hc, Bool.not_true, Bool.false_eq_true, if_false, h50, h450]
  refine ⟨_, _, rfl, rfl, ?_, ?_⟩
  · by_cases hcond : getDistance M c p > 50 ∨ now - h.chargeStartTime > 450
    · simp only [hcond, if_true, iff_true]
      exact (CastGestureHandler.countP_isCast_performCast h _ now).1
    · simp [hcond, List.countP_cons, CastEffect.isCast]
  · intro hcond
    simp only [hcond, if_false]

theorem CastGestureHandler.onTouchEnd_of_not_charging {α : Type} [LinearOrderedField α]
    (M : JSMath α) (h : CastGestureHandler α) (p : Option (Point α)) (now : α)
    (hch : h.isCharging = false) :
    CastGestureHandler.onTouchEnd M h p now = some (h, []) := by
  simp [CastGestureHandler.onTouchEnd, hch]

theorem CastGestureHandler.onEvent_quiet {α : Type} [LinearOrderedField α]
    (M : JSMath α) (h : CastGestureHandler α) (now : α) (p : Point α) (d : α)
    (data : SwipeData α) :
    CastGestureHandler.onEvent M h now (GestureEvent.tap p) = some (h, []) ∧
    CastGestureHandler.onEvent M h now (GestureEvent.doubleTap p) = some (h, []) ∧
    CastGestureHandler.onEvent M h now (GestureEvent.swipe data) = some (h, []) ∧
    CastGestureHandler.onEvent M h now (GestureEvent.panEnd p d) = some (h, []) :=
  ⟨rfl, rfl, rfl, rfl⟩

theorem CastGestureHandler.onEvent_directionalSwipe {α : Type} [LinearOrderedField α]
    (M : JSMath α) (h : CastGestureHandler α) (now : α) (d : Direction) (data : SwipeData α) :
    CastGestureHandler.onEvent M h now (directionalSwipe d data) =
      if d = Direction.up then some (CastGestureHandler.onSwipeUp h data now)
      else some (h, []) := by
  cases d <;> simp [directionalSwipe, CastGestureHandler.onEvent]

theorem CastGestureHandler.deliver_append {α : Type} [LinearOrderedField α] (M : JSMath α)
    (now : α) (l1 l2 : List (Effect α)) (h h1 h2 : CastGestureHandler α)
    (o1 o2 : List (CastEffect α))
    (e1 : CastGestureHandler.deliver M now h l1 = some (h1, o1))
    (e2 : CastGestureHandler.deliver M now h1 l2 = some (h2, o2)) :
    CastGestureHandler.deliver M now h (l1 ++ l2) = some (h2, o1 ++ o2) := by
  induction l1 generalizing h o1 with
  | nil =>
    simp only [CastGestureHandler.deliver, Option.some.injEq, Prod.mk.injEq] at e1
    obtain ⟨rfl, rfl⟩ := e1
    simpa using e2
  | cons x rest ih =>
    cases x with
    | emit e =>
      simp only [CastGestureHandler.deliver] at e1
      cases hd : CastGestureHandler.onEvent M h now e with
      | none => simp [hd] at e1
      | some res =>
        obtain ⟨ha, oa⟩ := res
        simp only [hd] at e1
        cases hr : CastGestureHandler.deliver M now ha rest with
        | none => simp [hr] at e1
        | some res2 =>
          obtain ⟨hb, ob⟩ := res2
          simp only [hr, Option.some.injEq, Prod.mk.injEq] at e1
          obtain ⟨rfl, rfl⟩ := e1
          have := ih ha ob hr
          simp [CastGestureHandler.deliver, hd, this]
    | haptic k =>
      simp only [CastGestureHandler.deliver] at e1
      simpa [CastGestureHandler.deliver] using ih h o1 e1
    | preventDefault =>
      simp only [CastGestureHandler.deliver] at e1
      simpa [CastGestureHandler.deliver] using ih h o1 e1

theorem CastGestureHandler.deliver_release_tail {α : Type} [LinearOrderedField α]
    (M : JSMath α) (now : α) (h h1 : CastGestureHandler α) (out : List (CastEffect α))
    (last : Point α) (d : α)
    (he : CastGestureHandler.onTouchEnd M h (some last) now = some (h1, out)) :
    CastGestureHandler.deliver M now h
      [Effect.emit (GestureEvent.touchEnd (some last) (some d) false),
       Effect.emit (GestureEvent.panEnd last d)] = some (h1, out) := by
  simp [CastGestureHandler.deliver, CastGestureHandler.onEvent, he]

/-- C9: when `touchEnd` reaches a handler that is still charging (from `touchend` or from
`touchcancel`), it casts exactly once iff `pullDistance > 50` or `chargeTime > 450`;
otherwise it casts nothing and emits `chargeEnd` with `cancelled = true`; `isCharging` is
false afterwards.  `touchcancel` delivers such a `touchEnd` with the last position.  A
`touchend` the recognizer classifies as `swipeUp` casts exactly once. -/
theorem cast_on_touchEnd {α : Type} [LinearOrderedField α] (M : JSMath α)
    (h : CastGestureHandler α) (c : Point α) (now : α)
    (hch : h.isCharging = true) (hc : h.chargeStartPosition = some c) :
    (∀ (p : Point α) (duration : Option α) (cancelled : Bool),
      ∃ h1 out,
        CastGestureHandler.onEvent M h now (GestureEvent.touchEnd (some p) duration cancelled) =
          some (h1, out) ∧
        h1.isCharging = false ∧
        (out.countP CastEffect.isCast = 1 ↔
          (getDistance M c p > 50 ∨ now - h.chargeStartTime > 450)) ∧
        (¬(getDistance M c p > 50 ∨ now - h.chargeStartTime > 450) →
          out.countP CastEffect.isCast = 0 ∧ out = [CastEffect.chargeEnd true none])) ∧
    (CastGestureHandler.dispatch M h now Input.touchcancel =
      CastGestureHandler.onEvent M
        { h with gestureRecognizer := (handleTouchCancel h.gestureRecognizer).1 } now
        (GestureEvent.touchEnd h.gestureRecognizer.state.lastPosition none true)) ∧
    (∀ start last : Point α,
      h.gestureRecognizer.state.isTracking = true →
      h.gestureRecognizer.state.startPosition = some start →
      h.gestureRecognizer.state.lastPosition = some last →
      ∃ h1 out,
        CastGestureHandler.dispatch M h now Input.touchend = some (h1, out) ∧
        h1.isCharging = false ∧
        ((∃ e ∈ (classifyRelease M h.gestureRecognizer now start last).2,
            e.emits EventName.swipeUp = true) →
          out.countP CastEffect.isCast = 1) ∧
        ((∀ e ∈ (classifyRelease M h.gestureRecognizer now start last).2,
            e.emits EventName.swipeUp = false) →
          (out.countP CastEffect.isCast = 1 ↔
            (getDistance M c last > 50 ∨ now - h.chargeStartTime > 450)) ∧
          (¬(getDistance M c last > 50 ∨ now - h.chargeStartTime > 450) →
            out.countP CastEffect.isCast = 0 ∧ out = [CastEffect.chargeEnd true none]))) := by
  refine ⟨?_, ?_, ?_⟩
  · intro p duration cancelled
    obtain ⟨h1, out, he, hi, hiff, hno⟩ :=
      CastGestureHandler.onTouchEnd_of_charging M h c p now hch hc
    refine ⟨h1, out, he, hi, hiff, fun hn => ⟨?_, hno hn⟩⟩
    rw [hno hn]; rfl
  · simp [CastGestureHandler.dispatch, handle, handleTouchCancel, CastGestureHandler.deliver]
    cases CastGestureHandler.onEvent M _ now
      (GestureEvent.touchEnd h.gestureRecognizer.state.lastPosition none true) with
    | none => rfl
    | some res => simp
  · intro start last htr hs hl
    have hend := handleTouchEnd_of_tracking M h.gestureRecognizer now start last htr hs hl
    simp only [CastGestureHandler.dispatch, handle, hend]
    set r1 : GestureRecognizer α :=
      { clearTimeout h.gestureRecognizer h.gestureRecognizer.state.longPressTimer with
        state := { (classifyRelease M h.gestureRecognizer now start last).1 with
          isTracking := false } } with hr1
    set h0 : CastGestureHandler α := { h with gestureRecognizer := r1 } with hh0
    have hch0 : h0.isCharging = true := hch
    have hc0 : h0.chargeStartPosition = some c := hc
    have ht0 : h0.chargeStartTime = h.chargeStartTime := rfl
    obtain ⟨h1, out, he, hi, hiff, hno⟩ :=
      CastGestureHandler.onTouchEnd_of_charging M h0 c last now hch0 hc0
    rw [ht0] at hiff hno
    have htail := CastGestureHandler.deliver_release_tail M now h0 h1 out last
      (now - h.gestureRecognizer.state.startTime) he
    have hquiet : ∀ pre : List (Effect α),
        CastGestureHandler.deliver M now h0 pre = some (h0, []) →
        (classifyRelease M h.gestureRecognizer now start last).2 = pre →
        (∀ e ∈ pre, e.emits EventName.swipeUp = false) →
        ∃ h1 out,
          CastGestureHandler.deliver M now h0
            ((classifyRelease M h.gestureRecognizer now start last).2 ++
              [Effect.emit (GestureEvent.touchEnd (some last)
                (some (now - h.gestureRecognizer.state.startTime)) false),
               Effect.emit (GestureEvent.panEnd last
                (now - h.gestureRecognizer.state.startTime))]) = some (h1, out) ∧
          h1.isCharging = false ∧
          ((∃ e ∈ (classifyRelease M h.gestureRecognizer now start last).2,
              e.emits EventName.swipeUp = true) →
            out.countP CastEffect.isCast = 1) ∧
          ((∀ e ∈ (classifyRelease M h.gestureRecognizer now start last).2,
              e.emits EventName.swipeUp = false) →
            (out.countP CastEffect.isCast = 1 ↔
              (getDistance M c last > 50 ∨ now - h.chargeStartTime > 450)) ∧
            (¬(getDistance M c last > 50 ∨ now - h.chargeStartTime > 450) →
              out.countP CastEffect.isCast = 0 ∧ out = [CastEffect.chargeEnd true none])) := by
      intro pre hpre hcls hnone
      rw [hcls]
      refine ⟨h1, [] ++ out, CastGestureHandler.deliver_append M now _ _ h0 h0 h1 [] out
        hpre htail, hi, ?_, ?_⟩
      · rintro ⟨e, he1, he2⟩
        rw [hnone e he1] at he2
        exact absurd he2 (by decide)
      · intro _
        refine ⟨by simpa using hiff, fun hn => ?_⟩
        have := hno hn
        simp [this, CastEffect.isCast]
    rcases classifyRelease_cases M h.gestureRecognizer now start last with
      ⟨-, -, hcl⟩ | ⟨-, -, hcl⟩ | ⟨-, -, data, -, -, -, -, hcl⟩ | ⟨-, -, hcl⟩
    · refine hquiet _ ?_ (by rw [hcl]) ?_
      · simp [CastGestureHandler.deliver, CastGestureHandler.onEvent]
      · simp
    · refine hquiet _ ?_ (by rw [hcl]) ?_
      · simp [CastGestureHandler.deliver, CastGestureHandler.onEvent]
      · simp
    · by_cases hup : data.direction = Direction.up
      · obtain ⟨hc1, hc2, -, -⟩ := CastGestureHandler.countP_isCast_performCast h0
          { distance := data.distance, velocity := data.velocity, angle := some data.angle } now
        have hpre : CastGestureHandler.deliver M now h0
            (classifyRelease M h.gestureRecognizer now start last).2 =
            some (CastGestureHandler.performCast h0
              { distance := data.distance, velocity := data.velocity,
                angle := some data.angle } now) := by
          rw [hcl]
          simp [CastGestureHandler.deliver, (CastGestureHandler.onEvent_quiet M h0 now start 0 data).2.2.1,
            CastGestureHandler.onEvent_directionalSwipe, hup, CastGestureHandler.onSwipeUp, hch0, hch]
        have htail2 := CastGestureHandler.deliver_release_tail M now _ _ _ last
          (now - h.gestureRecognizer.state.startTime)
          (CastGestureHandler.onTouchEnd_of_not_charging M _ (some last) now hc2)
        refine ⟨_, _, CastGestureHandler.deliver_append M now _ _ h0 _ _ _ _ hpre htail2,
          hc2, ?_, ?_⟩
        · intro _
          simpa using hc1
        · intro hnone
          exfalso
          have := hnone (Effect.emit (directionalSwipe data.direction data)) (by rw [hcl]; simp)
          rw [hup] at this
          simp [swipeEventName] at this
      · refine hquiet _ ?_ (by rw [hcl]) ?_
        · simp [CastGestureHandler.deliver, (CastGestureHandler.onEvent_quiet M h0 now start 0 data).2.2.1,
            CastGestureHandler.onEvent_directionalSwipe, hup]
        · intro e he
          simp only [List.mem_cons, List.mem_singleton, List.not_mem_nil, or_false] at he
          rcases he with rfl | rfl | rfl
          · simp
          · cases hdd : data.direction <;> simp_all [swipeEventName]
          · simp
    · refine hquiet _ ?_ (by rw [hcl]) ?_
      · simp [CastGestureHandler.deliver]
      · simp

/-! ## Reel rotation -/

theorem wrapAngleDelta_spec {α : Type} [LinearOrderedField α] [FloorRing α] (raw : α)
    (hlo : -360 < raw) (hhi : raw < 360) :
    (∃ k : ℤ, ReelGestureHandler.wrapAngleDelta raw = raw + 360 * (k : α)) ∧
    |ReelGestureHandler.wrapAngleDelta raw| ≤ 180 ∧
    (|ReelGestureHandler.wrapAngleDelta raw| = 180 ↔ |raw| = 180) := by
  unfold ReelGestureHandler.wrapAngleDelta
  by_cases h1 : raw > 180
  · have h2 : ¬ (raw - 360 < -180) := by linarith
    simp only [h1, if_true, h2, if_false]
    refine ⟨⟨-1, by push_cast; ring⟩, ?_, ?_⟩
    · rw [abs_le]; constructor <;> linarith
    · have ha : |raw - 360| = 360 - raw := by
        rw [abs_of_neg (by linarith)]; ring
      have hb : |raw| = raw := abs_of_pos (by linarith)
      rw [ha, hb]
      constructor <;> intro h <;> linarith
  · by_cases h2 : raw < -180
    · simp only [h1, if_false, h2, if_true]
      refine ⟨⟨1, by push_cast; ring⟩, ?_, ?_⟩
      · rw [abs_le]; constructor <;> linarith
      · have ha : |raw + 360| = raw + 360 := abs_of_pos (by linarith)
        have hb : |raw| = -raw := abs_of_neg (by linarith)
        rw [ha, hb]
        constructor <;> intro h <;> linarith
    · simp only [h1, if_false, h2]
      refine ⟨⟨0, by simp⟩, ?_, trivial⟩
      rw [abs_le]; constructor <;> linarith

/-- C6 (amended): for consecutive raw dial angles `a_prev = lastAngle` and `a_cur` in
`(-180, 180]`, the `panMove` callback adds to `totalRotation` an `angleDelta` that is
congruent to `a_cur - a_prev` modulo 360 and has absolute value at most 180, with equality
exactly when the raw angles differ by exactly 180 degrees. -/
theorem reel_angleDelta_wrapped {α : Type} [LinearOrderedField α] [FloorRing α] (M : JSMath α)
    (h : ReelGestureHandler α) (center : Point α) (data : MoveData α) (now : α)
    (hre : h.isReeling = true) (hc : h.centerPoint = some center)
    (hprev : -180 < h.lastAngle ∧ h.lastAngle ≤ 180)
    (hcur : -180 < getAngle M center data.position ∧ getAngle M center data.position ≤ 180) :
    ∃ h1 out, ReelGestureHandler.onPanMove M h data now = some (h1, out) ∧
      h1.lastAngle = getAngle M center data.position ∧
      (∃ k : ℤ, h1.totalRotation - h.totalRotation =
        (getAngle M center data.position - h.lastAngle) + 360 * (k : α)) ∧
      |h1.totalRotation - h.totalRotation| ≤ 180 ∧
      (|h1.totalRotation - h.totalRotation| = 180 ↔
        |getAngle M center data.position - h.lastAngle| = 180) := by
  unfold ReelGestureHandler.onPanMove
  simp only [hre, hc, Bool.not_true, Bool.false_eq_true, if_false]
  refine ⟨_, _, rfl, rfl, ?_⟩
  simp only [add_sub_cancel_left]
  exact wrapAngleDelta_spec _ (by linarith [hprev.2, hcur.1]) (by linarith [hprev.1, hcur.2])

/-! ## Tension slider -/

theorem TensionSliderHandler.call_spec {α : Type} [LinearOrderedField α]
    (h : TensionSliderHandler α) (c : TensionSliderHandler.Call α)
    (hle : h.options.minValue ≤ h.options.maxValue)
    (hin : h.options.minValue ≤ h.currentValue ∧ h.currentValue ≤ h.options.maxValue) :
    (TensionSliderHandler.call h c).options = h.options ∧
    h.options.minValue ≤ (TensionSliderHandler.call h c).currentValue ∧
    (TensionSliderHandler.call h c).currentValue ≤ h.options.maxValue := by
  cases c with
  | panMove data =>
    refine ⟨rfl, le_max_left _ _, max_le hle (min_le_left _ _)⟩
  | touchEnd => exact ⟨rfl, hin.1, hin.2⟩
  | setValue v =>
    refine ⟨rfl, le_max_left _ _, max_le hle (min_le_left _ _)⟩

/-- C7: for a slider with `minValue ≤ initialValue ≤ maxValue`, the value is in
`[minValue, maxValue]` after every sequence of moves, releases and `setValue` calls; every
`panMove` with vertical delta `dy` sets the value to
`max(minValue, min(maxValue, value + (-dy · sensitivity) · 0.5))` and fires the
`tensionWarning` haptic iff the new value is `≥ 0.9 · maxValue`.  With default options a move
of `dy = -40` takes 50 to 70 without warning and a second one takes it to 90 with a
warning. -/
theorem tension_value_clamped {α : Type} [LinearOrderedField α] (o : TensionOptions α)
    (hmin : o.minValue ≤ o.initialValue) (hmax : o.initialValue ≤ o.maxValue) :
    (∀ l : List (TensionSliderHandler.Call α),
      (TensionSliderHandler.calls (TensionSliderHandler.create o) l).options = o ∧
      o.minValue ≤ (TensionSliderHandler.calls (TensionSliderHandler.create o) l).currentValue ∧
      (TensionSliderHandler.calls (TensionSliderHandler.create o) l).currentValue ≤
        o.maxValue) ∧
    (∀ (h : TensionSliderHandler α) (data : MoveData α), h.options = o →
      (TensionSliderHandler.onPanMove h data).1.currentValue =
        max o.minValue (min o.maxValue
          (h.currentValue + (-data.delta.y * o.sensitivity) * 0.5)) ∧
      o.minValue ≤ (TensionSliderHandler.onPanMove h data).1.currentValue ∧
      (TensionSliderHandler.onPanMove h data).1.currentValue ≤ o.maxValue ∧
      (TensionEffect.haptic Haptic.tensionWarning ∈ (TensionSliderHandler.onPanMove h data).2 ↔
        (TensionSliderHandler.onPanMove h data).1.currentValue ≥ 0.9 * o.maxValue)) ∧
    (∀ (h : TensionSliderHandler α) (v : α), h.options = o →
      (TensionSliderHandler.setValue h v).currentValue = max o.minValue (min o.maxValue v) ∧
      o.minValue ≤ (TensionSliderHandler.setValue h v).currentValue ∧
      (TensionSliderHandler.setValue h v).currentValue ≤ o.maxValue) ∧
    (∀ m : MoveData α, m.delta.y = -40 →
      (TensionSliderHandler.onPanMove
        (TensionSliderHandler.create TensionSliderHandler.defaultOptions) m).1.currentValue = 70 ∧
      TensionEffect.haptic Haptic.tensionWarning ∉
        (TensionSliderHandler.onPanMove
          (TensionSliderHandler.create TensionSliderHandler.defaultOptions) m).2 ∧
      (TensionSliderHandler.onPanMove
        (TensionSliderHandler.onPanMove
          (TensionSliderHandler.create TensionSliderHandler.defaultOptions) m).1
        m).1.currentValue = 90 ∧
      TensionEffect.haptic Haptic.tensionWarning ∈
        (TensionSliderHandler.onPanMove
          (TensionSliderHandler.onPanMove
            (TensionSliderHandler.create TensionSliderHandler.defaultOptions) m).1 m).2) := by
  have hle : o.minValue ≤ o.maxValue := le_trans hmin hmax
  refine ⟨?_, ?_, ?_, ?_⟩
  · intro l
    have key : ∀ (l : List (TensionSliderHandler.Call α)) (h : TensionSliderHandler α),
        h.options = o → o.minValue ≤ h.currentValue → h.currentValue ≤ o.maxValue →
        (TensionSliderHandler.calls h l).options = o ∧
        o.minValue ≤ (TensionSliderHandler.calls h l).currentValue ∧
        (TensionSliderHandler.calls h l).currentValue ≤ o.maxValue := by
      intro l
      induction l with
      | nil => intro h ho h1 h2; exact ⟨ho, h1, h2⟩
      | cons c rest ih =>
        intro h ho h1 h2
        obtain ⟨a1, a2, a3⟩ := TensionSliderHandler.call_spec h c (by rw [ho]; exact hle)
          (by rw [ho]; exact ⟨h1, h2⟩)
        rw [ho] at a1 a2 a3
        exact ih (TensionSliderHandler.call h c) a1 a2 a3
    exact key l _ rfl hmin hmax
  · intro h data ho
    subst ho
    refine ⟨rfl, le_max_left _ _, max_le hle (min_le_left _ _), ?_⟩
    rw [mul_comm (0.9 : α) h.options.maxValue]
    unfold TensionSliderHandler.onPanMove
    simp only
    split_ifs with hw
    · simp only [List.singleton_append, List.mem_cons, true_or, true_iff]
      exact hw
    · simp only [List.nil_append, List.mem_singleton, false_iff, reduceCtorEq, false_iff]
      exact hw
  · intro h v ho
    subst ho
    exact ⟨rfl, le_max_left _ _, max_le hle (min_le_left _ _)⟩
  · intro m hm
    simp only [TensionSliderHandler.onPanMove, TensionSliderHandler.create,
      TensionSliderHandler.defaultOptions, hm]
    norm_num
    exact fun h => TensionEffect.noConfusion h

/-! ## Facts about the real-number `Math` -/

theorem realMath_polar (dx dy : ℝ) :
    0 ≤ realMath.sqrt (dx * dx + dy * dy) ∧
    realMath.sqrt (dx * dx + dy * dy) * realMath.sqrt (dx * dx + dy * dy) = dx * dx + dy * dy ∧
    realMath.cos (realMath.atan2 dy dx) * realMath.sqrt (dx * dx + dy * dy) = dx ∧
    realMath.sin (realMath.atan2 dy dx) * realMath.sqrt (dx * dx + dy * dy) = dy ∧
    realMath.cos (realMath.atan2 dy dx) ^ 2 + realMath.sin (realMath.atan2 dy dx) ^ 2 = 1 := by
  have hnn : 0 ≤ dx * dx + dy * dy := add_nonneg (mul_self_nonneg dx) (mul_self_nonneg dy)
  have habs : Complex.abs ⟨dx, dy⟩ = Real.sqrt (dx * dx + dy * dy) := by
    rw [Complex.abs_apply, Complex.normSq_apply]
  refine ⟨Real.sqrt_nonneg _, Real.mul_self_sqrt hnn, ?_, ?_, Real.cos_sq_add_sin_sq _⟩
  · show Real.cos (Complex.arg ⟨dx, dy⟩) * Real.sqrt (dx * dx + dy * dy) = dx
    by_cases hz : (⟨dx, dy⟩ : ℂ) = 0
    · have hx : dx = 0 := by simpa using congrArg Complex.re hz
      have hy : dy = 0 := by simpa using congrArg Complex.im hz
      subst hx hy
      simp
    · rw [Complex.cos_arg hz, habs]
      have hpos : Real.sqrt (dx * dx + dy * dy) ≠ 0 := by
        rw [← habs]; exact (map_ne_zero Complex.abs).mpr hz
      field_simp
  · show Real.sin (Complex.arg ⟨dx, dy⟩) * Real.sqrt (dx * dx + dy * dy) = dy
    by_cases hz : (⟨dx, dy⟩ : ℂ) = 0
    · have hx : dx = 0 := by simpa using congrArg Complex.re hz
      have hy : dy = 0 := by simpa using congrArg Complex.im hz
      subst hx hy
      simp
    · rw [Complex.sin_arg, habs]
      have hpos : Real.sqrt (dx * dx + dy * dy) ≠ 0 := by
        rw [← habs]; exact (map_ne_zero Complex.abs).mpr hz
      field_simp

theorem realMath_sqrt_zero : realMath.sqrt 0 = 0 := Real.sqrt_zero

theorem getAngle_realMath_range (p q : Point ℝ) :
    -180 < getAngle realMath p q ∧ getAngle realMath p q ≤ 180 := by
  have h1 := Complex.neg_pi_lt_arg ⟨q.x - p.x, q.y - p.y⟩
  have h2 := Complex.arg_le_pi ⟨q.x - p.x, q.y - p.y⟩
  have hpi := Real.pi_pos
  show -180 < Complex.arg ⟨q.x - p.x, q.y - p.y⟩ * 180 / Real.pi ∧
    Complex.arg ⟨q.x - p.x, q.y - p.y⟩ * 180 / Real.pi ≤ 180
  constructor
  · rw [lt_div_iff₀ hpi]; nlinarith
  · rw [div_le_iff₀ hpi]; nlinarith

theorem getAngle_realMath_east (p q : Point ℝ) (hy : q.y - p.y = 0) (hx : 0 < q.x - p.x) :
    getAngle realMath p q = 0 := by
  show Complex.arg ⟨q.x - p.x, q.y - p.y⟩ * 180 / Real.pi = 0
  rw [hy]
  have : (⟨q.x - p.x, 0⟩ : ℂ) = ((q.x - p.x : ℝ) : ℂ) := rfl
  rw [this, Complex.arg_ofReal_of_nonneg hx.le]
  simp

theorem getAngle_realMath_west (p q : Point ℝ) (hy : q.y - p.y = 0) (hx : q.x - p.x < 0) :
    getAngle realMath p q = 180 := by
  show Complex.arg ⟨q.x - p.x, q.y - p.y⟩ * 180 / Real.pi = 180
  rw [hy]
  have : (⟨q.x - p.x, 0⟩ : ℂ) = ((q.x - p.x : ℝ) : ℂ) := rfl
  rw [this, Complex.arg_ofReal_of_neg hx]
  field_simp

/-! ## Joystick -/

/-- C8: over the reals, with `maxDistance > 0`, for a cumulative drag `(dx, dy)` of length
`r = sqrt(dx² + dy²)` the joystick position has length `c = min(r, maxDistance)` and is
`(c / r)·(dx, dy)` (stated as `r·position = c·(dx, dy)`; the zero vector when `r = 0`);
`normalized` is exactly `(0, 0)` when `c < deadzone` and `position / maxDistance` otherwise,
of length at most 1; after `touchEnd` both are exactly `(0, 0)`. -/
theorem joystick_position_clamped (h : JoystickHandler ℝ) (data : MoveData ℝ)
    (hact : h.isActive = true) (hmax : 0 < h.options.maxDistance) :
    (JoystickHandler.onPanMove realMath h data).1.position.x ^ 2 +
        (JoystickHandler.onPanMove realMath h data).1.position.y ^ 2 =
      (min (Real.sqrt (data.totalDelta.x * data.totalDelta.x +
        data.totalDelta.y * data.totalDelta.y)) h.options.maxDistance) ^ 2 ∧
    0 ≤ min (Real.sqrt (data.totalDelta.x * data.totalDelta.x +
        data.totalDelta.y * data.totalDelta.y)) h.options.maxDistance ∧
    Real.sqrt (data.totalDelta.x * data.totalDelta.x + data.totalDelta.y * data.totalDelta.y) *
        (JoystickHandler.onPanMove realMath h data).1.position.x =
      min (Real.sqrt (data.totalDelta.x * data.totalDelta.x +
        data.totalDelta.y * data.totalDelta.y)) h.options.maxDistance * data.totalDelta.x ∧
    Real.sqrt (data.totalDelta.x * data.totalDelta.x + data.totalDelta.y * data.totalDelta.y) *
        (JoystickHandler.onPanMove realMath h data).1.position.y =
      min (Real.sqrt (data.totalDelta.x * data.totalDelta.x +
        data.totalDelta.y * data.totalDelta.y)) h.options.maxDistance * data.totalDelta.y ∧
    (Real.sqrt (data.totalDelta.x * data.totalDelta.x +
        data.totalDelta.y * data.totalDelta.y) = 0 →
      (JoystickHandler.onPanMove realMath h data).1.position = { x := 0, y := 0 }) ∧
    (min (Real.sqrt (data.totalDelta.x * data.totalDelta.x +
        data.totalDelta.y * data.totalDelta.y)) h.options.maxDistance < h.options.deadzone →
      (JoystickHandler.onPanMove realMath h data).1.normalizedPosition = { x := 0, y := 0 }) ∧
    (¬ min (Real.sqrt (data.totalDelta.x * data.totalDelta.x +
        data.totalDelta.y * data.totalDelta.y)) h.options.maxDistance < h.options.deadzone →
      (JoystickHandler.onPanMove realMath h data).1.normalizedPosition =
        { x := (JoystickHandler.onPanMove realMath h data).1.position.x / h.options.maxDistance
          y := (JoystickHandler.onPanMove realMath h data).1.position.y /
            h.options.maxDistance }) ∧
    (JoystickHandler.onPanMove realMath h data).1.normalizedPosition.x ^ 2 +
        (JoystickHandler.onPanMove realMath h data).1.normalizedPosition.y ^ 2 ≤ 1 ∧
    (JoystickHandler.onTouchEnd (JoystickHandler.onPanMove realMath h data).1).1.position =
      { x := 0, y := 0 } ∧
    (JoystickHandler.onTouchEnd
      (JoystickHandler.onPanMove realMath h data).1).1.normalizedPosition =
      { x := 0, y := 0 } := by
  obtain ⟨hr0, hrr, hcos, hsin, hcs⟩ := realMath_polar data.totalDelta.x data.totalDelta.y
  have hsq : realMath.sqrt = Real.sqrt := rfl
  rw [hsq] at hr0 hrr hcos hsin
  set r := Real.sqrt (data.totalDelta.x * data.totalDelta.x +
    data.totalDelta.y * data.totalDelta.y) with hr
  set c := min r h.options.maxDistance with hcdef
  set θ := realMath.atan2 data.totalDelta.y data.totalDelta.x with hθ
  have hc0 : 0 ≤ c := le_min hr0 hmax.le
  have hcmax : c ≤ h.options.maxDistance := min_le_right _ _
  have hpos : (JoystickHandler.onPanMove realMath h data).1.position =
      { x := realMath.cos θ * c, y := realMath.sin θ * c } := by
    simp [JoystickHandler.onPanMove, hact, hsq, ← hr, ← hcdef, ← hθ]
  have hnorm : (JoystickHandler.onPanMove realMath h data).1.normalizedPosition =
      if c < h.options.deadzone then { x := 0, y := 0 }
      else { x := realMath.cos θ * c / h.options.maxDistance,
             y := realMath.sin θ * c / h.options.maxDistance } := by
    simp [JoystickHandler.onPanMove, hact, hsq, ← hr, ← hcdef, ← hθ]
  have hlen : (realMath.cos θ * c) ^ 2 + (realMath.sin θ * c) ^ 2 = c ^ 2 := by
    have : (realMath.cos θ * c) ^ 2 + (realMath.sin θ * c) ^ 2 =
        (realMath.cos θ ^ 2 + realMath.sin θ ^ 2) * c ^ 2 := by ring
    rw [this, hcs, one_mul]
  rw [hpos, hnorm]
  refine ⟨hlen, hc0, ?_, ?_, ?_, ?_, ?_, ?_, rfl, rfl⟩
  · show r * (realMath.cos θ * c) = c * data.totalDelta.x
    rw [← hcos]; ring
  · show r * (realMath.sin θ * c) = c * data.totalDelta.y
    rw [← hsin]; ring
  · intro hr0'
    have hczero : c = 0 := by
      rw [hcdef, hr0']; exact min_eq_left hmax.le
    simp [hczero]
  · intro hdz; rw [if_pos hdz]
  · intro hdz; rw [if_neg hdz]
  · split_ifs with hdz
    · norm_num
    · show (realMath.cos θ * c / h.options.maxDistance) ^ 2 +
        (realMath.sin θ * c / h.options.maxDistance) ^ 2 ≤ 1
      have : (realMath.cos θ * c / h.options.maxDistance) ^ 2 +
          (realMath.sin θ * c / h.options.maxDistance) ^ 2 =
          c ^ 2 / h.options.maxDistance ^ 2 := by
        rw [div_pow, div_pow, ← add_div, hlen]
      rw [this, div_le_one (by positivity)]
      exact pow_le_pow_left₀ hc0 hcmax 2

/-! ## Concrete runs -/

theorem getDistance_realMath_vertical (p q : Point ℝ) (hx : q.x - p.x = 0)
    (hy : q.y - p.y ≤ 0) : getDistance realMath p q = p.y - q.y := by
  show Real.sqrt ((q.x - p.x) * (q.x - p.x) + (q.y - p.y) * (q.y - p.y)) = p.y - q.y
  rw [hx, show (0 : ℝ) * 0 + (q.y - p.y) * (q.y - p.y) = (p.y - q.y) * (p.y - q.y) by ring]
  exact Real.sqrt_mul_self (by linarith)

/-- C2, at a concrete input: a finger put down at time 1000 and lifted at 1100 without moving,
default options. -/
theorem handleTouchEnd_classifies_witness :
    ∃ r1 out,
      handleTouchEnd realMath
        (handleTouchStart realMath (create defaultOptions) oneFinger 1000).1 1100 =
        some (r1, out) ∧
      ∃ e ∈ out, e.emits EventName.tap = true ∨ e.emits EventName.doubleTap = true := by
  obtain ⟨ho, -, -, htr, hst, hsp, hlp, -⟩ :=
    handleTouchStart_spec realMath (create defaultOptions) oneFinger 1000
  obtain ⟨r1, out, h, htap, -⟩ := handleTouchEnd_classifies realMath
    (handleTouchStart realMath (create defaultOptions) oneFinger 1000).1 1100
    (getTouchPosition oneFinger.first oneFinger.rect)
    (getTouchPosition oneFinger.first oneFinger.rect) htr hsp hlp
  refine ⟨r1, out, h, htap.mpr ⟨?_, ?_⟩⟩
  · rw [getDistance_self, realMath_sqrt_zero, ho]
    norm_num [create, defaultOptions]
  · rw [hst, ho]
    norm_num [create, defaultOptions]

/-- C3, at a concrete input: three motionless taps released at 1100, 1200 and 1220. -/
theorem doubleTap_resets_lastTapTime_witness :
    ∃ r out,
      run realMath (create defaultOptions)
        [(1000, Input.touchstart oneFinger), (1100, Input.touchend),
         (1150, Input.touchstart oneFinger), (1200, Input.touchend),
         (1210, Input.touchstart oneFinger), (1220, Input.touchend)] = some (r, out) ∧
      out.filter (fun x => x.emits EventName.tap || x.emits EventName.doubleTap) =
        [Effect.emit (GestureEvent.tap (getTouchPosition oneFinger.first oneFinger.rect)),
         Effect.emit (GestureEvent.doubleTap (getTouchPosition oneFinger.first oneFinger.rect)),
         Effect.emit (GestureEvent.tap (getTouchPosition oneFinger.first oneFinger.rect))] :=
  (doubleTap_resets_lastTapTime realMath).2.2.2 defaultOptions oneFinger oneFinger oneFinger
    1000 1100 1150 1200 1210 1220
    (by rw [realMath_sqrt_zero]; norm_num [defaultOptions])
    (by norm_num [defaultOptions]) (by norm_num [defaultOptions])
    (by norm_num [defaultOptions]) (by norm_num [defaultOptions])
    (by norm_num [defaultOptions]) (by norm_num [defaultOptions])
    (by norm_num [defaultOptions])

/-- C10, at a concrete input: a finger held still from 1000 to 1600. -/
theorem hold_emits_longPress_only_witness :
    ∃ r out,
      run realMath (create defaultOptions)
        [(1000, Input.touchstart oneFinger), (1000 + 600, Input.touchend)] = some (r, out) ∧
      out.countP (fun x => x.emits EventName.longPress) = 1 ∧
      (∀ x ∈ out, x.emits EventName.tap = false ∧ x.emits EventName.doubleTap = false ∧
        x.emits EventName.swipe = false) := by
  obtain ⟨r, out, h, h1, -, h3, -⟩ := hold_emits_longPress_only realMath oneFinger 1000 600
    realMath_sqrt_zero (by norm_num [defaultOptions]) (by norm_num [defaultOptions])
  exact ⟨r, out, h, h1, h3⟩

/-- C4, at a concrete input: a cast with zero distance, charge time and velocity has power
`0.2`. -/
theorem performCast_power_bounds_witness :
    CastGestureHandler.castPower (0 : ℚ) 0 0 = 0.2 :=
  (performCast_power_bounds (CastGestureHandler.create false : CastGestureHandler ℚ)
    { distance := 0, velocity := 0, angle := none } 0).2.2

/-- C5 fails as stated: from a charge started at the origin at time 1000, a `panMove` at time
1100 with the finger at `(0, -150)` reports percent `1/2`, and the next `panMove` at time
1110 with the finger back at `(0, 0)` reports percent `11/150`, which is smaller. -/
theorem chargeUpdate_percent_can_decrease :
    (1100 : ℝ) ≤ 1110 ∧
    (CastGestureHandler.onPanMove realMath (chargingCast 1000)
        (movedTo 0 (-150) 0 (-150)) 1100).map
      (fun res => (res.1.isCharging, res.2.filterMap CastEffect.percent)) =
        some (true, [1 / 2]) ∧
    (CastGestureHandler.onPanMove realMath (chargingCast 1000)
        (movedTo 0 0 0 150) 1110).map
      (fun res => (res.1.isCharging, res.2.filterMap CastEffect.percent)) =
        some (true, [11 / 150]) ∧
    ¬ ((1 / 2 : ℝ) ≤ 11 / 150) := by
  refine ⟨by norm_num, ?_, ?_, by norm_num⟩
  · rw [CastGestureHandler.onPanMove_of_charging realMath _ _ 1100 { x := 0, y := 0 } rfl rfl]
    simp only [Option.map_some', List.filterMap_cons, CastEffect.percent,
      percent_milestoneHaptics]
    rw [getDistance_realMath_vertical _ _ (by norm_num [movedTo]) (by norm_num [movedTo])]
    simp only [chargingCast, movedTo, CastGestureHandler.onTouchStart,
      CastGestureHandler.chargePercent, CastGestureHandler.maxChargeTime,
      CastGestureHandler.maxChargeDistance]
    norm_num
  · rw [CastGestureHandler.onPanMove_of_charging realMath _ _ 1110 { x := 0, y := 0 } rfl rfl]
    simp only [Option.map_some', List.filterMap_cons, CastEffect.percent,
      percent_milestoneHaptics]
    rw [getDistance_realMath_vertical _ _ (by norm_num [movedTo]) (by norm_num [movedTo])]
    simp only [chargingCast, movedTo, CastGestureHandler.onTouchStart,
      CastGestureHandler.chargePercent, CastGestureHandler.maxChargeTime,
      CastGestureHandler.maxChargeDistance]
    norm_num

/-- C5 (amended), at a concrete input: a charge started at time 1000 and two moves at times
1100 and 1200 with the finger at `(0, -150)`. -/
theorem chargeUpdate_percent_mono_witness :
    ∃ out1 out2 p1 p2,
      CastGestureHandler.onPanMove realMath (chargingCast 1000)
          (movedTo 0 (-150) 0 (-150)) 1100 = some (chargingCast 1000, out1) ∧
      CastGestureHandler.onPanMove realMath (chargingCast 1000)
          (movedTo 0 (-150) 0 0) 1200 = some (chargingCast 1000, out2) ∧
      out1.filterMap CastEffect.percent = [p1] ∧
      out2.filterMap CastEffect.percent = [p2] ∧ p1 ≤ p2 := by
  obtain ⟨out1, out2, p1, p2, h1, h2, h3, h4, -, -, h7⟩ :=
    chargeUpdate_percent_mono realMath (chargingCast 1000) { x := 0, y := 0 }
      (movedTo 0 (-150) 0 (-150)) (movedTo 0 (-150) 0 0) 1100 1200 rfl rfl (by norm_num)
      (le_refl _)
  exact ⟨out1, out2, p1, p2, h1, h2, h3, h4, h7⟩

/-- C6 fails as stated: on a 100 by 100 dial (centre `(50, 50)`) a touch starting at
`(51, 50)` leaves the handler reeling with raw angle 0; a move to `(49, 50)` has raw angle
180; the callback adds `angleDelta = 180` to `totalRotation`, taking it from 0 to 180, which
is not a change of absolute value below 180. -/
theorem reel_angleDelta_can_be_180 :
    (ReelGestureHandler.onTouchStart realMath (ReelGestureHandler.create false)
      { x := 51, y := 50 } { left := 0, top := 0, width := 100, height := 100 }).1 =
      { isReeling := true, lastAngle := 0, totalRotation := 0, reelSpeed := 0,
        lastReelTime := 0, centerPoint := some { x := 50, y := 50 }, hasOnReel := false,
        gestureRecognizer := create defaultOptions } ∧
    getAngle realMath { x := 50, y := 50 } { x := 51, y := 50 } = 0 ∧
    getAngle realMath { x := 50, y := 50 } { x := 49, y := 50 } = 180 ∧
    (ReelGestureHandler.onPanMove realMath
      { isReeling := true, lastAngle := 0, totalRotation := 0, reelSpeed := 0,
        lastReelTime := 0, centerPoint := some { x := 50, y := 50 }, hasOnReel := false,
        gestureRecognizer := create defaultOptions }
      { position := { x := 49, y := 50 }, delta := { x := -2, y := 0 },
        totalDelta := { x := -2, y := 0 } } 1010).map
      (fun res => res.1.totalRotation) = some 180 ∧
    ¬ (|(180 : ℝ) - 0| < 180) := by
  have hw := getAngle_realMath_west { x := 50, y := 50 } { x := 49, y := 50 }
    (by norm_num) (by norm_num)
  have he := getAngle_realMath_east { x := 50, y := 50 } { x := 51, y := 50 }
    (by norm_num) (by norm_num)
  refine ⟨?_, he, hw, ?_, by norm_num⟩
  · have h50 : (100 : ℝ) / 2 = 50 := by norm_num
    simp only [ReelGestureHandler.onTouchStart, ReelGestureHandler.create, h50, he]
  simp only [ReelGestureHandler.onPanMove, Bool.not_true, Bool.false_eq_true, if_false, hw,
    Option.map_some', ReelGestureHandler.wrapAngleDelta]
  norm_num

/-- C6 (amended), at a concrete input: the same dial, a move from raw angle 0 to raw angle
180. -/
theorem reel_angleDelta_wrapped_witness :
    ∃ h1 out,
      ReelGestureHandler.onPanMove realMath
        { isReeling := true, lastAngle := 0, totalRotation := 0, reelSpeed := 0,
          lastReelTime := 0, centerPoint := some { x := 50, y := 50 }, hasOnReel := false,
          gestureRecognizer := create defaultOptions }
        { position := { x := 49, y := 50 }, delta := { x := -2, y := 0 },
          totalDelta := { x := -2, y := 0 } } 1010 = some (h1, out) ∧
      |h1.totalRotation - 0| ≤ 180 := by
  obtain ⟨h1, out, h, -, -, hle, -⟩ := reel_angleDelta_wrapped realMath
    { isReeling := true, lastAngle := 0, totalRotation := 0, reelSpeed := 0,
      lastReelTime := 0, centerPoint := some { x := 50, y := 50 }, hasOnReel := false,
      gestureRecognizer := create defaultOptions }
    { x := 50, y := 50 }
    { position := { x := 49, y := 50 }, delta := { x := -2, y := 0 },
      totalDelta := { x := -2, y := 0 } } 1010 rfl rfl
    (by constructor <;> norm_num) (getAngle_realMath_range _ _)
  exact ⟨h1, out, h, hle⟩

/-- C7, at a concrete input: default options, a drag of 400px upward then `setValue(500)`. -/
theorem tension_value_clamped_witness :
    (0 : ℚ) ≤ 50 ∧ (50 : ℚ) ≤ 100 ∧
    (TensionSliderHandler.calls
      (TensionSliderHandler.create (TensionSliderHandler.defaultOptions : TensionOptions ℚ))
      [TensionSliderHandler.Call.panMove (movedTo 0 (-400) 0 (-400)),
       TensionSliderHandler.Call.setValue 500]).currentValue ≤ 100 :=
  ⟨by norm_num, by norm_num,
    ((tension_value_clamped (TensionSliderHandler.defaultOptions : TensionOptions ℚ)
      (by norm_num [TensionSliderHandler.defaultOptions])
      (by norm_num [TensionSliderHandler.defaultOptions])).1 _).2.2⟩

/-- C8, at a concrete input: default options, cumulative drag `(3, 4)`. -/
theorem joystick_position_clamped_witness :
    (JoystickHandler.onPanMove realMath
        (JoystickHandler.onTouchStart
          (JoystickHandler.create (JoystickHandler.defaultOptions : JoystickOptions ℝ))).1
        (movedTo 3 4 3 4)).1.normalizedPosition.x ^ 2 +
      (JoystickHandler.onPanMove realMath
        (JoystickHandler.onTouchStart
          (JoystickHandler.create (JoystickHandler.defaultOptions : JoystickOptions ℝ))).1
        (movedTo 3 4 3 4)).1.normalizedPosition.y ^ 2 ≤ 1 :=
  (joystick_position_clamped
    (JoystickHandler.onTouchStart
      (JoystickHandler.create (JoystickHandler.defaultOptions : JoystickOptions ℝ))).1
    (movedTo 3 4 3 4) rfl
    (by show (0 : ℝ) < 50; norm_num)).2.2.2.2.2.2.2.1

/-- C9, at a concrete input: a charge started at the origin at time 1000 and released there
at time 1500 casts once. -/
theorem cast_on_touchEnd_witness :
    ∃ h1 out,
      CastGestureHandler.onEvent realMath (chargingCast 1000) 1500
        (GestureEvent.touchEnd (some { x := 0, y := 0 }) none true) = some (h1, out) ∧
      h1.isCharging = false ∧ out.countP CastEffect.isCast = 1 := by
  obtain ⟨h1, out, h, hi, hiff, -⟩ :=
    (cast_on_touchEnd realMath (chargingCast 1000) { x := 0, y := 0 } 1500 rfl rfl).1
      { x := 0, y := 0 } none true
  refine ⟨h1, out, h, hi, hiff.mpr (Or.inr ?_)⟩
  show (1500 : ℝ) - 1000 > 450
  norm_num

/-! ## Stale long-press timers -/

theorem dispatch_of_not_due {α : Type} [LinearOrderedField α] (M : JSMath α)
    (r : GestureRecognizer α) (now : α) (i : Input α)
    (h : ∀ t ∈ r.pending, now < t.due) :
    dispatch M r now i = handle M r now i := by
  unfold dispatch
  rw [advance_of_not_due M r now h]
  cases hh : handle M r now i with
  | none => simp only [hh]
  | some res => simp only [hh, List.nil_append]

/-- Two fingers go down at `a1` and `a2`, the touch ends at `b`, a new touch starts at `a3`,
all before the first long-press timer is due; the clock then reaches `c`, past the due time
of the first timer and before that of the third. -/
theorem stale_timer_run {α : Type} [LinearOrderedField α] (M : JSMath α) (o : Options α)
    (e1 e2 e3 : TouchEvent α) (a1 a2 b a3 c : α)
    (h2 : a2 < a1 + o.longPressTimeout) (hb : b < a1 + o.longPressTimeout)
    (hb2 : b < a2 + o.longPressTimeout) (h3 : a3 < a1 + o.longPressTimeout)
    (hc : a1 + o.longPressTimeout ≤ c) (hc3 : c < a3 + o.longPressTimeout)
    (hsqrt : M.sqrt 0 < o.tapThreshold) :
    (∃ r3 out3,
      run M (create o)
        [(a1, Input.touchstart e1), (a2, Input.touchstart e2), (b, Input.touchend)] =
        some (r3, out3) ∧
      r3.state.isTracking = false ∧
      r3.pending = [{ id := 0, due := a1 + o.longPressTimeout }]) ∧
    (∃ r4 out4 r5,
      run M (create o)
        [(a1, Input.touchstart e1), (a2, Input.touchstart e2), (b, Input.touchend),
         (a3, Input.touchstart e3)] = some (r4, out4) ∧
      r4.state.isTracking = true ∧ r4.state.startTime = a3 ∧
      advance M r4 c =
        some (r5,
          [Effect.emit (GestureEvent.longPress (getTouchPosition e3.first e3.rect)
            (a1 + o.longPressTimeout - a3)),
           Effect.haptic Haptic.medium])) := by
  -- first touchstart
  obtain ⟨ho1, hp1, hn1, -, -, -, -, -, -, -⟩ := handleTouchStart_spec M (create o) e1 a1
  have hd1 : dispatch M (create o) a1 (Input.touchstart e1) =
      some (handleTouchStart M (create o) e1 a1) :=
    dispatch_of_not_due M _ _ _ (by intro t ht; simp [create] at ht)
  set r1 := (handleTouchStart M (create o) e1 a1).1 with hr1
  have hp1' : r1.pending = [{ id := 0, due := a1 + o.longPressTimeout }] := by
    rw [hp1]; rfl
  have hn1' : r1.nextTimerId = 1 := by rw [hn1]; rfl
  have ho1' : r1.options = o := ho1
  -- second touchstart
  obtain ⟨ho2, hp2, hn2, htr2, -, hsp2, hlp2, -, htm2, -⟩ := handleTouchStart_spec M r1 e2 a2
  have hd2 : dispatch M r1 a2 (Input.touchstart e2) = some (handleTouchStart M r1 e2 a2) :=
    dispatch_of_not_due M _ _ _ (by
      intro t ht
      rw [hp1'] at ht
      simp only [List.mem_singleton] at ht
      rw [ht]; exact h2)
  set r2 := (handleTouchStart M r1 e2 a2).1 with hr2
  rw [hp1', hn1', ho1'] at hp2
  rw [hn1'] at hn2 htm2
  rw [ho1'] at ho2
  -- touchend
  have hend := handleTouchEnd_of_tracking M r2 b _ _ htr2 hsp2 hlp2
  have hd3 : dispatch M r2 b Input.touchend = handleTouchEnd M r2 b :=
    dispatch_of_not_due M _ _ _ (by
      intro t ht
      rw [hp2] at ht
      simp only [List.singleton_append, List.mem_cons, List.mem_singleton, List.not_mem_nil,
        or_false] at ht
      rcases ht with rfl | rfl
      · exact hb
      · exact hb2)
  rw [hend] at hd3
  rw [htm2] at hd3
  set r3 : GestureRecognizer α :=
    { clearTimeout r2 (some 1) with
      state := { (classifyRelease M r2 b (getTouchPosition e2.first e2.rect)
        (getTouchPosition e2.first e2.rect)).1 with isTracking := false } } with hr3
  have hp3 : r3.pending = [{ id := 0, due := a1 + o.longPressTimeout }] := by
    simp [hr3, clearTimeout, hp2]
  have hn3 : r3.nextTimerId = 2 := by
    simp [hr3, clearTimeout, hn2]
  have ho3 : r3.options = o := by
    simp [hr3, clearTimeout, ho2]
  have hrun3 := run_cons M _ _ _ a1 (Input.touchstart e1) _ _ _ hd1
    (run_cons M _ _ _ a2 (Input.touchstart e2) _ _ _ hd2
      (run_cons M _ _ _ b Input.touchend [] _ _ hd3 rfl))
  refine ⟨⟨_, _, hrun3, rfl, hp3⟩, ?_⟩
  -- third touchstart
  obtain ⟨ho4, hp4, -, htr4, hst4, hsp4, hlp4, -, -, -⟩ := handleTouchStart_spec M r3 e3 a3
  have hd4 : dispatch M r3 a3 (Input.touchstart e3) = some (handleTouchStart M r3 e3 a3) :=
    dispatch_of_not_due M _ _ _ (by
      intro t ht
      rw [hp3] at ht
      simp only [List.mem_singleton] at ht
      rw [ht]; exact h3)
  set r4 := (handleTouchStart M r3 e3 a3).1 with hr4
  rw [hp3, hn3, ho3] at hp4
  rw [ho3] at ho4
  have hrun4 := run_cons M _ _ _ a1 (Input.touchstart e1) _ _ _ hd1
    (run_cons M _ _ _ a2 (Input.touchstart e2) _ _ _ hd2
      (run_cons M _ _ _ b Input.touchend _ _ _ hd3
        (run_cons M _ _ _ a3 (Input.touchstart e3) [] _ _ hd4 rfl)))
  have hcb := longPressCallback_of_tracking M
    { r4 with pending := [{ id := 2, due := a3 + o.longPressTimeout }] }
    (a1 + o.longPressTimeout) _ _ htr4 hsp4 hlp4
  rw [if_pos (by rw [getDistance_self]; show M.sqrt 0 < r4.options.tapThreshold
                 rw [ho4]; exact hsqrt)] at hcb
  refine ⟨r4, _, { r4 with pending := [{ id := 2, due := a3 + o.longPressTimeout }] },
    hrun4, htr4, hst4, ?_⟩
  have hnot : ¬ (a3 + o.longPressTimeout ≤ c) := not_le.mpr hc3
  simp only [advance, hp4, List.singleton_append, List.filter_cons, hc, hnot, decide_True,
    decide_False, if_true, List.filter_nil, fireAll, fireTimer, List.mem_cons, true_or,
    ne_eq, not_true_eq_false, Bool.false_eq_true, if_false]
  have h20 : decide (¬ (2 : Nat) = 0) = true := by decide
  simp only [h20, if_true, hcb, List.append_nil]
  rw [hst4]

/-- C11 fails on the code: default options, one finger down at 1000, a second finger down at
1100 (a second `touchstart`), `touchend` at 1200.  After that `touchend` the timer armed by
the first `touchstart` (handle 0, due at 1500) is still pending.  A new touch starts at 1400;
when the clock reaches 1500 the stale timer fires and `longPress` is emitted with duration
`1500 - 1400 = 100`, less than `longPressTimeout = 500`. -/
theorem stale_longPress_after_second_finger :
    (∃ r3 out3,
      run realMath (create defaultOptions)
        [(1000, Input.touchstart oneFinger), (1100, Input.touchstart twoFingers),
         (1200, Input.touchend)] = some (r3, out3) ∧
      r3.state.isTracking = false ∧
      r3.pending = [{ id := 0, due := 1000 + 500 }]) ∧
    (∃ r4 out4 r5,
      run realMath (create defaultOptions)
        [(1000, Input.touchstart oneFinger), (1100, Input.touchstart twoFingers),
         (1200, Input.touchend), (1400, Input.touchstart oneFinger)] = some (r4, out4) ∧
      r4.state.isTracking = true ∧ r4.state.startTime = 1400 ∧
      advance realMath r4 1500 =
        some (r5,
          [Effect.emit (GestureEvent.longPress (getTouchPosition oneFinger.first oneFinger.rect)
            (1000 + 500 - 1400)),
           Effect.haptic Haptic.medium])) ∧
    ((1000 : ℝ) + 500 - 1400 < 500) := by
  have h := stale_timer_run realMath defaultOptions oneFinger twoFingers oneFinger
    1000 1100 1200 1400 1500
    (by norm_num [defaultOptions]) (by norm_num [defaultOptions])
    (by norm_num [defaultOptions]) (by norm_num [defaultOptions])
    (by norm_num [defaultOptions]) (by norm_num [defaultOptions])
    (by rw [realMath_sqrt_zero]; norm_num [defaultOptions])
  exact ⟨h.1, h.2, by norm_num⟩

/-! ## A second `touchstart` -/

theorem handleTouchStart_baseline {α : Type} [LinearOrderedField α] (M : JSMath α)
    (r : GestureRecognizer α) (e : TouchEvent α) (now : α) :
    (handleTouchStart M r e now).1.state.touches =
      e.touches.map (fun t => getTouchPosition t e.rect) ∧
    (∀ t1, e.rest = [t1] →
      (handleTouchStart M r e now).1.state.initialPinchDistance =
        getDistance M (getTouchPosition e.first e.rect) (getTouchPosition t1 e.rect) ∧
      (handleTouchStart M r e now).1.state.initialRotation =
        getAngle M (getTouchPosition e.first e.rect) (getTouchPosition t1 e.rect)) ∧
    (e.rest.length ≠ 1 →
      (handleTouchStart M r e now).1.state.initialPinchDistance =
        r.state.initialPinchDistance ∧
      (handleTouchStart M r e now).1.state.initialRotation = r.state.initialRotation) := by
  unfold handleTouchStart setTimeout TouchEvent.touches
  refine ⟨?_, ?_, ?_⟩
  · dsimp only; split <;> rfl
  · intro t1 ht
    simp [ht]
  · intro hlen
    dsimp only
    split
    · rename_i t0 t1 heq
      simp only [List.cons.injEq] at heq
      rw [heq.2] at hlen
      exact absurd rfl hlen
    · exact ⟨rfl, rfl⟩

/-- C12 fails as stated: a recognizer tracking since 1000 that handles a second `touchstart`
(two fingers) at 1100 has `startTime = 1100` afterwards, not 1000. -/
theorem second_touchstart_resets_startTime :
    (handleTouchStart realMath (create defaultOptions) oneFinger 1000).1.state.isTracking =
      true ∧
    (handleTouchStart realMath (create defaultOptions) oneFinger 1000).1.state.startTime =
      1000 ∧
    (handleTouchStart realMath
      (handleTouchStart realMath (create defaultOptions) oneFinger 1000).1
      twoFingers 1100).1.state.startTime = 1100 ∧
    (1100 : ℝ) ≠ 1000 := by
  obtain ⟨-, -, -, htr, hst, -⟩ :=
    handleTouchStart_spec realMath (create defaultOptions) oneFinger 1000
  obtain ⟨-, -, -, -, hst2, -⟩ := handleTouchStart_spec realMath
    (handleTouchStart realMath (create defaultOptions) oneFinger 1000).1 twoFingers 1100
  exact ⟨htr, hst, hst2, by norm_num⟩

/-- C12 (amended): `handleTouchStart` does not read `isTracking`; whatever the state, it
sets `isTracking`, sets `startTime` to the clock value, sets `startPosition` and
`lastPosition` to the position of the first touch, replaces the touch list, and captures the
pinch/rotate baseline when there are exactly two touches (otherwise the baseline is kept);
`lastTapTime` and the options are unchanged. -/
theorem handleTouchStart_restarts_session {α : Type} [LinearOrderedField α] (M : JSMath α)
    (r : GestureRecognizer α) (e : TouchEvent α) (now : α) :
    (handleTouchStart M r e now).1.state.isTracking = true ∧
    (handleTouchStart M r e now).1.state.startTime = now ∧
    (handleTouchStart M r e now).1.state.startPosition =
      some (getTouchPosition e.first e.rect) ∧
    (handleTouchStart M r e now).1.state.lastPosition =
      some (getTouchPosition e.first e.rect) ∧
    (handleTouchStart M r e now).1.state.touches =
      e.touches.map (fun t => getTouchPosition t e.rect) ∧
    (∀ t1, e.rest = [t1] →
      (handleTouchStart M r e now).1.state.initialPinchDistance =
        getDistance M (getTouchPosition e.first e.rect) (getTouchPosition t1 e.rect) ∧
      (handleTouchStart M r e now).1.state.initialRotation =
        getAngle M (getTouchPosition e.first e.rect) (getTouchPosition t1 e.rect)) ∧
    (e.rest.length ≠ 1 →
      (handleTouchStart M r e now).1.state.initialPinchDistance =
        r.state.initialPinchDistance ∧
      (handleTouchStart M r e now).1.state.initialRotation = r.state.initialRotation) ∧
    (handleTouchStart M r e now).1.state.lastTapTime = r.state.lastTapTime ∧
    (handleTouchStart M r e now).1.options = r.options := by
  obtain ⟨ho, -, -, htr, hst, hsp, hlp, hltt, -, -⟩ := handleTouchStart_spec M r e now
  obtain ⟨ht, hb2, hb⟩ := handleTouchStart_baseline M r e now
  exact ⟨htr, hst, hsp, hlp, ht, hb2, hb, hltt, ho⟩

/-- C12 (amended), at a concrete input: the second finger of `twoFingers` arriving at 1100 on
a recognizer tracking since 1000. -/
theorem handleTouchStart_restarts_session_witness :
    (handleTouchStart realMath
      (handleTouchStart realMath (create defaultOptions) oneFinger 1000).1
      twoFingers 1100).1.state.initialPinchDistance =
      getDistance realMath (getTouchPosition { clientX := 3, clientY := 4 } twoFingers.rect)
        (getTouchPosition { clientX := 53, clientY := 4 } twoFingers.rect) :=
  ((handleTouchStart_restarts_session realMath
    (handleTouchStart realMath (create defaultOptions) oneFinger 1000).1
    twoFingers 1100).2.2.2.2.2.1 { clientX := 53, clientY := 4 } rfl).1

/-! ## Pinch baseline -/

theorem getDistance_realMath_horizontal (p q : Point ℝ) (hy : q.y - p.y = 0)
    (hx : 0 ≤ q.x - p.x) : getDistance realMath p q = q.x - p.x := by
  show Real.sqrt ((q.x - p.x) * (q.x - p.x) + (q.y - p.y) * (q.y - p.y)) = q.x - p.x
  rw [hy, show (q.x - p.x) * (q.x - p.x) + (0 : ℝ) * 0 = (q.x - p.x) * (q.x - p.x) by ring]
  exact Real.sqrt_mul_self hx

/-- C13 fails on the code: default options, one finger down at 1000 (the baseline
`initialPinchDistance` stays 0), then a `touchmove` that lists two touches 50px apart.  The
handler runs the multi-touch block on a state whose `initialPinchDistance` is 0, so the scale
is the unguarded quotient `50 / 0`. -/
theorem pinch_scale_divides_by_zero :
    (handleTouchStart realMath (create defaultOptions) oneFinger 1000).1.state.initialPinchDistance
      = 0 ∧
    getDistance realMath (getTouchPosition twoFingers.first twoFingers.rect)
      (getTouchPosition { clientX := 53, clientY := 4 } twoFingers.rect) = 50 ∧
    ∃ r2 rest,
      handleTouchMove realMath
        (handleTouchStart realMath (create defaultOptions) oneFinger 1000).1 twoFingers =
        some (r2,
          multiTouchEffects realMath r2 (getTouchPosition twoFingers.first twoFingers.rect)
            (getTouchPosition { clientX := 53, clientY := 4 } twoFingers.rect) ++ rest) ∧
      r2.state.initialPinchDistance = 0 := by
  obtain ⟨-, -, -, htr, -, hsp, hlp, -⟩ :=
    handleTouchStart_spec realMath (create defaultOptions) oneFinger 1000
  obtain ⟨-, -, hb⟩ := handleTouchStart_baseline realMath (create defaultOptions) oneFinger 1000
  have h0 := (hb (by decide)).1
  have hd : getDistance realMath (getTouchPosition twoFingers.first twoFingers.rect)
      (getTouchPosition { clientX := 53, clientY := 4 } twoFingers.rect) = 50 := by
    rw [getDistance_realMath_horizontal _ _ (by norm_num [getTouchPosition, twoFingers])
      (by norm_num [getTouchPosition, twoFingers])]
    norm_num [getTouchPosition, twoFingers]
  refine ⟨h0, hd, ?_⟩
  have hnot : ¬ getDistance realMath (getTouchPosition oneFinger.first oneFinger.rect)
      (getTouchPosition twoFingers.first twoFingers.rect) >
      (handleTouchStart realMath (create defaultOptions) oneFinger 1000).1.options.tapThreshold := by
    have : getTouchPosition (twoFingers : TouchEvent ℝ).first twoFingers.rect =
        getTouchPosition oneFinger.first oneFinger.rect := rfl
    rw [this, getDistance_self, realMath_sqrt_zero]
    norm_num [handleTouchStart, setTimeout, create, defaultOptions]
  unfold handleTouchMove
  simp only [htr, hsp, hlp, Bool.not_true, Bool.false_eq_true, if_false, hnot]
  exact ⟨_, _, rfl, h0⟩

/-! ## Taps per second across `reset()` -/

/-- C14 fails on the code: three taps, a tick, `reset()`, one tap, then a tick.  One tap
arrived since the previous tick, but the tick computes `tapsPerSecond = 1 - 3 = -2` and emits
no `rhythm` event: `reset()` zeroes `tapCount` and leaves `previousCount` at 3. -/
theorem tapsPerSecond_negative_after_reset :
    (TapReelHandler.steps (TapReelHandler.create false : TapReelHandler ℚ)
      [TapReelHandler.Step.tap ⟨0, 0⟩ 100, TapReelHandler.Step.tap ⟨0, 0⟩ 200,
       TapReelHandler.Step.tap ⟨0, 0⟩ 300, TapReelHandler.Step.tick,
       TapReelHandler.Step.reset, TapReelHandler.Step.tap ⟨0, 0⟩ 1400]).tapCount = 1 ∧
    (TapReelHandler.steps (TapReelHandler.create false : TapReelHandler ℚ)
      [TapReelHandler.Step.tap ⟨0, 0⟩ 100, TapReelHandler.Step.tap ⟨0, 0⟩ 200,
       TapReelHandler.Step.tap ⟨0, 0⟩ 300, TapReelHandler.Step.tick,
       TapReelHandler.Step.reset, TapReelHandler.Step.tap ⟨0, 0⟩ 1400]).previousCount = 3 ∧
    (TapReelHandler.tick (TapReelHandler.steps (TapReelHandler.create false : TapReelHandler ℚ)
      [TapReelHandler.Step.tap ⟨0, 0⟩ 100, TapReelHandler.Step.tap ⟨0, 0⟩ 200,
       TapReelHandler.Step.tap ⟨0, 0⟩ 300, TapReelHandler.Step.tick,
       TapReelHandler.Step.reset, TapReelHandler.Step.tap ⟨0, 0⟩ 1400])).1.tapsPerSecond = -2 ∧
    (TapReelHandler.tick (TapReelHandler.steps (TapReelHandler.create false : TapReelHandler ℚ)
      [TapReelHandler.Step.tap ⟨0, 0⟩ 100, TapReelHandler.Step.tap ⟨0, 0⟩ 200,
       TapReelHandler.Step.tap ⟨0, 0⟩ 300, TapReelHandler.Step.tick,
       TapReelHandler.Step.reset, TapReelHandler.Step.tap ⟨0, 0⟩ 1400])).2 = [] := by
  refine ⟨rfl, rfl, rfl, rfl⟩

/-! ## Listeners after `destroy()` -/

theorem Element.removeEventListener_fresh (el : Element) (type : TouchEventType)
    (f : BoundFunction) (h : ∀ l ∈ el.listeners, l.2.identity ≠ f.identity) :
    el.removeEventListener type f = el := by
  unfold Element.removeEventListener
  have : el.listeners.filter (fun l => decide (l ≠ (type, f))) = el.listeners := by
    rw [List.filter_eq_self]
    intro l hl
    have := h l hl
    simp only [ne_eq, decide_not, Bool.not_eq_true', decide_eq_false_iff_not]
    rintro rfl
    exact this rfl
  rw [this]

theorem unbindEvents_listeners (el : Element)
    (h : ∀ l ∈ el.listeners, l.2.identity < el.nextIdentity) :
    (unbindEvents el).listeners = el.listeners := by
  have hf : ∀ (k : Nat) (m : Method) (t : TouchEventType),
      Element.removeEventListener { el with nextIdentity := el.nextIdentity + k + 1 } t
        { method := m, identity := el.nextIdentity + k } =
      { el with nextIdentity := el.nextIdentity + k + 1 } := by
    intro k m t
    apply Element.removeEventListener_fresh
    intro l hl
    have := h l hl
    show l.2.identity ≠ el.nextIdentity + k
    omega
  have h0 := hf 0
  have h1 := hf 1
  have h2 := hf 2
  have h3 := hf 3
  simp only [Nat.add_zero] at h0
  simp only [unbindEvents, Element.bind, h0, Nat.add_assoc, Nat.reduceAdd] at h1 h2 h3 ⊢
  rw [h1, h2, h3]

/-- C15 fails on the code: a recognizer bound to an element without other listeners.  After
`destroy()` the element has the same four listeners as before, and a `touchstart`,
`touchmove`, `touchend` or `touchcancel` event still invokes the recognizer's handler:
`unbindEvents` hands `removeEventListener` four new function objects, none of which is
registered. -/
theorem destroy_leaves_listeners {α : Type} [LinearOrderedField α] (r : GestureRecognizer α) :
    (destroy r (bindEvents Element.empty)).2.listeners =
      (bindEvents Element.empty).listeners ∧
    (destroy r (bindEvents Element.empty)).2.handlersFor TouchEventType.touchstart =
      [{ method := Method.handleTouchStart, identity := 0 }] ∧
    (destroy r (bindEvents Element.empty)).2.handlersFor TouchEventType.touchmove =
      [{ method := Method.handleTouchMove, identity := 1 }] ∧
    (destroy r (bindEvents Element.empty)).2.handlersFor TouchEventType.touchend =
      [{ method := Method.handleTouchEnd, identity := 2 }] ∧
    (destroy r (bindEvents Element.empty)).2.handlersFor TouchEventType.touchcancel =
      [{ method := Method.handleTouchCancel, identity := 3 }] := by
  refine ⟨?_, ?_, ?_, ?_, ?_⟩ <;> show _ = _ <;> unfold destroy <;> dsimp only <;> decide

end TouchEngine

namespace MusicEngine
open MusicSequencer

/-! ## The beat cursor -/

theorem tick_eq (s : MusicSequencer) :
    tick s =
      ({ s with
         currentBeat := (s.currentBeat + 1) % s.loopLength
         currentBar :=
           if (s.currentBeat + 1) % s.loopLength = 0 then s.currentBar + 1 else s.currentBar },
       playBeat s) := by
  unfold tick
  dsimp only
  split <;> rfl

theorem tick_cursor (s : MusicSequencer) (n : Nat) :
    tick { s with currentBeat := n % s.loopLength, currentBar := n / s.loopLength } =
      ({ s with currentBeat := (n + 1) % s.loopLength, currentBar := (n + 1) / s.loopLength },
       playBeat { s with currentBeat := n % s.loopLength, currentBar := n / s.loopLength }) := by
  rw [tick_eq]
  dsimp only
  have h1 : (n % s.loopLength + 1) % s.loopLength = (n + 1) % s.loopLength := by
    rw [Nat.add_mod n 1, Nat.add_mod (n % s.loopLength) 1, Nat.mod_mod]
  have h2 : (if (n + 1) % s.loopLength = 0 then n / s.loopLength + 1 else n / s.loopLength) =
      (n + 1) / s.loopLength := by
    rw [Nat.succ_div]
    by_cases hd : s.loopLength ∣ n + 1
    · rw [if_pos hd, if_pos (Nat.mod_eq_zero_of_dvd hd)]
    · rw [if_neg hd, if_neg (fun h => hd (Nat.dvd_of_mod_eq_zero h))]
      rfl
  rw [h1, h2]

theorem ticks_eq (s : MusicSequencer) (hbeat : s.currentBeat = 0)
    (hbar : s.currentBar = 0) (n : Nat) :
    ticks s n =
      ({ s with currentBeat := n % s.loopLength, currentBar := n / s.loopLength },
       (List.range n).map (fun k =>
         playBeat { s with currentBeat := k % s.loopLength, currentBar := k / s.loopLength })) := by
  induction n with
  | zero =>
    obtain ⟨bpm, isPlaying, currentBeat, currentBar, tracks, loopLength, intervalId⟩ := s
    dsimp only at hbeat hbar
    subst hbeat hbar
    simp only [ticks, Nat.zero_mod, Nat.zero_div, List.range_zero, List.map_nil]
  | succ n ih =>
    simp only [ticks, ih, tick_cursor s n, List.range_succ, List.map_append, List.map_cons,
      List.map_nil]

theorem steps_append (st : MusicSequencer × Timers) (l1 l2 : List Op) :
    steps st (l1 ++ l2) = steps (steps st l1) l2 := by
  simp [steps, List.foldl_append]

theorem step_cursor_bound (st : MusicSequencer × Timers) (op : Op)
    (h : st.1.loopLength = 16 ∧ st.1.currentBeat < 16) :
    (step st op).1.loopLength = 16 ∧ (step st op).1.currentBeat < 16 := by
  obtain ⟨hL, hb⟩ := h
  cases op with
  | setBPM bpm => exact ⟨hL, hb⟩
  | setMelody p => exact ⟨hL, hb⟩
  | setHarmony p => exact ⟨hL, hb⟩
  | setBass p => exact ⟨hL, hb⟩
  | setDrums p => exact ⟨hL, hb⟩
  | start =>
    simp only [step, start]
    split
    · exact ⟨hL, hb⟩
    · exact ⟨hL, hb⟩
  | stop =>
    simp only [step, stop]
    split <;> (try split) <;> exact ⟨hL, by decide⟩
  | tick =>
    simp only [step, tick_eq]
    refine ⟨hL, ?_⟩
    show (st.1.currentBeat + 1) % st.1.loopLength < 16
    rw [hL]
    exact Nat.mod_lt _ (by decide)

theorem steps_cursor_bound (l : List Op) (st : MusicSequencer × Timers)
    (h : st.1.loopLength = 16 ∧ st.1.currentBeat < 16) :
    (steps st l).1.loopLength = 16 ∧ (steps st l).1.currentBeat < 16 := by
  induction l generalizing st with
  | nil => exact h
  | cons op l ih => exact ih (step st op) (step_cursor_bound st op h)

/-- C16: for a sequencer with `currentBeat = 0` and `currentBar = 0` (as `stop()` and the
constructor leave it) and a positive `loopLength`, after `n` timer ticks
`currentBeat = n mod loopLength` and `currentBar = floor(n / loopLength)`, nothing else has
changed, and tick number `k` (from 0) played what `playBeat` plays with the cursor at step
`k mod loopLength`, which is entry `k mod loopLength` of each of the four tracks.  In every
state reachable from a new sequencer by `setBPM`, `setTrack`, `start`, `stop` and ticks,
`loopLength` is 16 and `0 ≤ currentBeat < loopLength`. -/
theorem sequencer_cursor (s : MusicSequencer) (n : Nat) (hL : 0 < s.loopLength)
    (hbeat : s.currentBeat = 0) (hbar : s.currentBar = 0) :
    (ticks s n).1 = { s with currentBeat := n % s.loopLength, currentBar := n / s.loopLength } ∧
    (ticks s n).2.length = n ∧
    (∀ k, k < n → (ticks s n).2.get? k = some
      (melodyVoices (s.tracks.melody.get? (k % s.loopLength)) ++
       harmonyVoices (s.tracks.harmony.get? (k % s.loopLength)) ++
       bassVoices (s.tracks.bass.get? (k % s.loopLength)) ++
       drumVoices (s.tracks.drums.get? (k % s.loopLength)))) ∧
    (ticks s n).1.currentBeat < s.loopLength ∧
    (∀ (bpm : ℚ) (t : Timers) (l : List Op),
      (steps (create bpm, t) l).1.loopLength = 16 ∧
      (steps (create bpm, t) l).1.currentBeat < (steps (create bpm, t) l).1.loopLength) := by
  rw [ticks_eq s hbeat hbar n]
  refine ⟨rfl, by simp, ?_, Nat.mod_lt _ hL, ?_⟩
  · intro k hk
    simp [List.getElem?_map, List.getElem?_range hk, playBeat]
  · intro bpm t l
    have h := steps_cursor_bound l (create bpm, t) ⟨rfl, Nat.zero_lt_succ 15⟩
    exact ⟨h.1, by rw [h.1]; exact h.2⟩

/-- C16 at a new sequencer with the melody of three notes, after 35 ticks: beat 3 of bar 2. -/
theorem sequencer_cursor_witness :
    (ticks ((create 100).setMelody ["C4", "-", "E4"]) 35).1.currentBeat = 3 ∧
    (ticks ((create 100).setMelody ["C4", "-", "E4"]) 35).1.currentBar = 2 := by
  have h := (sequencer_cursor ((create 100).setMelody ["C4", "-", "E4"]) 35 (by decide) rfl rfl).1
  rw [h]
  exact ⟨rfl, rfl⟩

/-! ## One sequencer interval -/

theorem sequencer_start_of_playing (s : MusicSequencer) (t : Timers)
    (h : s.isPlaying = true) : s.start t = (s, t) := by
  simp [start, h]

theorem sequencer_start_of_stopped (s : MusicSequencer) (t : Timers)
    (h : s.isPlaying = false) :
    s.start t =
      ({ s with isPlaying := true, intervalId := some t.nextHandle },
       { active :=
           { handle := t.nextHandle, callback := Callback.sequencerBeat,
             period := 60 / s.bpm * 1000 } :: t.active
         nextHandle := t.nextHandle + 1 }) := by
  simp [start, h, Timers.setInterval]

theorem sequencer_stop_of_synced (s : MusicSequencer) (t : Timers) (h : s.Synced t) :
    s.stop t =
      ({ s with isPlaying := false, intervalId := none, currentBeat := 0, currentBar := 0 },
       { t with active := [] }) := by
  obtain ⟨-, h0, hact, -⟩ := h
  obtain ⟨bpm, isPlaying, currentBeat, currentBar, tracks, loopLength, intervalId⟩ := s
  obtain ⟨active, nextHandle⟩ := t
  dsimp only at h0 hact
  cases intervalId with
  | none =>
    simp only [Option.toList, List.map_nil, List.map_eq_nil_iff] at hact
    subst hact
    rfl
  | some handle =>
    have hne : handle ≠ 0 := fun h => h0 (by rw [h])
    simp only [Option.toList, List.map_cons, List.map_nil] at hact
    cases active with
    | nil => simp at hact
    | cons i rest =>
      simp only [List.map_cons, List.cons.injEq, Prod.mk.injEq, List.map_eq_nil_iff] at hact
      obtain ⟨⟨hi, -⟩, hrest⟩ := hact
      subst hrest
      simp [stop, hne, Timers.clearInterval, hi]

theorem sequencer_synced_stop (s : MusicSequencer) (t : Timers) (h : s.Synced t) :
    (s.stop t).1.Synced (s.stop t).2 ∧ (s.stop t).1.isPlaying = false ∧
    (s.stop t).2.active = [] ∧ (s.stop t).1.intervalId = none := by
  rw [sequencer_stop_of_synced s t h]
  exact ⟨⟨by simp, by simp, by simp [Option.toList], h.2.2.2⟩, rfl, rfl, rfl⟩

theorem sequencer_synced_start (s : MusicSequencer) (t : Timers) (h : s.Synced t) :
    (s.start t).1.Synced (s.start t).2 ∧ (s.start t).1.isPlaying = true := by
  cases hp : s.isPlaying with
  | true =>
    rw [sequencer_start_of_playing s t hp]
    exact ⟨h, hp⟩
  | false =>
    rw [sequencer_start_of_stopped s t hp]
    obtain ⟨hiff, h0, hact, hn⟩ := h
    have hid : s.intervalId = none := by
      by_contra hne
      have := hiff.2 hne
      rw [hp] at this
      exact Bool.false_ne_true this
    rw [hid] at hact
    simp only [Option.toList, List.map_nil, List.map_eq_nil_iff] at hact
    refine ⟨⟨by simp, ?_, by simp [Option.toList, hact], ?_⟩, rfl⟩
    · simp only [ne_eq, Option.some.injEq]
      omega
    · show 1 ≤ t.nextHandle + 1
      omega

theorem arpeggiator_stop_of_idle (a : Arpeggiator) (t : Timers) (h : a.intervalId = none) :
    a.stop t = ({ a with isPlaying := false }, t) := by
  simp [Arpeggiator.stop, h]

theorem controller_stop_of_consistent (sys : System) (h : sys.Consistent) :
    (MusicController.stop sys).Consistent ∧
    (MusicController.stop sys).timers.active = [] ∧
    (MusicController.stop sys).webAudio = sys.webAudio ∧
    (MusicController.stop sys).graph = sys.graph ∧
    (MusicController.stop sys).controller.isInitialized = sys.controller.isInitialized ∧
    (MusicController.stop sys).controller.currentSong = none ∧
    (∀ s, (MusicController.stop sys).controller.sequencer = some s → s.isPlaying = false) := by
  obtain ⟨hinit, harp, hnone, hsome⟩ := h
  obtain ⟨webAudio, graph, timers, controller⟩ := sys
  obtain ⟨sequencer, arpeggiator, melodyGen, currentSong, isInitialized, volume, isMuted⟩ :=
    controller
  dsimp only at hinit harp hnone hsome
  cases sequencer with
  | none =>
    have hact := (hnone rfl).1
    have hn := (hnone rfl).2
    cases arpeggiator with
    | none =>
      unfold MusicController.stop
      dsimp only
      exact ⟨⟨hinit, by simp, fun _ => ⟨hact, hn⟩, by simp⟩, hact, rfl, rfl, rfl, rfl, by simp⟩
    | some a =>
      have ha := harp a rfl
      unfold MusicController.stop
      dsimp only
      rw [arpeggiator_stop_of_idle a _ ha]
      exact ⟨⟨hinit, by simp [ha], fun _ => ⟨hact, hn⟩, by simp⟩, hact, rfl, rfl, rfl, rfl,
        by simp⟩
  | some s =>
    have hs := hsome s rfl
    obtain ⟨hsync, hplay, hact, hid⟩ := sequencer_synced_stop s timers hs
    cases arpeggiator with
    | none =>
      unfold MusicController.stop
      dsimp only
      refine ⟨⟨by simpa using hinit, by simp, by simp, ?_⟩, hact, rfl, rfl, rfl, rfl, ?_⟩
      · intro s1 hs1
        simp only [Option.some.injEq] at hs1
        subst hs1
        exact hsync
      · intro s1 hs1
        simp only [Option.some.injEq] at hs1
        subst hs1
        exact hplay
    | some a =>
      have ha := harp a rfl
      unfold MusicController.stop
      dsimp only
      rw [arpeggiator_stop_of_idle a _ ha]
      refine ⟨⟨by simpa using hinit, by simp [ha], by simp, ?_⟩, hact, rfl, rfl, rfl, rfl, ?_⟩
      · intro s1 hs1
        simp only [Option.some.injEq] at hs1
        subst hs1
        exact hsync
      · intro s1 hs1
        simp only [Option.some.injEq] at hs1
        subst hs1
        exact hplay

theorem create_consistent (webAudio : Bool) : (System.create webAudio).Consistent :=
  ⟨by simp [System.create, MusicController.create],
   by simp [System.create, MusicController.create],
   fun _ => ⟨rfl, Nat.le_refl 1⟩,
   by simp [System.create, MusicController.create]⟩

theorem controller_init_of_initialized (sys : System)
    (h : sys.controller.isInitialized = true) : MusicController.init sys = Outcome.ok sys := by
  simp [MusicController.init, h]

theorem controller_init_of_consistent (sys : System) (h : sys.Consistent) :
    (MusicController.init sys).sys.Consistent ∧
    (MusicController.init sys).sys.webAudio = sys.webAudio ∧
    ((MusicController.init sys).isOk = true →
      (MusicController.init sys).sys.controller.isInitialized = true) ∧
    (sys.webAudio = true → (MusicController.init sys).isOk = true) := by
  cases hi : sys.controller.isInitialized with
  | true =>
    rw [controller_init_of_initialized sys hi]
    exact ⟨h, rfl, fun _ => hi, fun _ => rfl⟩
  | false =>
    obtain ⟨hinit, harp, hnone, hsome⟩ := h
    have hseq := hinit.1 hi
    obtain ⟨hact, hn⟩ := hnone hseq
    obtain ⟨webAudio, graph, timers, controller⟩ := sys
    dsimp only at hi hact hn
    have hsync : (MusicSequencer.create 100).Synced timers :=
      ⟨by simp [MusicSequencer.create], by simp [MusicSequencer.create],
       by simp [MusicSequencer.create, Option.toList, hact], hn⟩
    have hcons : ∀ g : Option AudioGraph,
        System.Consistent
          { webAudio := webAudio, graph := g, timers := timers
            controller :=
              { controller with
                sequencer := some (MusicSequencer.create 100)
                arpeggiator := some (Arpeggiator.create C_MAJOR_PENTA 120 "up")
                melodyGen := some (MelodyGenerator.create "C_MAJOR_PENTA")
                isInitialized := true } } := by
      intro g
      refine ⟨by simp, ?_, by simp, ?_⟩
      · intro a ha
        simp only [Option.some.injEq] at ha
        subst ha
        rfl
      · intro s hs
        simp only [Option.some.injEq] at hs
        subst hs
        exact hsync
    cases graph with
    | some g =>
      simp only [MusicController.init, hi, resumeAudio, initAudioContext, Bool.false_eq_true,
        if_false, Outcome.sys, Outcome.isOk]
      exact ⟨hcons _, trivial, fun _ => trivial, fun _ => trivial⟩
    | none =>
      cases webAudio with
      | true =>
        simp only [MusicController.init, hi, resumeAudio, initAudioContext, Bool.false_eq_true,
          if_false, if_true, Outcome.sys, Outcome.isOk]
        exact ⟨hcons _, trivial, fun _ => trivial, fun _ => trivial⟩
      | false =>
        simp only [MusicController.init, hi, resumeAudio, initAudioContext, Bool.false_eq_true,
          if_false, Outcome.sys, Outcome.isOk]
        exact ⟨⟨hinit, harp, hnone, hsome⟩, trivial, by simp, by simp⟩

theorem controller_pause_of_consistent (sys : System) (h : sys.Consistent) :
    (MusicController.pause sys).Consistent ∧
    (MusicController.pause sys).webAudio = sys.webAudio := by
  obtain ⟨hinit, harp, hnone, hsome⟩ := h
  obtain ⟨webAudio, graph, timers, controller⟩ := sys
  obtain ⟨sequencer, arpeggiator, melodyGen, currentSong, isInitialized, volume, isMuted⟩ :=
    controller
  dsimp only at hinit harp hnone hsome
  cases sequencer with
  | none => exact ⟨⟨hinit, harp, hnone, hsome⟩, rfl⟩
  | some s =>
    obtain ⟨hsync, -, -, -⟩ := sequencer_synced_stop s timers (hsome s rfl)
    unfold MusicController.pause
    dsimp only
    refine ⟨⟨by simpa using hinit, harp, by simp, ?_⟩, rfl⟩
    intro s1 hs1
    simp only [Option.some.injEq] at hs1
    subst hs1
    exact hsync

theorem controller_setMusicGain_of_consistent (sys : System) (value : ℚ)
    (h : sys.Consistent) :
    (MusicController.setMusicGain sys value).Consistent ∧
    (MusicController.setMusicGain sys value).webAudio = sys.webAudio := by
  unfold MusicController.setMusicGain
  cases sys.graph with
  | none => exact ⟨h, rfl⟩
  | some g => exact ⟨h, rfl⟩

theorem controller_playSong_of_ready (sys : System) (songKey : String) (song : Song)
    (s : MusicSequencer) (hi : sys.controller.isInitialized = true)
    (hl : SONGS.lookup songKey = some song)
    (hs : (MusicController.stop sys).controller.sequencer = some s) :
    MusicController.playSong sys songKey =
      Outcome.ok
        { MusicController.stop sys with
          timers := ((MusicController.loadSong s song).start (MusicController.stop sys).timers).2
          controller :=
            { (MusicController.stop sys).controller with
              currentSong := some songKey
              sequencer :=
                some ((MusicController.loadSong s song).start
                  (MusicController.stop sys).timers).1 } } := by
  unfold MusicController.playSong
  rw [controller_init_of_initialized sys hi]
  dsimp only
  rw [hl]
  dsimp only
  rw [hs]

theorem controller_playSong_after_init (sys sys1 : System) (songKey : String)
    (hinit : MusicController.init sys = Outcome.ok sys1)
    (hi : sys1.controller.isInitialized = true) :
    MusicController.playSong sys songKey = MusicController.playSong sys1 songKey := by
  unfold MusicController.playSong
  rw [hinit, controller_init_of_initialized sys1 hi]

theorem controller_loadSong_fields (s : MusicSequencer) (song : Song) :
    (MusicController.loadSong s song).isPlaying = s.isPlaying ∧
    (MusicController.loadSong s song).intervalId = s.intervalId ∧
    (MusicController.loadSong s song).currentBeat = s.currentBeat ∧
    (MusicController.loadSong s song).currentBar = s.currentBar ∧
    (MusicController.loadSong s song).loopLength = s.loopLength ∧
    (MusicController.loadSong s song).bpm = song.bpm ∧
    (MusicController.loadSong s song).tracks.melody = song.melody ∧
    (MusicController.loadSong s song).tracks.bass = song.bass ∧
    (MusicController.loadSong s song).tracks.drums = song.drums := by
  unfold MusicController.loadSong
  dsimp only
  split <;> exact ⟨rfl, rfl, rfl, rfl, rfl, rfl, rfl, rfl, rfl⟩

theorem controller_loadSong_synced (s : MusicSequencer) (song : Song) (t : Timers)
    (h : s.Synced t) : (MusicController.loadSong s song).Synced t := by
  obtain ⟨hp, hi, -⟩ := controller_loadSong_fields s song
  unfold MusicSequencer.Synced
  rw [hp, hi]
  exact h

theorem controller_playSong_of_consistent (sys : System) (songKey : String)
    (h : sys.Consistent) :
    (MusicController.playSong sys songKey).sys.Consistent ∧
    (MusicController.playSong sys songKey).sys.webAudio = sys.webAudio ∧
    (sys.webAudio = true → ∀ song, SONGS.lookup songKey = some song →
      ∃ s, (MusicController.playSong sys songKey).sys.controller.sequencer = some s ∧
        s.isPlaying = true) := by
  obtain ⟨hc1, hw1, hok1, hweb1⟩ := controller_init_of_consistent sys h
  cases hinit : MusicController.init sys with
  | throws sys1 =>
    rw [hinit] at hc1 hw1 hweb1
    have hps : MusicController.playSong sys songKey = Outcome.throws sys1 := by
      unfold MusicController.playSong
      rw [hinit]
    rw [hps]
    refine ⟨hc1, hw1, ?_⟩
    intro hw
    exact absurd (hweb1 hw) (by simp [Outcome.isOk])
  | ok sys1 =>
    rw [hinit] at hc1 hw1 hok1
    simp only [Outcome.sys, Outcome.isOk, forall_const] at hc1 hw1 hok1
    rw [controller_playSong_after_init sys sys1 songKey hinit hok1]
    cases hl : SONGS.lookup songKey with
    | none =>
      have hps : MusicController.playSong sys1 songKey = Outcome.ok sys1 := by
        unfold MusicController.playSong
        rw [controller_init_of_initialized sys1 hok1]
        dsimp only
        rw [hl]
      rw [hps]
      refine ⟨hc1, hw1, ?_⟩
      intro _ song hsong
      exact absurd hsong (by simp)
    | some song =>
      obtain ⟨hc2, hact2, hw2, -, hi2, -, hplay2⟩ := controller_stop_of_consistent sys1 hc1
      rw [hok1] at hi2
      obtain ⟨hinit2, harp2, hnone2, hsome2⟩ := hc2
      cases hs2 : (MusicController.stop sys1).controller.sequencer with
      | none =>
        have := hinit2.2 hs2
        rw [hi2] at this
        exact absurd this (by decide)
      | some s =>
        rw [controller_playSong_of_ready sys1 songKey song s hok1 hl hs2]
        have hsync := controller_loadSong_synced s song _ (hsome2 s hs2)
        obtain ⟨hsync3, hplay3⟩ := sequencer_synced_start _ _ hsync
        refine ⟨⟨?_, harp2, ?_, ?_⟩, ?_, ?_⟩
        · show (MusicController.stop sys1).controller.isInitialized = false ↔ _
          rw [hi2]
          simp [Outcome.sys]
        · intro hn
          exact absurd hn (by simp [Outcome.sys])
        · intro s1 hs1
          simp only [Outcome.sys, Option.some.injEq] at hs1
          subst hs1
          exact hsync3
        · show (MusicController.stop sys1).webAudio = sys.webAudio
          rw [hw2, hw1]
        · intro _ _ _
          exact ⟨_, rfl, hplay3⟩

theorem controller_resume_of_consistent (sys : System) (h : sys.Consistent) :
    (MusicController.resume sys).Consistent ∧
    (MusicController.resume sys).webAudio = sys.webAudio := by
  unfold MusicController.resume
  cases sys.controller.currentSong with
  | none => exact ⟨h, rfl⟩
  | some songKey =>
    dsimp only
    split
    · exact ⟨(controller_playSong_of_consistent sys songKey h).1,
        (controller_playSong_of_consistent sys songKey h).2.1⟩
    · exact ⟨h, rfl⟩

theorem system_call_consistent (sys : System) (c : Call) (h : sys.Consistent) :
    (sys.call c).sys.Consistent ∧ (sys.call c).sys.webAudio = sys.webAudio := by
  cases c with
  | init =>
    exact ⟨(controller_init_of_consistent sys h).1,
      (controller_init_of_consistent sys h).2.1⟩
  | playSong songKey =>
    exact ⟨(controller_playSong_of_consistent sys songKey h).1,
      (controller_playSong_of_consistent sys songKey h).2.1⟩
  | stop =>
    exact ⟨(controller_stop_of_consistent sys h).1,
      (controller_stop_of_consistent sys h).2.2.1⟩
  | pause => exact controller_pause_of_consistent sys h
  | resume => exact controller_resume_of_consistent sys h
  | setVolume value =>
    exact controller_setMusicGain_of_consistent _ _ h
  | toggleMute =>
    exact controller_setMusicGain_of_consistent _ _ h
  | sequencerStart =>
    unfold System.call
    obtain ⟨hinit, harp, hnone, hsome⟩ := h
    cases hs : sys.controller.sequencer with
    | none => exact ⟨⟨hinit, harp, hnone, hsome⟩, rfl⟩
    | some s =>
      dsimp only
      obtain ⟨hsync, -⟩ := sequencer_synced_start s sys.timers (hsome s hs)
      refine ⟨⟨?_, harp, by simp [Outcome.sys], ?_⟩, rfl⟩
      · rw [hs] at hinit
        simpa [Outcome.sys] using hinit
      · intro s1 hs1
        simp only [Outcome.sys, Option.some.injEq] at hs1
        subst hs1
        exact hsync
  | sequencerStop =>
    unfold System.call
    obtain ⟨hinit, harp, hnone, hsome⟩ := h
    cases hs : sys.controller.sequencer with
    | none => exact ⟨⟨hinit, harp, hnone, hsome⟩, rfl⟩
    | some s =>
      dsimp only
      obtain ⟨hsync, -⟩ := sequencer_synced_stop s sys.timers (hsome s hs)
      refine ⟨⟨?_, harp, by simp [Outcome.sys], ?_⟩, rfl⟩
      · rw [hs] at hinit
        simpa [Outcome.sys] using hinit
      · intro s1 hs1
        simp only [Outcome.sys, Option.some.injEq] at hs1
        subst hs1
        exact hsync

theorem system_calls_consistent (l : List Call) (sys : System) (h : sys.Consistent) :
    (sys.calls l).Consistent ∧ (sys.calls l).webAudio = sys.webAudio := by
  induction l generalizing sys with
  | nil => exact ⟨h, rfl⟩
  | cons c l ih =>
    obtain ⟨h1, hw1⟩ := system_call_consistent sys c h
    obtain ⟨h2, hw2⟩ := ih (sys.call c).sys h1
    exact ⟨h2, by rw [← hw1]; exact hw2⟩

theorem sequencer_synced_facts (s : MusicSequencer) (t : Timers) (h : s.Synced t) :
    t.active.length ≤ 1 ∧ t.sequencerIntervals.length ≤ 1 ∧
    t.active.map (fun i => i.handle) = s.intervalId.toList ∧
    (s.isPlaying = true → t.sequencerIntervals.length = 1) := by
  obtain ⟨hiff, -, hact, -⟩ := h
  have hlen : t.active.length = s.intervalId.toList.length := by
    have := congrArg List.length hact
    simpa using this
  have hle : t.active.length ≤ 1 := by
    rw [hlen]
    cases s.intervalId <;> simp [Option.toList]
  have hfst : t.active.map (fun i => i.handle) = s.intervalId.toList := by
    have := congrArg (List.map Prod.fst) hact
    simpa [List.map_map, Function.comp_def] using this
  refine ⟨hle, le_trans (List.length_filter_le _ _) hle, hfst, ?_⟩
  intro hp
  have hne := hiff.1 hp
  cases hid : s.intervalId with
  | none => exact absurd hid hne
  | some handle =>
    rw [hid] at hact
    cases hal : t.active with
    | nil =>
      rw [hal] at hact
      simp [Option.toList] at hact
    | cons i rest =>
      rw [hal] at hact
      simp only [Option.toList, List.map_cons, List.map_nil, List.cons.injEq, Prod.mk.injEq,
        List.map_eq_nil_iff] at hact
      obtain ⟨⟨-, hcb⟩, hrest⟩ := hact
      simp [Timers.sequencerIntervals, hal, hrest, hcb]

/-- C17: in every state `sys` reached from module load by calls of `init`, `playSong`, `stop`,
`pause`, `resume`, `setVolume`, `toggleMute` and of `start()` and `stop()` on the sequencer,
each call run to completion before the next: at most one interval timer is active; if there
is a sequencer, `isPlaying` holds iff it holds a handle, the handles of the active intervals
are exactly the handle it holds, and `start()` while `isPlaying` changes neither the sequencer
nor the timers; if there is no sequencer no interval is active.  Where Web Audio exists, after
two `playSong` calls in a row, the second with a key of `SONGS`, exactly one sequencer interval
is active. -/
theorem one_sequencer_interval (webAudio : Bool) (l : List Call) (sys : System)
    (hsys : sys = (System.create webAudio).calls l) :
    sys.timers.active.length ≤ 1 ∧
    sys.timers.sequencerIntervals.length ≤ 1 ∧
    (∀ s, sys.controller.sequencer = some s →
      (s.isPlaying = true ↔ s.intervalId ≠ none) ∧
      sys.timers.active.map (fun i => i.handle) = s.intervalId.toList ∧
      (s.isPlaying = true → s.start sys.timers = (s, sys.timers))) ∧
    (sys.controller.sequencer = none → sys.timers.active = []) ∧
    (webAudio = true → ∀ k1 k2 song, SONGS.lookup k2 = some song →
      ((sys.call (Call.playSong k1)).sys.call
        (Call.playSong k2)).sys.timers.sequencerIntervals.length = 1) := by
  obtain ⟨hc, hw⟩ := system_calls_consistent l (System.create webAudio) (create_consistent webAudio)
  rw [← hsys] at hc hw
  have hc0 := hc
  obtain ⟨-, -, hnone, hsome⟩ := hc
  refine ⟨?_, ?_, ?_, fun hn => (hnone hn).1, ?_⟩
  · cases hs : sys.controller.sequencer with
    | none => rw [(hnone hs).1]; exact Nat.zero_le 1
    | some s => exact (sequencer_synced_facts s _ (hsome s hs)).1
  · cases hs : sys.controller.sequencer with
    | none => simp [Timers.sequencerIntervals, (hnone hs).1]
    | some s => exact (sequencer_synced_facts s _ (hsome s hs)).2.1
  · intro s hs
    exact ⟨(hsome s hs).1, (sequencer_synced_facts s _ (hsome s hs)).2.2.1,
      sequencer_start_of_playing s _⟩
  · intro hweb k1 k2 song hsong
    obtain ⟨hc1, hw1⟩ := system_call_consistent sys (Call.playSong k1) hc0
    have hweb1 : (sys.call (Call.playSong k1)).sys.webAudio = true := by
      rw [hw1, hw]
      exact hweb
    obtain ⟨hc2, -, hplay⟩ :=
      controller_playSong_of_consistent (sys.call (Call.playSong k1)).sys k2 hc1
    obtain ⟨s, hs, hp⟩ := hplay hweb1 song hsong
    exact (sequencer_synced_facts s _ (hc2.2.2.2 s hs)).2.2.2 hp

/-- C17 after `playSong('MENU_THEME')` and `start()` on the sequencer, with two more
`playSong` calls. -/
theorem one_sequencer_interval_witness :
    ((((System.create true).calls [Call.playSong "MENU_THEME", Call.sequencerStart]).call
      (Call.playSong "SHOP")).sys.call
        (Call.playSong "VICTORY")).sys.timers.sequencerIntervals.length = 1 :=
  (one_sequencer_interval true [Call.playSong "MENU_THEME", Call.sequencerStart] _ rfl).2.2.2.2
    rfl "SHOP" "VICTORY" _ rfl

/-! ## Pause, resume and stop -/

theorem sequencer_stop_fields (s : MusicSequencer) (t : Timers) :
    (s.stop t).1.isPlaying = false ∧ (s.stop t).1.currentBeat = 0 ∧
    (s.stop t).1.currentBar = 0 ∧ (s.stop t).1.bpm = s.bpm ∧
    (s.stop t).1.tracks = s.tracks ∧ (s.stop t).1.loopLength = s.loopLength := by
  unfold stop
  dsimp only
  split
  · split <;> exact ⟨rfl, rfl, rfl, rfl, rfl, rfl⟩
  · exact ⟨rfl, rfl, rfl, rfl, rfl, rfl⟩

theorem sequencer_stop_stop (s : MusicSequencer) (t u : Timers) :
    (s.stop t).1.stop u = ((s.stop t).1, u) := by
  obtain ⟨bpm, isPlaying, currentBeat, currentBar, tracks, loopLength, intervalId⟩ := s
  cases intervalId with
  | none => rfl
  | some handle =>
    by_cases h : handle = 0
    · subst h
      rfl
    · simp [stop, h]

theorem arpeggiator_stop_stop (a : Arpeggiator) (t u : Timers) :
    (a.stop t).1.stop u = ((a.stop t).1, u) := by
  obtain ⟨notes, bpm, pattern, isPlaying, currentIndex, intervalId⟩ := a
  cases intervalId with
  | none => rfl
  | some handle =>
    by_cases h : handle = 0
    · subst h
      rfl
    · simp [Arpeggiator.stop, h]

theorem controller_stop_stop (sys : System) :
    MusicController.stop (MusicController.stop sys) = MusicController.stop sys := by
  obtain ⟨webAudio, graph, timers, controller⟩ := sys
  obtain ⟨sequencer, arpeggiator, melodyGen, currentSong, isInitialized, volume, isMuted⟩ :=
    controller
  cases sequencer <;> cases arpeggiator <;>
    simp [MusicController.stop, sequencer_stop_stop, arpeggiator_stop_stop]

theorem controller_stop_pause (sys : System) :
    MusicController.stop (MusicController.pause sys) = MusicController.stop sys := by
  obtain ⟨webAudio, graph, timers, controller⟩ := sys
  obtain ⟨sequencer, arpeggiator, melodyGen, currentSong, isInitialized, volume, isMuted⟩ :=
    controller
  cases sequencer <;> cases arpeggiator <;>
    simp [MusicController.stop, MusicController.pause, sequencer_stop_stop]

theorem controller_pause_fields (sys : System) :
    (MusicController.pause sys).controller.isInitialized = sys.controller.isInitialized ∧
    (MusicController.pause sys).controller.currentSong = sys.controller.currentSong := by
  unfold MusicController.pause
  cases sys.controller.sequencer with
  | none => exact ⟨rfl, rfl⟩
  | some s => exact ⟨rfl, rfl⟩

theorem controller_stop_fields (sys : System) :
    (MusicController.stop sys).controller.isInitialized = sys.controller.isInitialized ∧
    (MusicController.stop sys).controller.currentSong = none ∧
    (∀ s, sys.controller.sequencer = some s →
      ∃ t, (MusicController.stop sys).controller.sequencer = some (s.stop t).1) ∧
    (∀ s, (MusicController.stop sys).controller.sequencer = some s → s.isPlaying = false) := by
  obtain ⟨webAudio, graph, timers, controller⟩ := sys
  obtain ⟨sequencer, arpeggiator, melodyGen, currentSong, isInitialized, volume, isMuted⟩ :=
    controller
  cases sequencer with
  | none =>
    cases arpeggiator <;> simp [MusicController.stop]
  | some s =>
    have h := (sequencer_stop_fields s timers).1
    cases arpeggiator with
    | none =>
      refine ⟨rfl, rfl, ?_, ?_⟩
      · intro s1 hs1
        simp only [Option.some.injEq] at hs1
        subst hs1
        exact ⟨timers, rfl⟩
      · intro s1 hs1
        simp only [MusicController.stop, Option.some.injEq] at hs1
        subst hs1
        exact h
    | some a =>
      refine ⟨rfl, rfl, ?_, ?_⟩
      · intro s1 hs1
        simp only [Option.some.injEq] at hs1
        subst hs1
        exact ⟨timers, rfl⟩
      · intro s1 hs1
        simp only [MusicController.stop, Option.some.injEq] at hs1
        subst hs1
        exact h

theorem controller_loadSong_harmony (s : MusicSequencer) (song : Song)
    (chords : List (List String))
    (h : CHORD_PROGRESSIONS.lookup song.chordProgression = some chords) :
    (MusicController.loadSong s song).tracks.harmony = MusicController.harmonyTrack chords := by
  unfold MusicController.loadSong
  dsimp only
  rw [h]
  rfl

theorem controller_resume_of_song (sys : System) (songKey : String) (song : Song)
    (hcur : sys.controller.currentSong = some songKey)
    (hl : SONGS.lookup songKey = some song) :
    MusicController.resume sys = (MusicController.playSong sys songKey).sys := by
  have hne : songKey ≠ "" := by
    rintro rfl
    have hnone : SONGS.lookup "" = none := by decide
    rw [hnone] at hl
    exact absurd hl (by simp)
  unfold MusicController.resume
  rw [hcur]
  dsimp only
  rw [if_pos hne]

/-- C18: for an initialized controller with a sequencer whose `currentSong` is the key `k` of
an entry of `SONGS`: `pause()` then `resume()` leaves the same state as `stop()` then
`playSong(k)`; in it `currentSong = k` and the sequencer is playing `k`'s melody, bass, drums
and harmony at `k`'s tempo, with `currentBeat = 0` and `currentBar = 0`.  After `stop()`,
`resume()` changes nothing: `currentSong` stays `null` and the sequencer stays stopped. -/
theorem pause_resume_replays (sys : System) (k : String) (song : Song) (s : MusicSequencer)
    (hinit : sys.controller.isInitialized = true)
    (hseq : sys.controller.sequencer = some s)
    (hcur : sys.controller.currentSong = some k)
    (hl : SONGS.lookup k = some song) :
    MusicController.resume (MusicController.pause sys) =
      (MusicController.playSong (MusicController.stop sys) k).sys ∧
    (MusicController.resume (MusicController.pause sys)).controller.currentSong = some k ∧
    (∃ s1, (MusicController.resume (MusicController.pause sys)).controller.sequencer = some s1 ∧
      s1.isPlaying = true ∧ s1.bpm = song.bpm ∧ s1.tracks.melody = song.melody ∧
      s1.tracks.bass = song.bass ∧ s1.tracks.drums = song.drums ∧
      (∀ chords, CHORD_PROGRESSIONS.lookup song.chordProgression = some chords →
        s1.tracks.harmony = MusicController.harmonyTrack chords) ∧
      s1.currentBeat = 0 ∧ s1.currentBar = 0) ∧
    MusicController.resume (MusicController.stop sys) = MusicController.stop sys ∧
    (MusicController.stop sys).controller.currentSong = none ∧
    (∀ s2, (MusicController.stop sys).controller.sequencer = some s2 →
      s2.isPlaying = false) := by
  obtain ⟨hpi, hpc⟩ := controller_pause_fields sys
  obtain ⟨hsi, hsc, hss, hsp⟩ := controller_stop_fields sys
  obtain ⟨t, hst⟩ := hss s hseq
  have hready : ∀ x : System, x.controller.isInitialized = true →
      MusicController.stop x = MusicController.stop sys →
      MusicController.playSong x k =
        Outcome.ok
          { MusicController.stop sys with
            timers :=
              ((MusicController.loadSong (s.stop t).1 song).start
                (MusicController.stop sys).timers).2
            controller :=
              { (MusicController.stop sys).controller with
                currentSong := some k
                sequencer :=
                  some ((MusicController.loadSong (s.stop t).1 song).start
                    (MusicController.stop sys).timers).1 } } := by
    intro x hx hxs
    rw [controller_playSong_of_ready x k song (s.stop t).1 hx hl (by rw [hxs]; exact hst),
      hxs]
  have h1 : MusicController.resume (MusicController.pause sys) =
      (MusicController.playSong (MusicController.pause sys) k).sys :=
    controller_resume_of_song _ k song (by rw [hpc]; exact hcur) hl
  have h2 := hready (MusicController.pause sys) (by rw [hpi]; exact hinit)
    (controller_stop_pause sys)
  have h3 := hready (MusicController.stop sys) (by rw [hsi]; exact hinit)
    (controller_stop_stop sys)
  obtain ⟨hp, hi, hb, hbar, -, hbpm, hmel, hbass, hdr⟩ :=
    controller_loadSong_fields (s.stop t).1 song
  obtain ⟨hplay0, hbeat0, hbar0, -⟩ := sequencer_stop_fields s t
  have hstart := sequencer_start_of_stopped (MusicController.loadSong (s.stop t).1 song)
    (MusicController.stop sys).timers (by rw [hp]; exact hplay0)
  refine ⟨by rw [h1, h2, h3], by rw [h1, h2]; rfl, ?_, ?_, hsc, hsp⟩
  · rw [h1, h2]
    refine ⟨_, rfl, ?_⟩
    rw [hstart]
    dsimp only
    exact ⟨rfl, hbpm, hmel, hbass, hdr,
      fun chords hch => controller_loadSong_harmony _ song chords hch,
      by rw [hb]; exact hbeat0, by rw [hbar]; exact hbar0⟩
  · unfold MusicController.resume
    rw [hsc]

/-- C18 at the state after `playSong('SHOP')` on a page with Web Audio. -/
theorem pause_resume_replays_witness :
    MusicController.resume
        (MusicController.pause (MusicController.playSong (System.create true) "SHOP").sys) =
      (MusicController.playSong
        (MusicController.stop (MusicController.playSong (System.create true) "SHOP").sys)
        "SHOP").sys :=
  (pause_resume_replays (MusicController.playSong (System.create true) "SHOP").sys "SHOP" _ _
    rfl rfl rfl rfl).1

/-! ## Bass notes and the `NOTES` table -/

/-- C19 fails on the code: `NOTES` has no octave 2, and the bass tracks of four songs use
`A2`, `C2`, `E2`, `F2` and `G2`.  After `playSong('NIGHT_FISHING')` the bass slot of step 0 is
`'A2'`, not a rest; `NOTES['A2']` is `undefined`, the bass block plays nothing, and the beat
consists of the melody note, the three chord tones and the kick, with no saw voice.  Every
melody identifier of every song is a key of `NOTES`. -/
theorem bass_note_missing_from_NOTES :
    NOTES.lookup "A2" = none ∧
    SONGS.filterMap (fun p =>
      if p.2.bass.all (fun n => n == "-" || (NOTES.lookup n).isSome) then none
      else some p.1) = ["NIGHT_FISHING", "STORM_FISHING", "BREEDING_LAB", "AQUARIUM"] ∧
    SONGS.all (fun p => p.2.melody.all (fun n => n == "-" || (NOTES.lookup n).isSome)) = true ∧
    ∃ s, (MusicController.playSong (System.create true) "NIGHT_FISHING").sys.controller.sequencer
        = some s ∧
      s.isPlaying = true ∧ s.currentBeat = 0 ∧
      s.tracks.bass.get? s.currentBeat = some "A2" ∧
      bassVoices (s.tracks.bass.get? s.currentBeat) = [] ∧
      playBeat s =
        [Voice.triangle 440.00 0.3 0.3, Voice.sine 220.00 0.4 0.15, Voice.sine 261.63 0.4 0.15,
         Voice.sine 329.63 0.4 0.15, Voice.kick] := by
  refine ⟨by decide, by decide, by decide, _, rfl, rfl, rfl, rfl, by decide, ?_⟩
  have hm : melodyVoices (some "A4") = [Voice.triangle 440.00 0.3 0.3] := by
    simp [melodyVoices, NOTES, List.lookup]
    norm_num
  have hh : harmonyVoices (some (some ["A3", "C4", "E4"])) =
      [Voice.sine 220.00 0.4 0.15, Voice.sine 261.63 0.4 0.15, Voice.sine 329.63 0.4 0.15] := by
    have hA3 : NOTES.lookup "A3" = some 220.00 := rfl
    have hC4 : NOTES.lookup "C4" = some 261.63 := rfl
    have hE4 : NOTES.lookup "E4" = some 329.63 := rfl
    simp only [harmonyVoices, List.filterMap_cons, List.filterMap_nil, hA3, hC4, hE4]
    norm_num
  have hb : bassVoices (some "A2") = [] := by decide
  have hd : drumVoices (some "k") = [Voice.kick] := by decide
  show melodyVoices (some "A4") ++ harmonyVoices (some (some ["A3", "C4", "E4"])) ++
    bassVoices (some "A2") ++ drumVoices (some "k") = _
  rw [hm, hh, hb, hd]
  rfl

theorem NOTES_nonzero (note : String) (freq : ℚ) (h : NOTES.lookup note = some freq) :
    freq ≠ 0 := by
  have hall : ∀ p ∈ NOTES, p.2 ≠ 0 := by
    intro p hp
    simp only [NOTES, List.mem_cons, List.mem_singleton, List.not_mem_nil, or_false] at hp
    rcases hp with h | h | h | h | h | h | h | h | h | h | h | h | h | h | h | h | h | h | h | h |
      h | h | h | h <;> rw [h] <;> norm_num
  have hmem : ∀ (l : List (String × ℚ)), l.lookup note = some freq → (note, freq) ∈ l := by
    intro l
    induction l with
    | nil => intro h; simp at h
    | cons p l ih =>
      intro h
      obtain ⟨k, v⟩ := p
      by_cases hk : note = k
      · subst hk
        simp only [List.lookup_cons, beq_self_eq_true, Option.some.injEq] at h
        subst h
        exact List.mem_cons_self _ _
      · have hb : (note == k) = false := by simpa using hk
        simp only [List.lookup_cons, hb] at h
        exact List.mem_cons_of_mem _ (ih h)
  exact hall _ (hmem NOTES h)

theorem bassVoices_of_note (note : String) (freq : ℚ) (hrest : note ≠ "-") (hne : note ≠ "")
    (h : NOTES.lookup note = some freq) :
    bassVoices (some note) = [Voice.saw (freq / 2) 0.3 0.25] := by
  simp [bassVoices, hrest, hne, h, NOTES_nonzero note freq h]

/-! ## Mute and volume -/

theorem controller_toggleMute_toggleMute (sys : System) (g : AudioGraph)
    (hg : sys.graph = some g)
    (hgain : g.musicGain = if sys.controller.isMuted then 0 else sys.controller.volume) :
    MusicController.toggleMute (MusicController.toggleMute sys) = sys := by
  obtain ⟨webAudio, graph, timers, controller⟩ := sys
  obtain ⟨sequencer, arpeggiator, melodyGen, currentSong, isInitialized, volume, isMuted⟩ :=
    controller
  obtain ⟨masterGain, musicGain, sfxGain⟩ := g
  dsimp only at hg hgain
  subst hg
  cases isMuted <;> simp_all [MusicController.toggleMute, MusicController.setMusicGain]

/-- C20 fails on the code: `setVolume(0.8)` before the first `init()` stores `volume = 0.8`
and writes no gain (there is no music bus yet); `init()` then builds the bus with gain 0.5.
In that state, not muted, `toggleMute()` twice leaves `isMuted = false` and the music bus gain
at 0.8, not at the 0.5 it had before the first call. -/
theorem toggleMute_twice_changes_gain :
    ((System.create true).calls [Call.setVolume 0.8, Call.init]).controller.isMuted = false ∧
    ((System.create true).calls [Call.setVolume 0.8, Call.init]).controller.volume = 0.8 ∧
    ((System.create true).calls [Call.setVolume 0.8, Call.init]).graph.map
      (fun g => g.musicGain) = some 0.5 ∧
    (MusicController.toggleMute (MusicController.toggleMute
      ((System.create true).calls [Call.setVolume 0.8, Call.init]))).controller.isMuted
      = false ∧
    (MusicController.toggleMute (MusicController.toggleMute
      ((System.create true).calls [Call.setVolume 0.8, Call.init]))).graph.map
      (fun g => g.musicGain) = some 0.8 ∧
    (0.8 : ℚ) ≠ 0.5 := by
  have hv : max (0 : ℚ) (min 1 0.8) = 0.8 := by norm_num
  have h0 : (System.create true).calls [Call.setVolume 0.8, Call.init] =
      { webAudio := true
        graph := some { masterGain := 0.7, musicGain := 0.5, sfxGain := 0.8 }
        timers := Timers.empty
        controller :=
          { sequencer := some (MusicSequencer.create 100)
            arpeggiator := some (Arpeggiator.create C_MAJOR_PENTA 120 "up")
            melodyGen := some (MelodyGenerator.create "C_MAJOR_PENTA")
            currentSong := none
            isInitialized := true
            volume := 0.8
            isMuted := false } } := by
    simp only [System.calls, List.foldl, System.call, MusicController.setVolume, System.create,
      MusicController.create, MusicController.setMusicGain, Outcome.sys, hv,
      MusicController.init, resumeAudio, initAudioContext, Bool.false_eq_true, if_false, if_true]
  rw [h0]
  refine ⟨rfl, rfl, rfl, rfl, ?_, by norm_num⟩
  simp [MusicController.toggleMute, MusicController.setMusicGain]

end MusicEngine

namespace TouchEngine
open GestureRecognizer

/-! ## Reel clicks -/

theorem jsRem_of_nonneg {α : Type} [LinearOrderedField α] [FloorRing α] (x : α) (hx : 0 ≤ x) :
    ReelGestureHandler.jsRem x 30 = x - 30 * (Int.floor (x / 30) : α) := by
  unfold ReelGestureHandler.jsRem
  have : (0 : α) ≤ x / 30 := div_nonneg hx (by norm_num)
  simp only [this, if_true]

theorem jsRem_lt_iff {α : Type} [LinearOrderedField α] [FloorRing α] (x y : α) (hx : 0 ≤ x) :
    ReelGestureHandler.jsRem x 30 < y ↔ ∃ k : ℤ, x - y < 30 * (k : α) ∧ 30 * (k : α) ≤ x := by
  rw [jsRem_of_nonneg x hx]
  have h30 : (0 : α) < 30 := by norm_num
  constructor
  · intro h
    refine ⟨Int.floor (x / 30), by linarith, ?_⟩
    have := Int.floor_le (x / 30)
    rw [le_div_iff₀ h30] at this
    linarith
  · rintro ⟨k, h1, h2⟩
    have hk : (k : α) ≤ x / 30 := by
      rw [le_div_iff₀ h30]
      linarith
    have hk2 : k ≤ Int.floor (x / 30) := Int.le_floor.2 hk
    have hk3 : (k : α) ≤ (Int.floor (x / 30) : α) := by exact_mod_cast hk2
    linarith

theorem jsRem_nonneg {α : Type} [LinearOrderedField α] [FloorRing α] (x : α) (hx : 0 ≤ x) :
    0 ≤ ReelGestureHandler.jsRem x 30 := by
  rw [jsRem_of_nonneg x hx]
  have h30 : (0 : α) < 30 := by norm_num
  have := Int.floor_le (x / 30)
  rw [le_div_iff₀ h30] at this
  linarith

theorem reelClick_crossing {α : Type} [LinearOrderedField α] [FloorRing α] (t d : α)
    (h : 0 ≤ (t + d) * d) :
    ReelGestureHandler.jsRem |t + d| 30 < |d| ↔
      ∃ k : ℤ, (t < 30 * (k : α) ∧ 30 * (k : α) ≤ t + d) ∨
        (t + d ≤ 30 * (k : α) ∧ 30 * (k : α) < t) := by
  rcases lt_trichotomy d 0 with hd | hd | hd
  · have ht : t + d ≤ 0 := by
      by_contra hc
      push_neg at hc
      nlinarith
    rw [jsRem_lt_iff _ _ (abs_nonneg _), abs_of_nonpos ht, abs_of_neg hd]
    constructor
    · rintro ⟨k, h1, h2⟩
      refine ⟨-k, Or.inr ⟨?_, ?_⟩⟩ <;> push_cast <;> linarith
    · rintro ⟨k, ⟨h1, h2⟩ | ⟨h1, h2⟩⟩
      · linarith
      · refine ⟨-k, ?_, ?_⟩ <;> push_cast <;> linarith
  · subst hd
    simp only [add_zero, abs_zero]
    constructor
    · intro hlt
      exact absurd hlt (not_lt.2 (jsRem_nonneg _ (abs_nonneg _)))
    · rintro ⟨k, ⟨h1, h2⟩ | ⟨h1, h2⟩⟩ <;> linarith
  · have ht : 0 ≤ t + d := by
      by_contra hc
      push_neg at hc
      nlinarith
    rw [jsRem_lt_iff _ _ (abs_nonneg _), abs_of_nonneg ht, abs_of_pos hd]
    constructor
    · rintro ⟨k, h1, h2⟩
      exact ⟨k, Or.inl ⟨by linarith, h2⟩⟩
    · rintro ⟨k, ⟨h1, h2⟩ | ⟨h1, h2⟩⟩
      · exact ⟨k, by linarith, h2⟩
      · linarith

theorem reelClick_mem {α : Type} (p : Prop) [Decidable p] (rd : ReelData α) (b : Bool) :
    ReelEffect.haptic Haptic.reelClick ∈
      (if p then [ReelEffect.haptic Haptic.reelClick] else []) ++ [ReelEffect.reelTurn rd] ++
        (if b = true then [ReelEffect.onReel rd] else []) ↔ p := by
  by_cases hp : p <;> cases b <;> simp [hp]

theorem reel_onPanMove_click {α : Type} [LinearOrderedField α] [FloorRing α] (M : JSMath α)
    (h : ReelGestureHandler α) (center : Point α) (data : MoveData α) (now : α)
    (hre : h.isReeling = true) (hc : h.centerPoint = some center) :
    ∃ h1 out, ReelGestureHandler.onPanMove M h data now = some (h1, out) ∧
      h1.totalRotation = h.totalRotation +
        ReelGestureHandler.wrapAngleDelta (getAngle M center data.position - h.lastAngle) ∧
      (ReelEffect.haptic Haptic.reelClick ∈ out ↔
        ReelGestureHandler.jsRem |h1.totalRotation| 30 <
          |h1.totalRotation - h.totalRotation|) ∧
      (0 ≤ h1.totalRotation * (h1.totalRotation - h.totalRotation) →
        (ReelEffect.haptic Haptic.reelClick ∈ out ↔
          ∃ k : ℤ, (h.totalRotation < 30 * (k : α) ∧ 30 * (k : α) ≤ h1.totalRotation) ∨
            (h1.totalRotation ≤ 30 * (k : α) ∧ 30 * (k : α) < h.totalRotation))) := by
  unfold ReelGestureHandler.onPanMove
  simp only [hre, hc, Bool.not_true, Bool.false_eq_true, if_false]
  refine ⟨_, _, rfl, rfl, ?_⟩
  simp only [add_sub_cancel_left]
  rw [reelClick_mem]
  exact ⟨Iff.rfl, fun hs => reelClick_crossing _ _ hs⟩

/-- C28 (amended): on a `panMove` of a reeling handler the `reelClick` haptic fires exactly
when `|totalRotation| % 30 < |angleDelta|`, with `totalRotation` the new accumulated value.
When the new `totalRotation` and `angleDelta` do not have opposite signs (the move did not
bring the rotation closer to 0 without reaching it), this is exactly when some integer
multiple of 30 lies between the previous `totalRotation` (exclusive) and the new one
(inclusive). -/
theorem reelClick_iff {α : Type} [LinearOrderedField α] [FloorRing α] (M : JSMath α)
    (h : ReelGestureHandler α) (center : Point α) (data : MoveData α) (now : α)
    (hre : h.isReeling = true) (hc : h.centerPoint = some center) :
    ∃ h1 out, ReelGestureHandler.onPanMove M h data now = some (h1, out) ∧
      h1.totalRotation = h.totalRotation +
        ReelGestureHandler.wrapAngleDelta (getAngle M center data.position - h.lastAngle) ∧
      (ReelEffect.haptic Haptic.reelClick ∈ out ↔
        ReelGestureHandler.jsRem |h1.totalRotation| 30 <
          |h1.totalRotation - h.totalRotation|) ∧
      (0 ≤ h1.totalRotation * (h1.totalRotation - h.totalRotation) →
        (ReelEffect.haptic Haptic.reelClick ∈ out ↔
          ∃ k : ℤ, (h.totalRotation < 30 * (k : α) ∧ 30 * (k : α) ≤ h1.totalRotation) ∨
            (h1.totalRotation ≤ 30 * (k : α) ∧ 30 * (k : α) < h.totalRotation))) :=
  reel_onPanMove_click M h center data now hre hc

/-- C28 fails as stated: a dial with centre `(50, 50)`, a reeling handler whose last raw angle
is 10 and whose `totalRotation` is 35, and a move to `(51, 50)` (raw angle 0).  The callback
takes `totalRotation` from 35 to 25, across the multiple 30, and fires no `reelClick`:
`|25| % 30 = 25` is not below `|angleDelta| = 10`. -/
theorem reelClick_missed_turning_back :
    ∃ h1 out,
      ReelGestureHandler.onPanMove realMath
        { isReeling := true, lastAngle := 10, totalRotation := 35, reelSpeed := 0,
          lastReelTime := 0, centerPoint := some { x := 50, y := 50 }, hasOnReel := false,
          gestureRecognizer := create defaultOptions }
        { position := { x := 51, y := 50 }, delta := { x := 0, y := 0 },
          totalDelta := { x := 0, y := 0 } } 1010 = some (h1, out) ∧
      h1.totalRotation = 25 ∧
      ReelEffect.haptic Haptic.reelClick ∉ out ∧
      ((25 : ℝ) ≤ 30 * ((1 : ℤ) : ℝ) ∧ 30 * ((1 : ℤ) : ℝ) < 35) := by
  have he := getAngle_realMath_east { x := 50, y := 50 } { x := 51, y := 50 }
    (by norm_num) (by norm_num)
  obtain ⟨h1, out, hrun, htot, hclick, -⟩ := reel_onPanMove_click realMath
    { isReeling := true, lastAngle := 10, totalRotation := 35, reelSpeed := 0,
      lastReelTime := 0, centerPoint := some { x := 50, y := 50 }, hasOnReel := false,
      gestureRecognizer := create defaultOptions }
    { x := 50, y := 50 }
    { position := { x := 51, y := 50 }, delta := { x := 0, y := 0 },
      totalDelta := { x := 0, y := 0 } } 1010 rfl rfl
  have hd : ReelGestureHandler.wrapAngleDelta ((0 : ℝ) - 10) = -10 := by
    simp only [ReelGestureHandler.wrapAngleDelta]
    norm_num
  dsimp only at htot hclick
  rw [he, hd] at htot
  have h25 : h1.totalRotation = 25 := by rw [htot]; norm_num
  refine ⟨h1, out, hrun, h25, ?_, by norm_num, by norm_num⟩
  rw [hclick, h25, jsRem_of_nonneg _ (abs_nonneg _)]
  have hfl : Int.floor (|(25 : ℝ)| / 30) = 0 := by
    rw [Int.floor_eq_zero_iff]
    constructor <;> norm_num
  rw [hfl]
  norm_num

/-- C28 (amended), at a concrete input: the same dial, a handler at raw angle 0 with
`totalRotation = 0`, and a move to `(49, 50)` (raw angle 180): the click fires, and 30 lies
between 0 and 180. -/
theorem reelClick_iff_witness :
    ∃ h1 out,
      ReelGestureHandler.onPanMove realMath
        { isReeling := true, lastAngle := 0, totalRotation := 0, reelSpeed := 0,
          lastReelTime := 0, centerPoint := some { x := 50, y := 50 }, hasOnReel := false,
          gestureRecognizer := create defaultOptions }
        { position := { x := 49, y := 50 }, delta := { x := -2, y := 0 },
          totalDelta := { x := -2, y := 0 } } 1010 = some (h1, out) ∧
      h1.totalRotation = 180 ∧
      ReelEffect.haptic Haptic.reelClick ∈ out := by
  have hw := getAngle_realMath_west { x := 50, y := 50 } { x := 49, y := 50 }
    (by norm_num) (by norm_num)
  obtain ⟨h1, out, hrun, htot, -, hcross⟩ := reelClick_iff realMath
    { isReeling := true, lastAngle := 0, totalRotation := 0, reelSpeed := 0,
      lastReelTime := 0, centerPoint := some { x := 50, y := 50 }, hasOnReel := false,
      gestureRecognizer := create defaultOptions }
    { x := 50, y := 50 }
    { position := { x := 49, y := 50 }, delta := { x := -2, y := 0 },
      totalDelta := { x := -2, y := 0 } } 1010 rfl rfl
  have hd : ReelGestureHandler.wrapAngleDelta ((180 : ℝ) - 0) = 180 := by
    simp only [ReelGestureHandler.wrapAngleDelta]
    norm_num
  dsimp only at htot hcross
  rw [hw, hd] at htot
  have h180 : h1.totalRotation = 180 := by rw [htot]; norm_num
  rw [h180] at hcross
  exact ⟨h1, out, hrun, h180, (hcross (by norm_num)).2 ⟨1, Or.inl ⟨by norm_num, by norm_num⟩⟩⟩

/-! ## Milestone haptics -/

theorem milestoneHaptics_spec {α : Type} [LinearOrderedField α] (p : α) :
    (CastEffect.haptic Haptic.light ∈ CastGestureHandler.milestoneHaptics p ↔
      0.5 ≤ p ∧ p < 0.55) ∧
    (CastEffect.haptic Haptic.medium ∈ CastGestureHandler.milestoneHaptics p ↔
      0.75 ≤ p ∧ p < 0.8) ∧
    (CastEffect.haptic Haptic.heavy ∈ CastGestureHandler.milestoneHaptics p ↔ 1 ≤ p) ∧
    (CastGestureHandler.milestoneHaptics p).length ≤ 1 := by
  unfold CastGestureHandler.milestoneHaptics
  have e1 : (0.55 : α) < 0.75 := by norm_num
  have e2 : (0.8 : α) < 1 := by norm_num
  split_ifs with h1 h2 h3
  · obtain ⟨ha, hb⟩ := h1
    refine ⟨by simp [ha, hb], ?_, ?_, by simp⟩
    · simp only [List.mem_singleton, CastEffect.haptic.injEq, reduceCtorEq, false_iff, not_and,
        not_lt]
      intro h
      linarith
    · simp only [List.mem_singleton, CastEffect.haptic.injEq, reduceCtorEq, false_iff, not_le]
      linarith
  · obtain ⟨ha, hb⟩ := h2
    refine ⟨?_, by simp [ha, hb], ?_, by simp⟩
    · simp only [List.mem_singleton, CastEffect.haptic.injEq, reduceCtorEq, false_iff]
      exact h1
    · simp only [List.mem_singleton, CastEffect.haptic.injEq, reduceCtorEq, false_iff, not_le]
      linarith
  · refine ⟨?_, ?_, by simpa using h3, by simp⟩
    · simp only [List.mem_singleton, CastEffect.haptic.injEq, reduceCtorEq, false_iff]
      exact h1
    · simp only [List.mem_singleton, CastEffect.haptic.injEq, reduceCtorEq, false_iff]
      exact h2
  · refine ⟨?_, ?_, ?_, by simp⟩
    · simp only [List.not_mem_nil, false_iff]
      exact h1
    · simp only [List.not_mem_nil, false_iff]
      exact h2
    · simp only [List.not_mem_nil, false_iff]
      exact h3

/-- C29 (amended): every `panMove` of a charging handler leaves the handler as it is and emits
`chargeUpdate` followed by at most one milestone haptic, chosen by the percent `p` of this
event alone: `light` iff `0.5 ≤ p < 0.55`, `medium` iff `0.75 ≤ p < 0.8`, `heavy` iff
`p ≥ 1`.  A milestone haptic therefore fires once for each `panMove` whose percent lies in
its window. -/
theorem milestone_haptic_per_panMove {α : Type} [LinearOrderedField α] (M : JSMath α)
    (h : CastGestureHandler α) (c : Point α) (data : MoveData α) (now : α)
    (hch : h.isCharging = true) (hc : h.chargeStartPosition = some c) :
    ∃ p haptics,
      p = min 1 (max ((now - h.chargeStartTime) / 1500) (getDistance M c data.position / 300)) ∧
      CastGestureHandler.onPanMove M h data now =
        some (h, CastEffect.chargeUpdate p (getDistance M c data.position)
          (getAngle M c data.position)
          (decide (getAngle M c data.position < -30 ∧ getAngle M c data.position > -150))
          data.position :: haptics) ∧
      haptics.length ≤ 1 ∧
      (∀ x ∈ haptics, x = CastEffect.haptic Haptic.light ∨ x = CastEffect.haptic Haptic.medium ∨
        x = CastEffect.haptic Haptic.heavy) ∧
      (CastEffect.haptic Haptic.light ∈ haptics ↔ 0.5 ≤ p ∧ p < 0.55) ∧
      (CastEffect.haptic Haptic.medium ∈ haptics ↔ 0.75 ≤ p ∧ p < 0.8) ∧
      (CastEffect.haptic Haptic.heavy ∈ haptics ↔ 1 ≤ p) := by
  obtain ⟨hl, hm, hh, hlen⟩ := milestoneHaptics_spec
    (CastGestureHandler.chargePercent (now - h.chargeStartTime) (getDistance M c data.position))
  refine ⟨_, _, rfl, CastGestureHandler.onPanMove_of_charging M h data now c hch hc, hlen, ?_,
    hl, hm, hh⟩
  intro x hx
  unfold CastGestureHandler.milestoneHaptics at hx
  split_ifs at hx <;> simp at hx <;> simp [hx]

/-- C29 fails as stated: a charge started at time 1000 with the finger held at the origin and
two `panMove` events at times 1750 and 1760.  Their percents are `1/2` and `38/75`, both in
`[0.5, 0.55)`, and each of the two events fires the `light` haptic, within one charge. -/
theorem light_haptic_fires_twice :
    ∃ out1 out2,
      CastGestureHandler.onPanMove realMath (chargingCast 1000) (movedTo 0 0 0 0) 1750 =
        some (chargingCast 1000, out1) ∧
      CastGestureHandler.onPanMove realMath (chargingCast 1000) (movedTo 0 0 0 0) 1760 =
        some (chargingCast 1000, out2) ∧
      out1.filterMap CastEffect.percent = [1 / 2] ∧
      out2.filterMap CastEffect.percent = [38 / 75] ∧
      CastEffect.haptic Haptic.light ∈ out1 ∧
      CastEffect.haptic Haptic.light ∈ out2 := by
  have hd : getDistance realMath { x := 0, y := 0 } (movedTo (0 : ℝ) 0 0 0).position = 0 := by
    show getDistance realMath { x := 0, y := 0 } { x := 0, y := 0 } = 0
    rw [getDistance_self, realMath_sqrt_zero]
  have hp1 : CastGestureHandler.chargePercent ((1750 : ℝ) - (chargingCast 1000).chargeStartTime)
      (getDistance realMath { x := 0, y := 0 } (movedTo (0 : ℝ) 0 0 0).position) = 1 / 2 := by
    rw [hd]
    simp only [chargingCast, CastGestureHandler.onTouchStart, CastGestureHandler.chargePercent,
      CastGestureHandler.maxChargeTime, CastGestureHandler.maxChargeDistance]
    norm_num
  have hp2 : CastGestureHandler.chargePercent ((1760 : ℝ) - (chargingCast 1000).chargeStartTime)
      (getDistance realMath { x := 0, y := 0 } (movedTo (0 : ℝ) 0 0 0).position) = 38 / 75 := by
    rw [hd]
    simp only [chargingCast, CastGestureHandler.onTouchStart, CastGestureHandler.chargePercent,
      CastGestureHandler.maxChargeTime, CastGestureHandler.maxChargeDistance]
    norm_num
  have h1 := CastGestureHandler.onPanMove_of_charging realMath (chargingCast 1000)
    (movedTo 0 0 0 0) 1750 { x := 0, y := 0 } rfl rfl
  have h2 := CastGestureHandler.onPanMove_of_charging realMath (chargingCast 1000)
    (movedTo 0 0 0 0) 1760 { x := 0, y := 0 } rfl rfl
  rw [hp1] at h1
  rw [hp2] at h2
  refine ⟨_, _, h1, h2, ?_, ?_, ?_, ?_⟩
  · simp [List.filterMap_cons, CastEffect.percent, percent_milestoneHaptics]
  · simp [List.filterMap_cons, CastEffect.percent, percent_milestoneHaptics]
  · exact List.mem_cons_of_mem _
      ((milestoneHaptics_spec (1 / 2 : ℝ)).1.2 ⟨by norm_num, by norm_num⟩)
  · exact List.mem_cons_of_mem _
      ((milestoneHaptics_spec (38 / 75 : ℝ)).1.2 ⟨by norm_num, by norm_num⟩)

/-- C29 (amended), at a concrete input: the `panMove` at time 1750 of a charge started at
time 1000. -/
theorem milestone_haptic_per_panMove_witness :
    ∃ p haptics,
      CastGestureHandler.onPanMove realMath (chargingCast 1000) (movedTo 0 0 0 0) 1750 =
        some (chargingCast 1000, CastEffect.chargeUpdate p
          (getDistance realMath { x := 0, y := 0 } (movedTo (0 : ℝ) 0 0 0).position)
          (getAngle realMath { x := 0, y := 0 } (movedTo (0 : ℝ) 0 0 0).position)
          (decide (getAngle realMath { x := 0, y := 0 } (movedTo (0 : ℝ) 0 0 0).position < -30 ∧
            getAngle realMath { x := 0, y := 0 } (movedTo (0 : ℝ) 0 0 0).position > -150))
          (movedTo (0 : ℝ) 0 0 0).position :: haptics) ∧
      haptics.length ≤ 1 := by
  obtain ⟨p, haptics, -, hrun, hlen, -⟩ := milestone_haptic_per_panMove realMath
    (chargingCast 1000) { x := 0, y := 0 } (movedTo 0 0 0 0) 1750 rfl rfl
  exact ⟨p, haptics, hrun, hlen⟩

/-! ## Bursts of taps on a TapReelHandler -/

theorem tapReel_deliver_spec {α : Type} [LinearOrderedField α] (now : α)
    (out : List (Effect α)) (h : TapReelHandler α) :
    (TapReelHandler.deliver now h out).1.gestureRecognizer = h.gestureRecognizer ∧
    (TapReelHandler.deliver now h out).1.tapCount =
      h.tapCount + (out.countP (fun x => x.emits EventName.tap) : Nat) := by
  induction out generalizing h with
  | nil => simp [TapReelHandler.deliver]
  | cons x rest ih =>
    cases x with
    | emit e =>
      have hstep : (TapReelHandler.onEvent h now e).1.gestureRecognizer = h.gestureRecognizer ∧
          (TapReelHandler.onEvent h now e).1.tapCount =
            h.tapCount + (if e.name = EventName.tap then 1 else 0) := by
        cases e <;> simp [TapReelHandler.onEvent, TapReelHandler.onTap]
      obtain ⟨h1, h2⟩ := ih (TapReelHandler.onEvent h now e).1
      simp only [TapReelHandler.deliver]
      rw [h1, h2, hstep.1, hstep.2]
      refine ⟨rfl, ?_⟩
      by_cases hn : e.name = EventName.tap
      · simp [hn, List.countP_cons]
        omega
      · simp [hn, List.countP_cons]
    | haptic k =>
      obtain ⟨h1, h2⟩ := ih h
      simp only [TapReelHandler.deliver]
      rw [h1, h2]
      simp [List.countP_cons]
    | preventDefault =>
      obtain ⟨h1, h2⟩ := ih h
      simp only [TapReelHandler.deliver]
      rw [h1, h2]
      simp [List.countP_cons]

theorem tapReel_run_spec {α : Type} [LinearOrderedField α] (M : JSMath α)
    (l : List (α × Input α)) (h : TapReelHandler α) (r : GestureRecognizer α)
    (out : List (Effect α)) (hrun : run M h.gestureRecognizer l = some (r, out)) :
    ∃ h1 eff, TapReelHandler.run M h l = some (h1, eff) ∧ h1.gestureRecognizer = r ∧
      h1.tapCount = h.tapCount + (out.countP (fun x => x.emits EventName.tap) : Nat) := by
  induction l generalizing h r out with
  | nil =>
    simp only [run, Option.some.injEq, Prod.mk.injEq] at hrun
    obtain ⟨rfl, rfl⟩ := hrun
    exact ⟨h, [], rfl, rfl, by simp⟩
  | cons x rest ih =>
    obtain ⟨now, i⟩ := x
    simp only [run] at hrun
    cases hd : dispatch M h.gestureRecognizer now i with
    | none => simp [hd] at hrun
    | some res =>
      obtain ⟨r1, o1⟩ := res
      simp only [hd] at hrun
      cases hr : run M r1 rest with
      | none => simp [hr] at hrun
      | some res2 =>
        obtain ⟨r2, o2⟩ := res2
        simp only [hr, Option.some.injEq, Prod.mk.injEq] at hrun
        obtain ⟨rfl, rfl⟩ := hrun
        obtain ⟨hg, hc⟩ := tapReel_deliver_spec now o1 { h with gestureRecognizer := r1 }
        obtain ⟨h2, eff2, hrun2, hg2, hc2⟩ :=
          ih (TapReelHandler.deliver now { h with gestureRecognizer := r1 } o1).1 r2 o2
            (by rw [hg]; exact hr)
        refine ⟨h2, (TapReelHandler.deliver now { h with gestureRecognizer := r1 } o1).2 ++ eff2,
          ?_, hg2, ?_⟩
        · simp only [TapReelHandler.run, TapReelHandler.dispatch, hd, hrun2]
        · rw [hc2, hc, List.countP_append]
          push_cast
          ring

theorem countP_tap_of_filter {α : Type} (out : List (Effect α)) :
    out.countP (fun x => x.emits EventName.tap) =
      (out.filter (fun x => x.emits EventName.tap || x.emits EventName.doubleTap)).countP
        (fun x => x.emits EventName.tap) := by
  rw [List.countP_filter]
  congr 1
  funext x
  cases x.emits EventName.tap <;> simp

theorem countP_doubleTap_of_filter {α : Type} (out : List (Effect α)) :
    out.countP (fun x => x.emits EventName.doubleTap) =
      (out.filter (fun x => x.emits EventName.tap || x.emits EventName.doubleTap)).countP
        (fun x => x.emits EventName.doubleTap) := by
  rw [List.countP_filter]
  congr 1
  funext x
  cases x.emits EventName.doubleTap <;> simp

theorem burst_run {α : Type} [LinearOrderedField α] (M : JSMath α) (o : Options α)
    (hsqrt : M.sqrt 0 < o.tapThreshold) (hlp : o.tapTimeout ≤ o.longPressTimeout)
    (l : List (TapGesture α)) :
    ∀ (r : GestureRecognizer α) (prev : α), r.options = o → r.pending = [] →
      IsBurst o prev l →
      (r.state.lastTapTime = prev →
        ∃ r1 out, run M r (burstInputs l) = some (r1, out) ∧
          out.countP (fun x => x.emits EventName.tap) = l.length / 2 ∧
          out.countP (fun x => x.emits EventName.doubleTap) = (l.length + 1) / 2) ∧
      (r.state.lastTapTime = 0 →
        ∃ r1 out, run M r (burstInputs l) = some (r1, out) ∧
          out.countP (fun x => x.emits EventName.tap) = (l.length + 1) / 2 ∧
          out.countP (fun x => x.emits EventName.doubleTap) = l.length / 2) := by
  induction l with
  | nil =>
    intro r prev _ _ _
    exact ⟨fun _ => ⟨r, [], rfl, by simp, by simp⟩, fun _ => ⟨r, [], rfl, by simp, by simp⟩⟩
  | cons g rest ih =>
    intro r prev hopt hp hb
    obtain ⟨hdur, hclock, hnear, hrest⟩ := hb
    obtain ⟨r2, out, hrun, hp2, hopt2, hdouble, htap⟩ :=
      still_tap_session M r g.event g.start g.finish hp
        (by rw [hopt]; linarith) (by rw [hopt]; exact hsqrt) (by rw [hopt]; exact hdur)
    rw [hopt] at hopt2 hdouble htap
    obtain ⟨iharmed, ihfresh⟩ := ih r2 g.finish hopt2 hp2 hrest
    have happ : ∀ r3 out3, run M r2 (burstInputs rest) = some (r3, out3) →
        run M r (burstInputs (g :: rest)) = some (r3, out ++ out3) := by
      intro r3 out3 h3
      exact run_append M [(g.start, Input.touchstart g.event), (g.finish, Input.touchend)]
        (burstInputs rest) r r2 r3 out out3 hrun h3
    constructor
    · intro hlast
      obtain ⟨hl0, hf⟩ := hdouble (by rw [hlast]; exact hnear)
      obtain ⟨r3, out3, h3, hc3, hd3⟩ := ihfresh hl0
      refine ⟨r3, out ++ out3, happ r3 out3 h3, ?_, ?_⟩
      · rw [List.countP_append, hc3, countP_tap_of_filter out, hf]
        simp only [List.countP_cons, List.countP_nil, emits_emit, name_doubleTap,
          List.length_cons]
        simp
      · rw [List.countP_append, hd3, countP_doubleTap_of_filter out, hf]
        simp only [List.countP_cons, List.countP_nil, emits_emit, name_doubleTap,
          List.length_cons]
        simp
        omega
    · intro hlast
      obtain ⟨hl0, hf⟩ := htap (by rw [hlast]; simp only [sub_zero]; exact not_lt.2 hclock)
      obtain ⟨r3, out3, h3, hc3, hd3⟩ := iharmed hl0
      refine ⟨r3, out ++ out3, happ r3 out3 h3, ?_, ?_⟩
      · rw [List.countP_append, hc3, countP_tap_of_filter out, hf]
        simp only [List.countP_cons, List.countP_nil, emits_emit, name_tap, List.length_cons]
        simp
        omega
      · rw [List.countP_append, hd3, countP_doubleTap_of_filter out, hf]
        simp only [List.countP_cons, List.countP_nil, emits_emit, name_tap, List.length_cons]
        simp

/-- C30: a `TapReelHandler` whose recognizer has no pending timer, with `Math.sqrt(0)` below
`tapThreshold` and `tapTimeout ≤ longPressTimeout` (as for the default options).  A burst of
`n` motionless gestures, each shorter than `tapTimeout`, the first ending not less than
`doubleTapTimeout` after `lastTapTime`, each later one ending at a clock value of at least
`doubleTapTimeout` and less than `doubleTapTimeout` after the one before: the recognizer
emits `ceil(n / 2)` `tap` and `floor(n / 2)` `doubleTap` events, and the handler raises
`tapCount` by exactly `ceil(n / 2)`. -/
theorem tapCount_after_burst {α : Type} [LinearOrderedField α] (M : JSMath α)
    (h : TapReelHandler α) (g : TapGesture α) (rest : List (TapGesture α))
    (hsqrt : M.sqrt 0 < h.gestureRecognizer.options.tapThreshold)
    (hlp : h.gestureRecognizer.options.tapTimeout ≤
      h.gestureRecognizer.options.longPressTimeout)
    (hp : h.gestureRecognizer.pending = [])
    (hdur : g.finish - g.start < h.gestureRecognizer.options.tapTimeout)
    (hfirst : ¬ g.finish - h.gestureRecognizer.state.lastTapTime <
      h.gestureRecognizer.options.doubleTapTimeout)
    (hburst : IsBurst h.gestureRecognizer.options g.finish rest) :
    ∃ r out h1 eff,
      run M h.gestureRecognizer (burstInputs (g :: rest)) = some (r, out) ∧
      out.countP (fun x => x.emits EventName.tap) = ((g :: rest).length + 1) / 2 ∧
      out.countP (fun x => x.emits EventName.doubleTap) = (g :: rest).length / 2 ∧
      TapReelHandler.run M h (burstInputs (g :: rest)) = some (h1, eff) ∧
      h1.gestureRecognizer = r ∧
      h1.tapCount = h.tapCount + ((((g :: rest).length + 1) / 2 : Nat) : Int) := by
  obtain ⟨r2, out, hrun, hp2, hopt2, -, htap⟩ :=
    still_tap_session M h.gestureRecognizer g.event g.start g.finish hp
      (by linarith) hsqrt hdur
  obtain ⟨hl0, hf⟩ := htap hfirst
  obtain ⟨r3, out3, h3, hc3, hd3⟩ := (burst_run M h.gestureRecognizer.options hsqrt hlp rest
    r2 g.finish hopt2 hp2 hburst).1 hl0
  have happ := run_append M [(g.start, Input.touchstart g.event), (g.finish, Input.touchend)]
    (burstInputs rest) h.gestureRecognizer r2 r3 out out3 hrun h3
  obtain ⟨h1, eff, hr, hg, hc⟩ := tapReel_run_spec M (burstInputs (g :: rest)) h r3
    (out ++ out3) happ
  have hcount : (out ++ out3).countP (fun x => x.emits EventName.tap) =
      ((g :: rest).length + 1) / 2 := by
    rw [List.countP_append, hc3, countP_tap_of_filter out, hf]
    simp only [List.countP_cons, List.countP_nil, emits_emit, name_tap, List.length_cons]
    simp
    omega
  refine ⟨r3, out ++ out3, h1, eff, happ, hcount, ?_, hr, hg, ?_⟩
  · rw [List.countP_append, hd3, countP_doubleTap_of_filter out, hf]
    simp only [List.countP_cons, List.countP_nil, emits_emit, name_tap, List.length_cons]
    simp
  · rw [hc, hcount]

/-- C30 on a new handler over the reals: three motionless gestures ending at 1000, 1200 and
1400 raise `tapCount` from 0 to 2. -/
theorem tapCount_after_burst_witness :
    ∃ h1 eff,
      TapReelHandler.run realMath (TapReelHandler.create false)
        (burstInputs
          [{ event := oneFinger, start := 950, finish := 1000 },
           { event := oneFinger, start := 1150, finish := 1200 },
           { event := oneFinger, start := 1350, finish := 1400 }]) = some (h1, eff) ∧
      h1.tapCount = 2 := by
  obtain ⟨r, out, h1, eff, -, -, -, hrun, -, hc⟩ := tapCount_after_burst realMath
    (TapReelHandler.create false)
    { event := oneFinger, start := 950, finish := 1000 }
    [{ event := oneFinger, start := 1150, finish := 1200 },
     { event := oneFinger, start := 1350, finish := 1400 }]
    (by rw [realMath_sqrt_zero]; norm_num [TapReelHandler.create, create, defaultOptions])
    (by norm_num [TapReelHandler.create, create, defaultOptions])
    rfl
    (by norm_num [TapReelHandler.create, create, defaultOptions])
    (by norm_num [TapReelHandler.create, create, defaultOptions, initialState])
    (by
      simp only [IsBurst, TapReelHandler.create, create, defaultOptions]
      norm_num)
  exact ⟨h1, eff, hrun, by rw [hc]; rfl⟩

end TouchEngine

namespace MusicEngine
open MusicSequencer

/-! ## Mute, volume and the music bus -/

/-- C21 fails on the code: on a page with Web Audio, `toggleMute()` before the first `init()`
sets `isMuted` and writes no gain (there is no music bus yet); `init()` then builds the bus
with gain 0.5.  The state reached has a music bus, `isMuted = true` and bus gain 0.5, not 0. -/
theorem muted_bus_gain_after_init :
    ((System.create true).calls [Call.toggleMute, Call.init]).controller.isMuted = true ∧
    ((System.create true).calls [Call.toggleMute, Call.init]).graph.map
      (fun g => g.musicGain) = some 0.5 ∧
    (0.5 : ℚ) ≠ 0 := by
  have h0 : (System.create true).calls [Call.toggleMute, Call.init] =
      { webAudio := true
        graph := some { masterGain := 0.7, musicGain := 0.5, sfxGain := 0.8 }
        timers := Timers.empty
        controller :=
          { sequencer := some (MusicSequencer.create 100)
            arpeggiator := some (Arpeggiator.create C_MAJOR_PENTA 120 "up")
            melodyGen := some (MelodyGenerator.create "C_MAJOR_PENTA")
            currentSong := none
            isInitialized := true
            volume := 0.5
            isMuted := true } } := by
    simp only [System.calls, List.foldl, System.call, MusicController.toggleMute, System.create,
      MusicController.create, MusicController.setMusicGain, Outcome.sys,
      MusicController.init, resumeAudio, initAudioContext, Bool.false_eq_true, if_false, if_true,
      Bool.not_false]
  rw [h0]
  exact ⟨rfl, rfl, by norm_num⟩

/-- C22: `setVolume(v)` stores `volume = max(0, min(1, v))`, which lies in `[0, 1]` and is `v`
itself when `0 ≤ v ≤ 1`; it changes nothing else of the controller; when the music bus exists
its gain afterwards is the stored volume if not muted and 0 if muted, and when it does not
exist there is still none. -/
theorem setVolume_clamps (sys : System) (v : ℚ) :
    (MusicController.setVolume sys v).controller =
      { sys.controller with volume := max 0 (min 1 v) } ∧
    0 ≤ (MusicController.setVolume sys v).controller.volume ∧
    (MusicController.setVolume sys v).controller.volume ≤ 1 ∧
    (0 ≤ v → v ≤ 1 → (MusicController.setVolume sys v).controller.volume = v) ∧
    (∀ g, sys.graph = some g →
      (MusicController.setVolume sys v).graph =
        some { g with
          musicGain :=
            if sys.controller.isMuted = true then 0
            else (MusicController.setVolume sys v).controller.volume }) ∧
    (sys.graph = none → (MusicController.setVolume sys v).graph = none) := by
  have hc : (MusicController.setVolume sys v).controller =
      { sys.controller with volume := max 0 (min 1 v) } := by
    unfold MusicController.setVolume MusicController.setMusicGain
    dsimp only
    cases sys.graph <;> rfl
  refine ⟨hc, ?_, ?_, ?_, ?_, ?_⟩
  · rw [hc]
    exact le_max_left _ _
  · rw [hc]
    exact max_le (by norm_num) (min_le_left _ _)
  · intro h0 h1
    rw [hc]
    show max 0 (min 1 v) = v
    rw [min_eq_right h1, max_eq_right h0]
  · intro g hg
    rw [hc]
    unfold MusicController.setVolume MusicController.setMusicGain
    dsimp only
    rw [hg]
  · intro hg
    unfold MusicController.setVolume MusicController.setMusicGain
    dsimp only
    rw [hg]

/-- C22 after `init()` on a page with Web Audio: `setVolume(1.5)` stores 1 and writes 1 to the
music bus. -/
theorem setVolume_clamps_witness :
    (MusicController.setVolume (MusicController.init (System.create true)).sys 1.5).graph =
      some { masterGain := 0.7, musicGain := 1, sfxGain := 0.8 } := by
  have h := (setVolume_clamps (MusicController.init (System.create true)).sys 1.5).2.2.2.2.1
    { masterGain := 0.7, musicGain := 0.5, sfxGain := 0.8 } rfl
  have hc := (setVolume_clamps (MusicController.init (System.create true)).sys 1.5).1
  rw [h, hc]
  have hv : max (0 : ℚ) (min 1 1.5) = 1 := by norm_num
  simp only [hv]
  rfl

/-! ## Sound effects -/

theorem sfxVoices_lengths :
    MusicController.sfxTypes.map (fun t => (MusicController.sfxVoices t).map List.length) =
      [some 4, some 10, some 3, some 2, some 1, some 1, some 7, some 2, some 1, some 1, some 2,
       some 10, some 7, some 5] := by
  decide

theorem sfxVoices_of_not_mem (type : String) (h : type ∉ MusicController.sfxTypes) :
    MusicController.sfxVoices type = none := by
  simp only [MusicController.sfxTypes, List.mem_cons, List.mem_singleton, List.not_mem_nil,
    or_false, not_or] at h
  obtain ⟨h1, h2, h3, h4, h5, h6, h7, h8, h9, h10, h11, h12, h13, h14⟩ := h
  simp only [MusicController.sfxVoices, h1, h2, h3, h4, h5, h6, h7, h8, h9, h10, h11, h12, h13,
    h14, if_false]

theorem sfxVoices_of_mem (type : String) (h : type ∈ MusicController.sfxTypes) :
    ∃ l, MusicController.sfxVoices type = some l ∧ 1 ≤ l.length ∧ l.length ≤ 10 := by
  have hall : ∀ t ∈ MusicController.sfxTypes,
      ∃ n, (MusicController.sfxVoices t).map List.length = some n ∧ 1 ≤ n ∧ n ≤ 10 := by
    decide
  obtain ⟨n, hn, h1, h2⟩ := hall type h
  cases hv : MusicController.sfxVoices type with
  | none => rw [hv] at hn; simp at hn
  | some l =>
    rw [hv] at hn
    simp only [Option.map_some', Option.some.injEq] at hn
    exact ⟨l, rfl, by omega, by omega⟩

theorem playSFX_voices (sys : System) (type : String)
    (hok : (MusicController.playSFX sys type).1.isOk = true) :
    (MusicController.playSFX sys type).2 = (MusicController.sfxVoices type).getD [] := by
  unfold MusicController.playSFX at hok ⊢
  cases hi : MusicController.init sys with
  | throws sys1 =>
    rw [hi] at hok
    simp [Outcome.isOk] at hok
  | ok sys1 => rfl

/-- C23 (amended): when `playSFX(type)` returns (its `init()` succeeded), the voice calls it
makes, immediately or in its `setTimeout` callbacks, number between 1 and 10 for each of the
fourteen types that have a case in the `switch`, and none for any other type. -/
theorem playSFX_voice_count (sys : System) (type : String)
    (hok : (MusicController.playSFX sys type).1.isOk = true) :
    (type ∈ MusicController.sfxTypes →
      1 ≤ (MusicController.playSFX sys type).2.length ∧
      (MusicController.playSFX sys type).2.length ≤ 10) ∧
    (type ∉ MusicController.sfxTypes → (MusicController.playSFX sys type).2 = []) := by
  rw [playSFX_voices sys type hok]
  constructor
  · intro h
    obtain ⟨l, hl, h1, h2⟩ := sfxVoices_of_mem type h
    rw [hl]
    exact ⟨h1, h2⟩
  · intro h
    rw [sfxVoices_of_not_mem type h]
    rfl

/-- C23 fails as stated: on a page with Web Audio `playSFX('perfect')` returns and makes 10
voice calls, two `createSineSynth` calls for each of its five notes. -/
theorem playSFX_perfect_ten_voices :
    "perfect" ∈ MusicController.sfxTypes ∧
    (MusicController.playSFX (System.create true) "perfect").1.isOk = true ∧
    (MusicController.playSFX (System.create true) "perfect").2.length = 10 ∧
    ¬ (10 ≤ 7) := by
  refine ⟨by decide, rfl, ?_, by decide⟩
  rw [playSFX_voices (System.create true) "perfect" rfl]
  decide

/-- C23 (amended) on a page with Web Audio: `playSFX('cast')` makes between 1 and 10 voice
calls. -/
theorem playSFX_voice_count_witness :
    1 ≤ (MusicController.playSFX (System.create true) "cast").2.length ∧
    (MusicController.playSFX (System.create true) "cast").2.length ≤ 10 :=
  (playSFX_voice_count (System.create true) "cast" rfl).1 (by decide)

/-! ## A page without Web Audio -/

/-- C27 fails on the code: on a page with neither `window.AudioContext` nor
`window.webkitAudioContext`, `init()` throws (its promise is rejected) and leaves the state as
it was, and so do `playSong('MENU_THEME')` and `playSFX('catch')`, which await `init()` first
and make no voice call.  `stop`, `pause`, `resume`, `setVolume`, `toggleMute` and
`getCurrentSongInfo` return. -/
theorem init_throws_without_webAudio :
    MusicController.init (System.create false) = Outcome.throws (System.create false) ∧
    MusicController.playSong (System.create false) "MENU_THEME" =
      Outcome.throws (System.create false) ∧
    MusicController.playSFX (System.create false) "catch" =
      (Outcome.throws (System.create false), []) ∧
    MusicController.stop (System.create false) = System.create false ∧
    MusicController.pause (System.create false) = System.create false ∧
    MusicController.resume (System.create false) = System.create false ∧
    (MusicController.setVolume (System.create false) 0.8).graph = none ∧
    (MusicController.toggleMute (System.create false)).graph = none ∧
    MusicController.getCurrentSongInfo (System.create false) = none := by
  have hi : MusicController.init (System.create false) = Outcome.throws (System.create false) :=
    rfl
  refine ⟨hi, ?_, ?_, rfl, rfl, rfl, rfl, rfl, rfl⟩
  · unfold MusicController.playSong
    rw [hi]
  · unfold MusicController.playSFX
    rw [hi]

theorem init_ok_of_webAudio (sys : System) (h : sys.webAudio = true) :
    (MusicController.init sys).isOk = true := by
  unfold MusicController.init resumeAudio initAudioContext
  split
  · rfl
  · cases sys.graph with
    | some g => rfl
    | none => simp [h, Outcome.isOk]

/-! ## Arpeggiator -/

theorem elementAt_natCast {β : Type} (l : List β) (n : Nat) :
    elementAt l (n : Int) = l.get? n := by
  simp [elementAt]

theorem getNextNote_up (a : Arpeggiator) (random : ℚ) (hp : a.pattern = "up")
    (hn : a.notes ≠ []) :
    a.getNextNote random =
      ({ a with currentIndex := a.currentIndex + 1 },
        a.notes.get? (a.currentIndex % a.notes.length)) ∧
    a.currentIndex % a.notes.length < a.notes.length := by
  have hlen : 0 < a.notes.length := List.length_pos.2 hn
  have hne : ¬ ((a.notes.length : Int) = 0) := by omega
  refine ⟨?_, Nat.mod_lt _ hlen⟩
  unfold Arpeggiator.getNextNote
  simp only [hp, if_true, hne, if_false]
  rw [← Int.natCast_mod, elementAt_natCast]

theorem getNextNote_down (a : Arpeggiator) (random : ℚ) (hp : a.pattern = "down")
    (hn : a.notes ≠ []) :
    a.getNextNote random =
      ({ a with currentIndex := a.currentIndex + 1 },
        a.notes.get? (a.notes.length - 1 - a.currentIndex % a.notes.length)) ∧
    a.notes.length - 1 - a.currentIndex % a.notes.length < a.notes.length := by
  have hlen : 0 < a.notes.length := List.length_pos.2 hn
  have hne : ¬ ((a.notes.length : Int) = 0) := by omega
  have hmod := Nat.mod_lt a.currentIndex hlen
  refine ⟨?_, by omega⟩
  unfold Arpeggiator.getNextNote
  have h1 : ¬ ("down" = "up") := by decide
  simp only [hp, h1, if_true, hne, if_false]
  rw [← Int.natCast_mod]
  have hcast : ((a.notes.length : Int) - 1 - ((a.currentIndex % a.notes.length : Nat) : Int)) =
      ((a.notes.length - 1 - a.currentIndex % a.notes.length : Nat) : Int) := by omega
  rw [hcast, elementAt_natCast]

theorem getNextNote_updown (a : Arpeggiator) (random : ℚ) (hp : a.pattern = "updown")
    (hn : 2 ≤ a.notes.length) :
    a.getNextNote random =
      ({ a with currentIndex := a.currentIndex + 1 },
        a.notes.get?
          (if a.currentIndex % (a.notes.length * 2 - 2) < a.notes.length
           then a.currentIndex % (a.notes.length * 2 - 2)
           else a.notes.length * 2 - 2 - a.currentIndex % (a.notes.length * 2 - 2))) ∧
    (if a.currentIndex % (a.notes.length * 2 - 2) < a.notes.length
     then a.currentIndex % (a.notes.length * 2 - 2)
     else a.notes.length * 2 - 2 - a.currentIndex % (a.notes.length * 2 - 2)) <
      a.notes.length := by
  have hc : 0 < a.notes.length * 2 - 2 := by omega
  have hmod := Nat.mod_lt a.currentIndex hc
  constructor
  · unfold Arpeggiator.getNextNote
    have h1 : ¬ ("updown" = "up") := by decide
    have h2 : ¬ ("updown" = "down") := by decide
    have hcyc : ((a.notes.length : Int) * 2 - 2) = ((a.notes.length * 2 - 2 : Nat) : Int) := by
      omega
    have hne : ¬ (((a.notes.length * 2 - 2 : Nat) : Int) = 0) := by omega
    simp only [hp, h1, h2, if_true, if_false, hcyc, hne]
    rw [← Int.natCast_mod]
    by_cases hlt : a.currentIndex % (a.notes.length * 2 - 2) < a.notes.length
    · have hlt2 : ((a.currentIndex % (a.notes.length * 2 - 2) : Nat) : Int) <
          (a.notes.length : Int) := by exact_mod_cast hlt
      simp only [hlt, hlt2, if_true]
      rw [elementAt_natCast]
    · have hlt2 : ¬ ((a.currentIndex % (a.notes.length * 2 - 2) : Nat) : Int) <
          (a.notes.length : Int) := by exact_mod_cast hlt
      simp only [hlt, hlt2, if_false]
      have hcast : (((a.notes.length * 2 - 2 : Nat) : Int) -
            ((a.currentIndex % (a.notes.length * 2 - 2) : Nat) : Int)) =
          ((a.notes.length * 2 - 2 - a.currentIndex % (a.notes.length * 2 - 2) : Nat) : Int) := by
        omega
      rw [hcast, elementAt_natCast]
  · split <;> omega

/-- C24 fails on the code: an arpeggiator over the one-note list `['C4']` with pattern
`'updown'`.  The cycle length is `1 * 2 - 2 = 0`, `currentIndex % 0` is `NaN`, and
`getNextNote()` returns `undefined` on every call, not `'C4'`; with pattern `'up'` or
`'down'` the same list gives `'C4'`. -/
theorem getNextNote_updown_single_note :
    (Arpeggiator.nextNotes (fun _ => 0) (Arpeggiator.create ["C4"] 120 "updown") 3).2 =
      [none, none, none] ∧
    (Arpeggiator.nextNotes (fun _ => 0) (Arpeggiator.create ["C4"] 120 "up") 3).2 =
      [some "C4", some "C4", some "C4"] ∧
    (Arpeggiator.nextNotes (fun _ => 0) (Arpeggiator.create ["C4"] 120 "down") 3).2 =
      [some "C4", some "C4", some "C4"] := by
  refine ⟨?_, ?_, ?_⟩ <;> rfl

/-! ## Melody generation -/

theorem lookup_mem {β : Type} (key : String) (value : β) (l : List (String × β))
    (h : l.lookup key = some value) : (key, value) ∈ l := by
  induction l with
  | nil => simp at h
  | cons p l ih =>
    obtain ⟨k, v⟩ := p
    by_cases hk : key = k
    · subst hk
      simp only [List.lookup_cons, beq_self_eq_true, Option.some.injEq] at h
      subst h
      exact List.mem_cons_self _ _
    · have hb : (key == k) = false := by simpa using hk
      simp only [List.lookup_cons, hb] at h
      exact List.mem_cons_of_mem _ (ih h)

theorem melodyPattern_length (pattern : String) :
    ((MELODY_PATTERNS.lookup pattern).getD BOUNCE).length = 8 := by
  cases h : MELODY_PATTERNS.lookup pattern with
  | none => rfl
  | some p =>
    have hall : ∀ q ∈ MELODY_PATTERNS, q.2.length = 8 := by decide
    exact hall _ (lookup_mem pattern p MELODY_PATTERNS h)

theorem clampIndex_range (g : MelodyGenerator) (index : Int) (hN : g.scale ≠ []) :
    0 ≤ g.clampIndex index ∧ (g.clampIndex index).toNat < g.scale.length ∧
    elementAt g.scale (g.clampIndex index) = g.scale.get? (g.clampIndex index).toNat := by
  have hlen : 0 < g.scale.length := List.length_pos.2 hN
  have h0 : 0 ≤ g.clampIndex index := le_max_left _ _
  have h1 : g.clampIndex index ≤ (g.scale.length : Int) - 1 :=
    max_le (by omega) (min_le_left _ _)
  refine ⟨h0, by omega, ?_⟩
  simp [elementAt, h0]

theorem randomSteps_spec (g : MelodyGenerator) (random : Nat → ℚ) (hN : g.scale ≠ [])
    (n : Nat) : ∀ (i : Nat) (lastIndex : Int),
    (g.randomSteps random n i lastIndex).length = n ∧
    ∀ x ∈ g.randomSteps random n i lastIndex, ∃ k, k < g.scale.length ∧ x = g.scale.get? k := by
  induction n with
  | zero =>
    intro i lastIndex
    simp [MelodyGenerator.randomSteps]
  | succ n ih =>
    intro i lastIndex
    obtain ⟨hl, hx⟩ := ih (i + 1)
      (g.clampIndex (lastIndex + (Int.floor (random i * 5) - 2)))
    obtain ⟨-, hlt, hel⟩ := clampIndex_range g (lastIndex + (Int.floor (random i * 5) - 2)) hN
    simp only [MelodyGenerator.randomSteps, List.length_cons, hl, List.mem_cons, true_and]
    rintro x (rfl | hmem)
    · exact ⟨_, hlt, hel⟩
    · exact hx x hmem

/-- C25: for a generator whose scale has `N ≥ 1` notes, every requested length `L`, every
pattern name and every outcome of `Math.random`: `generateMelody`, `generateRandomMelody` and
`generateHookMelody` each return exactly `L` entries, every one of which is `scale[k]` for an
index `k ≤ N - 1`.  Entry `i` of `generateMelody` is `scale[clamp(currentNote + o_i)]` and
entry `i` of `generateHookMelody` is `scale[clamp(floor(N / 2) + h_i)]`, with
`clamp(x) = max(0, min(N - 1, x))`, which saturates at 0 and at `N - 1`, `o_i` entry `i mod 8`
of the pattern and `h_i` entry `i mod 8` of the hook pattern; for BOUNCE on a generator with
`currentNote = 0` (as constructed) the index is `clamp(o_i)` with `o` repeating
0, 2, 4, 2, 0, -2, 0, 2. -/
theorem melody_indices_in_range (g : MelodyGenerator) (L : Nat) (pattern : String)
    (random : Nat → ℚ) (hN : g.scale ≠ []) :
    (g.generateMelody L pattern).length = L ∧
    (∀ x ∈ g.generateMelody L pattern, ∃ k, k < g.scale.length ∧ x = g.scale.get? k) ∧
    (g.generateRandomMelody L random).length = L ∧
    (∀ x ∈ g.generateRandomMelody L random, ∃ k, k < g.scale.length ∧ x = g.scale.get? k) ∧
    (g.generateHookMelody L).length = L ∧
    (∀ x ∈ g.generateHookMelody L, ∃ k, k < g.scale.length ∧ x = g.scale.get? k) ∧
    (∀ i, i < L → ∃ offset,
      ((MELODY_PATTERNS.lookup pattern).getD BOUNCE).get? (i % 8) = some offset ∧
      (g.generateMelody L pattern).get? i =
        some (g.scale.get?
          (max 0 (min ((g.scale.length : Int) - 1) (g.currentNote + offset))).toNat)) ∧
    (∀ i, i < L → ∃ offset,
      MelodyGenerator.hookPattern.get? (i % 8) = some offset ∧
      (g.generateHookMelody L).get? i =
        some (g.scale.get?
          (max 0 (min ((g.scale.length : Int) - 1)
            ((g.scale.length : Int) / 2 + offset))).toNat)) ∧
    (g.currentNote = 0 → ∀ i, i < L → ∃ offset,
      BOUNCE.get? (i % 8) = some offset ∧
      (g.generateMelody L "BOUNCE").get? i =
        some (g.scale.get? (max 0 (min ((g.scale.length : Int) - 1) offset)).toNat)) := by
  have hpat : ∀ (p : String) (i : Nat), ∃ offset,
      ((MELODY_PATTERNS.lookup p).getD BOUNCE).get? (i % 8) = some offset := by
    intro p i
    have hlen := melodyPattern_length p
    have hlt : i % 8 < ((MELODY_PATTERNS.lookup p).getD BOUNCE).length := by
      rw [hlen]
      exact Nat.mod_lt _ (by decide)
    exact ⟨_, List.get?_eq_get hlt⟩
  have hhook : ∀ i : Nat, ∃ offset, MelodyGenerator.hookPattern.get? (i % 8) = some offset := by
    intro i
    have hlt : i % 8 < MelodyGenerator.hookPattern.length := Nat.mod_lt _ (by decide)
    exact ⟨_, List.get?_eq_get hlt⟩
  have hgen : ∀ (p : String) (i : Nat), i < L → ∃ offset,
      ((MELODY_PATTERNS.lookup p).getD BOUNCE).get? (i % 8) = some offset ∧
      (g.generateMelody L p).get? i =
        some (g.scale.get?
          (max 0 (min ((g.scale.length : Int) - 1) (g.currentNote + offset))).toNat) := by
    intro p i hi
    obtain ⟨offset, hoff⟩ := hpat p i
    refine ⟨offset, hoff, ?_⟩
    unfold MelodyGenerator.generateMelody
    simp only [List.get?_eq_getElem?, List.getElem?_map, List.getElem?_range hi,
      Option.map_some', melodyPattern_length p]
    rw [List.get?_eq_getElem?] at hoff
    rw [hoff]
    dsimp only
    have hc := (clampIndex_range g (g.currentNote + offset) hN).2.2
    rw [List.get?_eq_getElem?] at hc
    exact congrArg some hc
  have hhk : ∀ i, i < L → ∃ offset,
      MelodyGenerator.hookPattern.get? (i % 8) = some offset ∧
      (g.generateHookMelody L).get? i =
        some (g.scale.get?
          (max 0 (min ((g.scale.length : Int) - 1)
            ((g.scale.length : Int) / 2 + offset))).toNat) := by
    intro i hi
    obtain ⟨offset, hoff⟩ := hhook i
    refine ⟨offset, hoff, ?_⟩
    unfold MelodyGenerator.generateHookMelody
    have h8 : MelodyGenerator.hookPattern.length = 8 := rfl
    simp only [List.get?_eq_getElem?, List.getElem?_map, List.getElem?_range hi,
      Option.map_some', h8]
    rw [List.get?_eq_getElem?] at hoff
    rw [hoff]
    dsimp only
    have hc := (clampIndex_range g ((g.scale.length : Int) / 2 + offset) hN).2.2
    rw [List.get?_eq_getElem?] at hc
    exact congrArg some hc
  have hmem : ∀ (l : List (Option String)), l.length = L →
      (∀ i, i < L → ∃ k, k < g.scale.length ∧ l.get? i = some (g.scale.get? k)) →
      ∀ x ∈ l, ∃ k, k < g.scale.length ∧ x = g.scale.get? k := by
    intro l hl hall x hx
    obtain ⟨i, hi, hxi⟩ := List.getElem_of_mem hx
    obtain ⟨k, hk, hget⟩ := hall i (by rw [← hl]; exact hi)
    rw [List.get?_eq_getElem?, List.getElem?_eq_getElem hi, hxi] at hget
    exact ⟨k, hk, Option.some.inj hget⟩
  have hlen1 : (g.generateMelody L pattern).length = L := by
    simp [MelodyGenerator.generateMelody]
  have hlen3 : (g.generateHookMelody L).length = L := by
    simp [MelodyGenerator.generateHookMelody]
  obtain ⟨hlen2, hmem2⟩ := randomSteps_spec g random hN L 0 ((g.scale.length : Int) / 2)
  refine ⟨hlen1, ?_, hlen2, hmem2, hlen3, ?_, hgen pattern, hhk, ?_⟩
  · apply hmem _ hlen1
    intro i hi
    obtain ⟨offset, -, hget⟩ := hgen pattern i hi
    exact ⟨_, (clampIndex_range g (g.currentNote + offset) hN).2.1, hget⟩
  · apply hmem _ hlen3
    intro i hi
    obtain ⟨offset, -, hget⟩ := hhk i hi
    exact ⟨_, (clampIndex_range g ((g.scale.length : Int) / 2 + offset) hN).2.1, hget⟩
  · intro hcur i hi
    obtain ⟨offset, hoff, hget⟩ := hgen "BOUNCE" i hi
    have hb : (MELODY_PATTERNS.lookup "BOUNCE").getD BOUNCE = BOUNCE := rfl
    rw [hb] at hoff
    rw [hcur, zero_add] at hget
    exact ⟨offset, hoff, hget⟩

/-- C25 on a new generator (scale `C_MAJOR_PENTA`, 8 notes): 1000 BOUNCE notes. -/
theorem melody_indices_in_range_witness :
    ((MelodyGenerator.create "C_MAJOR_PENTA").generateMelody 1000 "BOUNCE").length = 1000 ∧
    ∀ x ∈ (MelodyGenerator.create "C_MAJOR_PENTA").generateMelody 1000 "BOUNCE",
      ∃ k, k < (MelodyGenerator.create "C_MAJOR_PENTA").scale.length ∧
        x = (MelodyGenerator.create "C_MAJOR_PENTA").scale.get? k :=
  ⟨(melody_indices_in_range (MelodyGenerator.create "C_MAJOR_PENTA") 1000 "BOUNCE"
      (fun _ => 0) (by decide)).1,
    (melody_indices_in_range (MelodyGenerator.create "C_MAJOR_PENTA") 1000 "BOUNCE"
      (fun _ => 0) (by decide)).2.1⟩

/-! ## Tracks after `playSong` -/

theorem songs_facts (key : String) (song : Song) (h : SONGS.lookup key = some song) :
    song.melody.length = 16 ∧ song.bass.length = 16 ∧ song.drums.length = 16 ∧
    0 < song.bpm ∧
    ∃ chords, CHORD_PROGRESSIONS.lookup song.chordProgression = some chords ∧
      chords.length = 4 := by
  have hmem := lookup_mem key song SONGS h
  have hstruct : ∀ p ∈ SONGS, p.2.melody.length = 16 ∧ p.2.bass.length = 16 ∧
      p.2.drums.length = 16 ∧
      (CHORD_PROGRESSIONS.lookup p.2.chordProgression).map List.length = some 4 := by
    decide
  have hbpm : ∀ p ∈ SONGS, 0 < p.2.bpm := by
    intro p hp
    simp only [SONGS, List.mem_cons, List.mem_singleton, List.not_mem_nil, or_false] at hp
    rcases hp with h | h | h | h | h | h | h | h | h | h <;> rw [h] <;> norm_num
  obtain ⟨h1, h2, h3, h4⟩ := hstruct _ hmem
  refine ⟨h1, h2, h3, hbpm _ hmem, ?_⟩
  cases hc : CHORD_PROGRESSIONS.lookup song.chordProgression with
  | none =>
    rw [show ((key, song) : String × Song).2 = song from rfl, hc] at h4
    simp at h4
  | some chords =>
    rw [show ((key, song) : String × Song).2 = song from rfl, hc] at h4
    simp only [Option.map_some', Option.some.injEq] at h4
    exact ⟨chords, rfl, h4⟩

theorem harmonyTrack_spec (chords : List (List String)) :
    (MusicController.harmonyTrack chords).length = 16 ∧
    ∀ i, i < 16 → (MusicController.harmonyTrack chords).get? i =
      some (if i % 4 = 0 then chords.get? (i / 4 % chords.length) else none) := by
  constructor
  · simp [MusicController.harmonyTrack]
  · intro i hi
    simp [MusicController.harmonyTrack, List.getElem?_map, List.getElem?_range hi]

theorem sequencer_start_fields (s : MusicSequencer) (t : Timers) :
    (s.start t).1.tracks = s.tracks ∧ (s.start t).1.bpm = s.bpm ∧
    (s.start t).1.loopLength = s.loopLength ∧ (s.start t).1.currentBeat = s.currentBeat ∧
    (s.start t).1.currentBar = s.currentBar := by
  unfold start
  split
  · exact ⟨rfl, rfl, rfl, rfl, rfl⟩
  · exact ⟨rfl, rfl, rfl, rfl, rfl⟩

theorem controller_stop_sequencer (sys : System) :
    (MusicController.stop sys).controller.sequencer =
      sys.controller.sequencer.map (fun s => (s.stop sys.timers).1) := by
  obtain ⟨webAudio, graph, timers, controller⟩ := sys
  obtain ⟨sequencer, arpeggiator, melodyGen, currentSong, isInitialized, volume, isMuted⟩ :=
    controller
  cases sequencer <;> cases arpeggiator <;> rfl

theorem controller_pause_sequencer (sys : System) :
    (MusicController.pause sys).controller.sequencer =
      sys.controller.sequencer.map (fun s => (s.stop sys.timers).1) := by
  obtain ⟨webAudio, graph, timers, controller⟩ := sys
  obtain ⟨sequencer, arpeggiator, melodyGen, currentSong, isInitialized, volume, isMuted⟩ :=
    controller
  cases sequencer <;> rfl

theorem controller_init_loopLength (sys : System)
    (h : ∀ s, sys.controller.sequencer = some s → s.loopLength = 16) :
    ∀ s, (MusicController.init sys).sys.controller.sequencer = some s → s.loopLength = 16 := by
  unfold MusicController.init resumeAudio initAudioContext
  split
  · exact h
  · cases sys.graph with
    | some g =>
      intro s hs
      simp only [Outcome.sys, Option.some.injEq] at hs
      subst hs
      rfl
    | none =>
      cases sys.webAudio with
      | true =>
        intro s hs
        simp only [if_true, Outcome.sys, Option.some.injEq] at hs
        subst hs
        rfl
      | false =>
        simpa [Outcome.sys] using h

theorem controller_playSong_tracks (sys : System) (key : String) (song : Song)
    (hl : SONGS.lookup key = some song)
    (h : ∀ s, sys.controller.sequencer = some s → s.loopLength = 16)
    (hok : (MusicController.init sys).isOk = true) :
    ∀ s, (MusicController.playSong sys key).sys.controller.sequencer = some s →
      s.loopLength = 16 ∧ s.bpm = song.bpm ∧ s.tracks.melody = song.melody ∧
      s.tracks.bass = song.bass ∧ s.tracks.drums = song.drums ∧
      (∀ chords, CHORD_PROGRESSIONS.lookup song.chordProgression = some chords →
        s.tracks.harmony = MusicController.harmonyTrack chords) := by
  have h1 := controller_init_loopLength sys h
  unfold MusicController.playSong
  cases hinit : MusicController.init sys with
  | throws sys1 =>
    rw [hinit] at hok
    simp [Outcome.isOk] at hok
  | ok sys1 =>
    rw [hinit] at h1
    simp only [Outcome.sys] at h1
    simp only [hl]
    have hstop := controller_stop_sequencer sys1
    cases hs1 : sys1.controller.sequencer with
    | none =>
      rw [hs1] at hstop
      simp only [Option.map_none'] at hstop
      simp only [hstop]
      intro s hs
      simp only [Outcome.sys] at hs
      exact absurd hs (by simp)
    | some s0 =>
      rw [hs1] at hstop
      simp only [Option.map_some'] at hstop
      simp only [hstop]
      intro s hs
      simp only [Outcome.sys, Option.some.injEq] at hs
      subst hs
      obtain ⟨htr, hbpm, hll, -, -⟩ := sequencer_start_fields
        (MusicController.loadSong (s0.stop sys1.timers).1 song) (MusicController.stop sys1).timers
      obtain ⟨-, -, -, -, hll2, hbpm2, hmel, hbass, hdr⟩ :=
        controller_loadSong_fields (s0.stop sys1.timers).1 song
      have hll3 := (sequencer_stop_fields s0 sys1.timers).2.2.2.2.2
      refine ⟨by rw [hll, hll2, hll3]; exact h1 s0 hs1, by rw [hbpm, hbpm2], by rw [htr, hmel],
        by rw [htr, hbass], by rw [htr, hdr], ?_⟩
      intro chords hch
      rw [htr]
      exact controller_loadSong_harmony _ song chords hch

theorem controller_playSong_loopLength (sys : System) (key : String)
    (h : ∀ s, sys.controller.sequencer = some s → s.loopLength = 16) :
    ∀ s, (MusicController.playSong sys key).sys.controller.sequencer = some s →
      s.loopLength = 16 := by
  have h1 := controller_init_loopLength sys h
  unfold MusicController.playSong
  cases hinit : MusicController.init sys with
  | throws sys1 =>
    rw [hinit] at h1
    exact h1
  | ok sys1 =>
    rw [hinit] at h1
    simp only [Outcome.sys] at h1
    dsimp only
    cases hl : SONGS.lookup key with
    | none => exact h1
    | some song =>
      dsimp only
      have hstop := controller_stop_sequencer sys1
      cases hs1 : sys1.controller.sequencer with
      | none =>
        rw [hs1] at hstop
        simp only [Option.map_none'] at hstop
        simp only [hstop]
        intro s hs
        simp only [Outcome.sys] at hs
        exact absurd hs (by simp)
      | some s0 =>
        rw [hs1] at hstop
        simp only [Option.map_some'] at hstop
        simp only [hstop]
        intro s hs
        simp only [Outcome.sys, Option.some.injEq] at hs
        subst hs
        rw [(sequencer_start_fields _ _).2.2.1, (controller_loadSong_fields _ song).2.2.2.2.1,
          (sequencer_stop_fields s0 sys1.timers).2.2.2.2.2]
        exact h1 s0 hs1

theorem system_call_loopLength (sys : System) (c : Call)
    (h : ∀ s, sys.controller.sequencer = some s → s.loopLength = 16) :
    ∀ s, (sys.call c).sys.controller.sequencer = some s → s.loopLength = 16 := by
  have hstopped : ∀ s, sys.controller.sequencer.map (fun s => (s.stop sys.timers).1) = some s →
      s.loopLength = 16 := by
    intro s hs
    cases hs0 : sys.controller.sequencer with
    | none => rw [hs0] at hs; simp at hs
    | some s0 =>
      rw [hs0] at hs
      simp only [Option.map_some', Option.some.injEq] at hs
      subst hs
      rw [(sequencer_stop_fields s0 sys.timers).2.2.2.2.2]
      exact h s0 hs0
  cases c with
  | init => exact controller_init_loopLength sys h
  | playSong key => exact controller_playSong_loopLength sys key h
  | stop =>
    intro s hs
    simp only [System.call, Outcome.sys] at hs
    rw [controller_stop_sequencer] at hs
    exact hstopped s hs
  | pause =>
    intro s hs
    simp only [System.call, Outcome.sys] at hs
    rw [controller_pause_sequencer] at hs
    exact hstopped s hs
  | resume =>
    simp only [System.call, Outcome.sys]
    unfold MusicController.resume
    cases sys.controller.currentSong with
    | none => exact h
    | some key =>
      dsimp only
      split
      · exact controller_playSong_loopLength sys key h
      · exact h
  | setVolume v =>
    simp only [System.call, Outcome.sys, MusicController.setVolume,
      MusicController.setMusicGain]
    cases sys.graph <;> exact h
  | toggleMute =>
    simp only [System.call, Outcome.sys, MusicController.toggleMute,
      MusicController.setMusicGain]
    cases sys.graph <;> exact h
  | sequencerStart =>
    unfold System.call
    cases hs0 : sys.controller.sequencer with
    | none =>
      intro s hs
      simp only [Outcome.sys] at hs
      rw [hs0] at hs
      exact absurd hs (by simp)
    | some s0 =>
      intro s hs
      simp only [Outcome.sys, Option.some.injEq] at hs
      subst hs
      rw [(sequencer_start_fields s0 sys.timers).2.2.1]
      exact h s0 hs0
  | sequencerStop =>
    unfold System.call
    cases hs0 : sys.controller.sequencer with
    | none =>
      intro s hs
      simp only [Outcome.sys] at hs
      rw [hs0] at hs
      exact absurd hs (by simp)
    | some s0 =>
      intro s hs
      simp only [Outcome.sys, Option.some.injEq] at hs
      subst hs
      rw [(sequencer_stop_fields s0 sys.timers).2.2.2.2.2]
      exact h s0 hs0

theorem system_calls_loopLength (l : List Call) (sys : System)
    (h : ∀ s, sys.controller.sequencer = some s → s.loopLength = 16) :
    ∀ s, (sys.calls l).controller.sequencer = some s → s.loopLength = 16 := by
  induction l generalizing sys with
  | nil => exact h
  | cons c l ih => exact ih (sys.call c).sys (system_call_loopLength sys c h)

/-- C26: in every state reached from module load on a page with Web Audio, for every key of
`SONGS`, after `playSong(key)` the sequencer is playing with the song's melody, bass and
drums and the harmony track built from its chord progression; the four tracks have length
16, which is the sequencer's `loopLength`; the harmony track holds chord
`floor(i / 4) mod (progression length)` at every step `i` divisible by 4 and `null`
elsewhere; the tempo is the song's and greater than 0. -/
theorem playSong_tracks (l : List Call) (key : String) (song : Song)
    (hl : SONGS.lookup key = some song) :
    ∃ s chords,
      (MusicController.playSong ((System.create true).calls l) key).sys.controller.sequencer =
        some s ∧
      CHORD_PROGRESSIONS.lookup song.chordProgression = some chords ∧
      s.isPlaying = true ∧
      s.tracks.melody = song.melody ∧ s.tracks.bass = song.bass ∧
      s.tracks.drums = song.drums ∧
      s.tracks.melody.length = 16 ∧ s.tracks.harmony.length = 16 ∧
      s.tracks.bass.length = 16 ∧ s.tracks.drums.length = 16 ∧ s.loopLength = 16 ∧
      (∀ i, i < 16 → s.tracks.harmony.get? i =
        some (if i % 4 = 0 then chords.get? (i / 4 % chords.length) else none)) ∧
      (∀ i, i < 16 → i % 4 = 0 → ∃ chord, chords.get? (i / 4 % chords.length) = some chord) ∧
      s.bpm = song.bpm ∧ 0 < s.bpm := by
  obtain ⟨hc, hw⟩ := system_calls_consistent l (System.create true) (create_consistent true)
  have hP := system_calls_loopLength l (System.create true)
    (fun s hs => absurd hs (by simp [System.create, MusicController.create]))
  obtain ⟨-, -, hplay⟩ :=
    controller_playSong_of_consistent ((System.create true).calls l) key hc
  obtain ⟨s, hs, hp⟩ := hplay hw song hl
  obtain ⟨hll, hbpm, hmel, hbass, hdr, hhar⟩ :=
    controller_playSong_tracks ((System.create true).calls l) key song hl hP
      (init_ok_of_webAudio _ hw) s hs
  obtain ⟨h1, h2, h3, hpos, chords, hch, hclen⟩ := songs_facts key song hl
  obtain ⟨hhl, hhget⟩ := harmonyTrack_spec chords
  have hhar2 := hhar chords hch
  refine ⟨s, chords, hs, hch, hp, hmel, hbass, hdr, by rw [hmel, h1], by rw [hhar2, hhl],
    by rw [hbass, h2], by rw [hdr, h3], hll, ?_, ?_, hbpm, by rw [hbpm]; exact hpos⟩
  · intro i hi
    rw [hhar2]
    exact hhget i hi
  · intro i _ _
    have hlt : i / 4 % chords.length < chords.length := by
      rw [hclen]
      exact Nat.mod_lt _ (by decide)
    exact ⟨_, List.get?_eq_get hlt⟩

/-- C26 for `playSong('SHOP')` right after module load. -/
theorem playSong_tracks_witness :
    ∃ s,
      (MusicController.playSong (System.create true) "SHOP").sys.controller.sequencer =
        some s ∧
      s.tracks.melody.length = 16 ∧ s.tracks.harmony.length = 16 ∧
      s.tracks.bass.length = 16 ∧ s.tracks.drums.length = 16 ∧ s.loopLength = 16 ∧
      0 < s.bpm := by
  obtain ⟨s, chords, hs, -, -, -, -, -, h1, h2, h3, h4, h5, -, -, -, h6⟩ :=
    playSong_tracks [] "SHOP" _ rfl
  exact ⟨s, hs, h1, h2, h3, h4, h5, h6⟩

end MusicEngine
